import Mathlib

/-!
# rofi widgets and X11 helpers: a shallow embedding

The C sources `widgets/listview.c`, `widgets/scrollbar.c`, `widgets/separator.c`
and `x11-helper.c` are embedded as pure Lean functions.

* A C `unsigned int` is a `Nat` below `2 ^ 32`; every operation that can wrap is
  written with an explicit reduction modulo `4294967296`.
* A C `int` or `short` is an `Int`.
* A pointer argument that the code tests against `NULL` is an `Option`.
* A function that mutates the object behind a pointer returns the new object.
-/

namespace Rofi

/-! ## Machine arithmetic -/

/-- Wrapping addition of two `unsigned int` values. -/
def uadd (a b : Nat) : Nat := (a + b) % 4294967296

/-- Wrapping subtraction of two `unsigned int` values. -/
def usub (a b : Nat) : Nat := (a % 4294967296 + 4294967296 - b % 4294967296) % 4294967296

/-- Wrapping multiplication of two `unsigned int` values. -/
def umul (a b : Nat) : Nat := (a * b) % 4294967296

/-- Conversion of an `unsigned int` to `int` (two's complement). -/
def to_int (u : Nat) : Int :=
  if u % 4294967296 < 2147483648 then ((u % 4294967296 : Nat) : Int)
  else ((u % 4294967296 : Nat) : Int) - 4294967296

/-- Conversion of an `int` to `unsigned int` (reduction modulo `2 ^ 32`). -/
def to_uint (i : Int) : Nat := (i % 4294967296).toNat

/-- The glib macro `MIN(a, b)`, written `((a) < (b)) ? (a) : (b)`. -/
def MIN {α : Type} [LT α] [DecidableRel (fun (a b : α) => a < b)] (a b : α) : α :=
  if a < b then a else b

/-- The glib macro `MAX(a, b)`, written `((a) > (b)) ? (a) : (b)`. -/
def MAX {α : Type} [LT α] [DecidableRel (fun (a b : α) => a < b)] (a b : α) : α :=
  if b < a then a else b

/-- Results of functions that may trap are compared by evaluation. -/
instance instDecidableEqExcept {ε α : Type} [DecidableEq ε] [DecidableEq α] :
    DecidableEq (Except ε α)
  | Except.ok a, Except.ok b =>
    if h : a = b then isTrue (by rw [h]) else isFalse (fun h2 => h (Except.ok.inj h2))
  | Except.error a, Except.error b =>
    if h : a = b then isTrue (by rw [h]) else isFalse (fun h2 => h (Except.error.inj h2))
  | Except.ok _, Except.error _ => isFalse (fun h => Except.noConfusion h)
  | Except.error _, Except.ok _ => isFalse (fun h => Except.noConfusion h)

/-! ## Data model -/

/-- Geometry header shared by all widgets (`widget.x`, `.y`, `.w`, `.h` are C
`short`s, `.enabled` is a `gboolean`). -/
structure widget where
  x : Int
  y : Int
  w : Int
  h : Int
  enabled : Bool
deriving DecidableEq, Repr

/-- The `scrollbar` structure used by `scrollbar.c`. -/
structure scrollbar where
  widget : widget
  length : Nat
  pos : Nat
  pos_length : Nat
deriving DecidableEq, Repr

/-- The `ScrollType` enumeration used by `listview_draw`. -/
inductive ScrollType where
  | LISTVIEW_SCROLL_PER_PAGE
  | LISTVIEW_SCROLL_CONTINIOUS
deriving DecidableEq, Repr

/-- The `struct _listview` of `listview.c`.  The callbacks and their user data
are not part of the state; `boxes` keeps the geometry header of every textbox. -/
structure listview where
  widget : widget
  rchanged : Nat
  cur_page : Nat
  last_offset : Nat
  selected : Nat
  element_height : Nat
  element_width : Nat
  max_rows : Nat
  max_elements : Nat
  cur_columns : Nat
  req_elements : Nat
  cur_elements : Nat
  padding : Nat
  menu_lines : Nat
  menu_columns : Nat
  fixed_num_lines : Nat
  cycle : Bool
  multi_select : Bool
  scroll_type : ScrollType
  boxes : List Rofi.widget
  scrollbar : Option Rofi.scrollbar
  scrollbar_scroll : Bool
  last_click : Nat
deriving DecidableEq, Repr

/-! ## listview.c

`widget_queue_redraw` lives in `widget.c`; it receives the widget header only, so
it is a parameter `wqr : widget → widget` of every function that calls it. -/

/-- `listview_get_selected`. -/
def listview_get_selected (lv : Option listview) : Nat :=
  match lv with
  | some l => l.selected
  | none => 0

/-- `listview_set_selected`. -/
def listview_set_selected (wqr : widget → widget) (lv : Option listview) (selected : Nat) :
    Option listview :=
  match lv with
  | none => none
  | some l =>
    if l.req_elements > 0 then
      some { l with selected := MIN selected (usub l.req_elements 1), widget := wqr l.widget }
    else some l

/-- `listview_nav_up`. -/
def listview_nav_up (wqr : widget → widget) (lv : Option listview) : Option listview :=
  match lv with
  | none => none
  | some l =>
    if l.req_elements = 0 ∨ (l.selected = 0 ∧ l.cycle = false) then some l
    else
      let l1 := if l.selected = 0 then { l with selected := l.req_elements } else l
      some { l1 with selected := usub l1.selected 1, widget := wqr l1.widget }

/-- `listview_nav_down`. -/
def listview_nav_down (wqr : widget → widget) (lv : Option listview) : Option listview :=
  match lv with
  | none => none
  | some l =>
    if l.req_elements = 0 ∨ (l.selected = usub l.req_elements 1 ∧ l.cycle = false) then some l
    else
      some { l with
        selected :=
          if l.selected < usub l.req_elements 1 then
            MIN (usub l.req_elements 1) (uadd l.selected 1)
          else 0,
        widget := wqr l.widget }

/-- `listview_nav_left`. -/
def listview_nav_left (wqr : widget → widget) (lv : Option listview) : Option listview :=
  match lv with
  | none => none
  | some l =>
    if l.selected ≥ l.max_rows then
      some { l with selected := usub l.selected l.max_rows, widget := wqr l.widget }
    else some l

/-- `listview_nav_right`.  The integer divisions by `max_rows` trap when
`max_rows` is zero; that outcome is `Except.error`. -/
def listview_nav_right (wqr : widget → widget) (lv : Option listview) :
    Except String (Option listview) :=
  match lv with
  | none => Except.ok none
  | some l =>
    if uadd l.selected l.max_rows < l.req_elements then
      Except.ok (some { l with selected := uadd l.selected l.max_rows, widget := wqr l.widget })
    else if l.selected < usub l.req_elements 1 then
      if l.max_rows = 0 then Except.error "division by zero"
      else
        let col : Int := to_int (l.selected / l.max_rows)
        let ncol : Int := to_int (l.req_elements / l.max_rows)
        if col ≠ ncol then
          Except.ok (some { l with selected := usub l.req_elements 1, widget := wqr l.widget })
        else Except.ok (some l)
    else Except.ok (some l)

/-- `listview_nav_page_prev`. -/
def listview_nav_page_prev (wqr : widget → widget) (lv : Option listview) : Option listview :=
  match lv with
  | none => none
  | some l =>
    let l1 :=
      if l.selected < l.max_elements then { l with selected := 0 }
      else { l with selected := usub l.selected l.max_elements }
    some { l1 with widget := wqr l1.widget }

/-- `listview_nav_page_next`. -/
def listview_nav_page_next (wqr : widget → widget) (lv : Option listview) : Option listview :=
  match lv with
  | none => none
  | some l =>
    if l.req_elements = 0 then some l
    else
      let l1 := { l with selected := uadd l.selected l.max_elements }
      let l2 :=
        if l1.selected ≥ l1.req_elements then { l1 with selected := usub l1.req_elements 1 }
        else l1
      some { l2 with widget := wqr l2.widget }

/-- `listview_get_desired_height`.  The local `h` is a C `int`; `h` and `h - 1`
are converted back to `unsigned int` (modulo `2 ^ 32`) by the products with the
unsigned fields. -/
def listview_get_desired_height (lv : Option listview) : Nat :=
  match lv with
  | none => 0
  | some l =>
    let h0 : Int := to_int l.menu_lines
    let h : Int := if l.fixed_num_lines = 0 then to_int (MIN l.menu_lines l.req_elements) else h0
    if h = 0 then 0
    else uadd (umul (to_uint h) l.element_height) (umul (to_uint (h - 1)) l.padding)

/-- A small list view used to evaluate the functions: six elements shown in
columns of three rows. -/
def lv_example : listview :=
  { widget := { x := 0, y := 0, w := 100, h := 60, enabled := true },
    rchanged := 0, cur_page := 0, last_offset := 0, selected := 4,
    element_height := 18, element_width := 48, max_rows := 3, max_elements := 6,
    cur_columns := 2, req_elements := 6, cur_elements := 6, padding := 2,
    menu_lines := 3, menu_columns := 2, fixed_num_lines := 0, cycle := true,
    multi_select := false, scroll_type := ScrollType.LISTVIEW_SCROLL_PER_PAGE,
    boxes := [], scrollbar := none, scrollbar_scroll := false, last_click := 0 }


/-! ## scrollbar.c

The handle geometry is computed in C `double` arithmetic.  A `double` is modelled
by `dbl`: a finite value is an exact fraction (all integer operands are below
`2 ^ 32`, so they convert exactly; the rounding of a quotient to 53 bits is not
modelled), and division follows IEEE 754 for zero divisors. -/

/-- A C `double`: the finite value `num / den` (with `den > 0`), an infinity with
its sign, or not-a-number. -/
inductive dbl where
  | fin (num : Int) (den : Nat)
  | inf (negative : Bool)
  | nan
deriving DecidableEq, Repr

/-- Conversion of an integer to `double`. -/
def itod (i : Int) : dbl := dbl.fin i 1

/-- Division of two `double`s.  The divisors that occur are never negative, so
a zero divisor is `+0`. -/
def ddiv : dbl → dbl → dbl
  | dbl.nan, _ => dbl.nan
  | _, dbl.nan => dbl.nan
  | dbl.inf _, dbl.inf _ => dbl.nan
  | dbl.inf s, dbl.fin c _ => dbl.inf (if c < 0 then !s else s)
  | dbl.fin _ _, dbl.inf _ => dbl.fin 0 1
  | dbl.fin a b, dbl.fin c d =>
    if c = 0 then (if a = 0 then dbl.nan else dbl.inf (decide (a < 0)))
    else if 0 < c then dbl.fin (a * d) (b * c.toNat)
    else dbl.fin (-(a * d)) (b * (-c).toNat)

/-- Conversion `(unsigned int) d`: the fractional part is discarded.  C leaves the
conversion undefined for NaN, the infinities and values outside the range of
`unsigned int`; there the model follows the x86-64 code (a 64-bit `cvttsd2si`
whose low 32 bits are kept). -/
def dtou : dbl → Nat
  | dbl.fin a b =>
    let t : Int := Int.tdiv a b
    if -9223372036854775808 ≤ t ∧ t < 9223372036854775808 then (t % 4294967296).toNat
    else 0
  | dbl.inf _ => 0
  | dbl.nan => 0

/-- `scrollbar_create`. -/
def scrollbar_create (x y w h : Int) : scrollbar :=
  { widget := { x := x, y := y, w := MAX 1 w, h := MAX 1 h, enabled := true },
    length := 10, pos := 0, pos_length := 4 }

/-- `scrollbar_set_max_value`. -/
def scrollbar_set_max_value (sb : Option scrollbar) (max : Nat) : Option scrollbar :=
  match sb with
  | none => none
  | some s => some { s with length := MAX 1 max }

/-- `scrollbar_set_handle`. -/
def scrollbar_set_handle (sb : Option scrollbar) (pos : Nat) : Option scrollbar :=
  match sb with
  | none => none
  | some s => some { s with pos := MIN s.length pos }

/-- `scrollbar_set_handle_length`. -/
def scrollbar_set_handle_length (sb : Option scrollbar) (pos_length : Nat) : Option scrollbar :=
  match sb with
  | none => none
  | some s => some { s with pos_length := MIN s.length (MAX 1 pos_length) }

/-- The local `r` of `scrollbar_clicked` and `scrollbar_draw`:
`( length * widget.h ) / ( (double) ( length + pos_length ) )` stored in an
`unsigned int`. -/
def scrollbar_r (s : scrollbar) : Nat :=
  dtou (ddiv (itod (umul s.length (to_uint s.widget.h)))
    (itod (uadd s.length s.pos_length)))

/-- The local `handle = widget.h - r`. -/
def scrollbar_handle (s : scrollbar) : Nat := usub (to_uint s.widget.h) (scrollbar_r s)

/-- The local `sec = r / (double) ( length - 1 )`. -/
def scrollbar_sec (s : scrollbar) : dbl :=
  ddiv (itod (scrollbar_r s)) (itod (usub s.length 1))

/-- `scrollbar_clicked`. -/
def scrollbar_clicked (sb : Option scrollbar) (y : Int) : Nat :=
  match sb with
  | none => 0
  | some s =>
    if y ≥ s.widget.y ∧ y ≤ s.widget.y + s.widget.h then
      let handle := scrollbar_handle s
      let sec := scrollbar_sec s
      let half_handle := handle / 2
      let y1 : Int := to_int (usub (to_uint y) (uadd (to_uint s.widget.y) half_handle))
      let m : Int := MAX 0 y1
      let b : Nat := usub (to_uint s.widget.h) (umul 2 half_handle)
      let y2 : Int := to_int (if to_uint m < b then to_uint m else b)
      let sel : Nat := dtou (ddiv (itod y2) sec)
      MIN sel (usub s.length 1)
    else 0

/-- A scrollbar of height 28 for ten elements with a handle of four. -/
def sb_example : scrollbar :=
  { widget := { x := 96, y := 0, w := 4, h := 28, enabled := true },
    length := 10, pos := 0, pos_length := 4 }


/-! ## separator.c

`widget_need_redraw` lives in `widget.c`; like `widget_queue_redraw` it is a
parameter `wnr : widget → widget`. -/

/-- The `separator_type` enumeration. -/
inductive separator_type where
  | S_HORIZONTAL
  | S_VERTICAL
deriving DecidableEq, Repr

/-- The `separator_line_style` enumeration. -/
inductive separator_line_style where
  | S_LINE_NONE
  | S_LINE_SOLID
  | S_LINE_DASH
deriving DecidableEq, Repr

/-- The `struct _separator`. -/
structure separator where
  widget : widget
  type : separator_type
  line_style : separator_line_style
deriving DecidableEq, Repr

/-- The C library `strcmp` on the characters of two strings: zero, negative or
positive. -/
def strcmp : List Char → List Char → Int
  | [], [] => 0
  | [], _ :: _ => -1
  | _ :: _, [] => 1
  | a :: as, b :: bs => if a = b then strcmp as bs else (a.toNat : Int) - (b.toNat : Int)

/-- The glib function `g_strcmp0`: `strcmp` that accepts `NULL`, which sorts
before every string. -/
def g_strcmp0 : Option String → Option String → Int
  | none, none => 0
  | none, some _ => -1
  | some _, none => 1
  | some a, some b => strcmp a.data b.data

/-- The constant `_separator_style_none`. -/
def _separator_style_none : String := "none"

/-- The constant `_separator_style_dash`. -/
def _separator_style_dash : String := "dash"

/-- `separator_set_line_style`. -/
def separator_set_line_style (wnr : widget → widget) (sp : Option separator)
    (style : separator_line_style) : Option separator :=
  match sp with
  | none => none
  | some s => some { s with line_style := style, widget := wnr s.widget }

/-- `separator_set_line_style_from_string`. -/
def separator_set_line_style_from_string (wnr : widget → widget) (sp : Option separator)
    (style_str : Option String) : Option separator :=
  match sp with
  | none => none
  | some s =>
    let style :=
      if g_strcmp0 style_str (some _separator_style_none) = 0 then
        separator_line_style.S_LINE_NONE
      else if g_strcmp0 style_str (some _separator_style_dash) = 0 then
        separator_line_style.S_LINE_DASH
      else separator_line_style.S_LINE_SOLID
    separator_set_line_style wnr (some s) style


/-! ## x11-helper.c: parsing a key binding

`x11_parse_key` reads the static table `x11_mod_masks` and calls into glib and
xkbcommon.  The table and the library functions whose results depend on the
keymap, the locale or markup rules are collected in `x11_env`; string splitting
and stripping are modelled after the glib documentation.  C strings are lists of
characters. -/

/-- The indices of `x11_mod_masks`. -/
inductive X11Mod where
  | X11MOD_SHIFT
  | X11MOD_CONTROL
  | X11MOD_ALT
  | X11MOD_META
  | X11MOD_SUPER
  | X11MOD_HYPER
  | X11MOD_ANY
deriving DecidableEq, Repr

/-- The keysym `XKB_KEY_NoSymbol`. -/
def XKB_KEY_NoSymbol : Nat := 0

/-- What `x11_parse_key` takes from outside: the table `x11_mod_masks`, the
xkbcommon lookup `xkb_keysym_from_name` (with `XKB_KEYSYM_NO_FLAGS`), and the
glib functions `g_utf8_strdown`, `g_ascii_isspace` and `g_markup_escape_text`. -/
structure x11_env where
  x11_mod_masks : X11Mod → Nat
  xkb_keysym_from_name : List Char → Nat
  g_utf8_strdown : List Char → List Char
  g_ascii_isspace : Char → Bool
  g_markup_escape_text : List Char → List Char

/-- The scanning loop of the glib function `g_strsplit_set`: `cur` is the token
collected so far; a delimiter closes it, the end of the string closes the last
one. -/
def g_strsplit_set_loop (delimiters : List Char) : List Char → List Char → List (List Char)
  | [], cur => [cur]
  | c :: cs, cur =>
    if c ∈ delimiters then cur :: g_strsplit_set_loop delimiters cs []
    else g_strsplit_set_loop delimiters cs (cur ++ [c])

/-- The glib function `g_strsplit_set` with `max_tokens = -1`: the empty string
gives no token at all. -/
def g_strsplit_set (string delimiters : List Char) : List (List Char) :=
  if string = [] then [] else g_strsplit_set_loop delimiters string []

/-- The glib macro `g_strstrip`: leading and trailing white space is removed. -/
def g_strstrip (env : x11_env) (string : List Char) : List Char :=
  (string.dropWhile env.g_ascii_isspace).rdropWhile env.g_ascii_isspace

/-- The chain of comparisons `g_utf8_collate ( entry_lowered, "shift" ) == 0`,
"control", "alt", "super", "meta", "hyper" of `x11_parse_key`: the table index of
the branch taken and the name it prints in its error message.  Collation
equality is equality of the strings. -/
def x11_modifier_of_name (entry_lowered : List Char) : Option (X11Mod × List Char) :=
  if entry_lowered = "shift".toList then some (X11Mod.X11MOD_SHIFT, "Shift".toList)
  else if entry_lowered = "control".toList then some (X11Mod.X11MOD_CONTROL, "Control".toList)
  else if entry_lowered = "alt".toList then some (X11Mod.X11MOD_ALT, "Alt".toList)
  else if entry_lowered = "super".toList then some (X11Mod.X11MOD_SUPER, "Super".toList)
  else if entry_lowered = "meta".toList then some (X11Mod.X11MOD_META, "Meta".toList)
  else if entry_lowered = "hyper".toList then some (X11Mod.X11MOD_HYPER, "Hyper".toList)
  else none

/-- The locals `modmask`, `sym` and `error_msg` of `x11_parse_key`. -/
structure parse_key_locals where
  modmask : Nat
  sym : Nat
  error_msg : Option (List Char)
deriving DecidableEq, Repr

/-- One iteration of the loop over `entries` in `x11_parse_key`. -/
def x11_parse_key_entry (env : x11_env) (st : parse_key_locals) (entry0 : List Char) :
    parse_key_locals :=
  let entry := g_strstrip env entry0
  let entry_lowered := env.g_utf8_strdown entry
  match x11_modifier_of_name entry_lowered with
  | some (m, name) =>
    { st with
      modmask := st.modmask ||| env.x11_mod_masks m,
      error_msg :=
        if env.x11_mod_masks m = 0 then
          some ("X11 configured keyboard has no <b>".toList ++ name ++ "</b> key.\n".toList)
        else st.error_msg }
  | none =>
    let sym := env.xkb_keysym_from_name entry
    { st with
      sym := sym,
      error_msg :=
        if sym = XKB_KEY_NoSymbol then
          some ("∙ Key <i>".toList ++ env.g_markup_escape_text entry
            ++ "</i> is not understood\n".toList)
        else st.error_msg }

/-- The objects behind the pointers `mod`, `key`, `release` and `str` of
`x11_parse_key`. -/
structure parse_key_out where
  mod : Nat
  key : Nat
  release : Bool
  str : List Char
deriving DecidableEq, Repr

/-- `x11_parse_key`: the return value and the objects behind the four pointers. -/
def x11_parse_key (env : x11_env) (combo : List Char) (out : parse_key_out) :
    Bool × parse_key_out :=
  let mod_key := if combo.head? = some '!' then combo.tail else combo
  let out1 := if combo.head? = some '!' then { out with release := true } else out
  let entries := g_strsplit_set mod_key "+-".toList
  let st := entries.foldl (x11_parse_key_entry env)
    { modmask := 0, sym := XKB_KEY_NoSymbol, error_msg := none }
  match st.error_msg with
  | some error_msg =>
    let name := env.g_markup_escape_text combo
    (false, { out1 with
      str := out1.str ++ "Cannot understand the key combination: <i>".toList ++ name
        ++ "</i>\n".toList ++ error_msg })
  | none => (true, { out1 with key := st.sym, mod := st.modmask })

/-- A keyboard for evaluation: Shift, Control, Alt and Super have masks, Meta and
Hyper have none; the key names "a" and "Return" are understood. -/
def env_example : x11_env :=
  { x11_mod_masks := fun m =>
      match m with
      | X11Mod.X11MOD_SHIFT => 1
      | X11Mod.X11MOD_CONTROL => 4
      | X11Mod.X11MOD_ALT => 8
      | X11Mod.X11MOD_META => 0
      | X11Mod.X11MOD_SUPER => 64
      | X11Mod.X11MOD_HYPER => 0
      | X11Mod.X11MOD_ANY => 77,
    xkb_keysym_from_name := fun n =>
      if n = "a".toList then 97 else if n = "Return".toList then 65293 else 0,
    g_utf8_strdown := fun n => n.map Char.toLower,
    g_ascii_isspace := fun c => c = ' ' || c = '\t' || c = '\n' || c = '\r',
    g_markup_escape_text := fun n => n }

/-! ### The shape of a key combination -/

/-- The text `sep e2 sep e3 ...` that follows the first entry of a combination. -/
def combo_tail : List (Char × List Char) → List Char
  | [] => []
  | p :: r => p.1 :: (p.2 ++ combo_tail r)

/-- The modifier an entry names: the entry, white space trimmed and lowered, is
one of shift, control, alt, super, meta, hyper. -/
def entry_modifier (env : x11_env) (e : List Char) : Option X11Mod :=
  (x11_modifier_of_name (env.g_utf8_strdown (g_strstrip env e))).map Prod.fst

/-- An entry that is either a modifier name with a non-zero configured mask or a
name that `xkb_keysym_from_name` accepts. -/
def entry_accepted (env : x11_env) (e : List Char) : Prop :=
  match entry_modifier env e with
  | some m => env.x11_mod_masks m ≠ 0
  | none => env.xkb_keysym_from_name (g_strstrip env e) ≠ XKB_KEY_NoSymbol

/-- Acceptance of an entry is decided by evaluating the keyboard tables. -/
instance entry_accepted_decidable (env : x11_env) (e : List Char) :
    Decidable (entry_accepted env e) :=
  match h : entry_modifier env e with
  | some m => decidable_of_iff (env.x11_mod_masks m ≠ 0) (by simp [entry_accepted, h])
  | none =>
    decidable_of_iff (env.xkb_keysym_from_name (g_strstrip env e) ≠ XKB_KEY_NoSymbol)
      (by simp [entry_accepted, h])

/-- The bitwise OR of the masks of the modifiers named by the entries. -/
def combo_mod_mask (env : x11_env) (es : List (List Char)) : Nat :=
  (es.filterMap (entry_modifier env)).foldl (fun acc m => acc ||| env.x11_mod_masks m) 0

/-- The keysym of the last entry that is not a modifier name, `XKB_KEY_NoSymbol`
when there is none. -/
def combo_key (env : x11_env) (es : List (List Char)) : Nat :=
  match (es.filter (fun e => (entry_modifier env e).isNone)).getLast? with
  | some e => env.xkb_keysym_from_name (g_strstrip env e)
  | none => XKB_KEY_NoSymbol

/-- The text of a combination after its optional leading `!`. -/
def combo_body (combo : List Char) : List Char :=
  if combo.head? = some '!' then combo.tail else combo

/-- An entry that is a modifier name whose configured mask is zero, or else a
name that `xkb_keysym_from_name` does not understand. -/
def entry_rejected (env : x11_env) (e : List Char) : Prop :=
  match entry_modifier env e with
  | some m => env.x11_mod_masks m = 0
  | none => env.xkb_keysym_from_name (g_strstrip env e) = XKB_KEY_NoSymbol

/-- Rejection of an entry is decided by evaluating the keyboard tables. -/
instance entry_rejected_decidable (env : x11_env) (e : List Char) :
    Decidable (entry_rejected env e) :=
  match h : entry_modifier env e with
  | some m => decidable_of_iff (env.x11_mod_masks m = 0) (by simp [entry_rejected, h])
  | none =>
    decidable_of_iff (env.xkb_keysym_from_name (g_strstrip env e) = XKB_KEY_NoSymbol)
      (by simp [entry_rejected, h])

/-! ## x11-helper.c: modifier masks -/

/-- The indices visited by the loops `for ( i = 0; i < X11MOD_ANY; ++i )`. -/
def x11_modifiers : List X11Mod :=
  [X11Mod.X11MOD_SHIFT, X11Mod.X11MOD_CONTROL, X11Mod.X11MOD_ALT, X11Mod.X11MOD_META,
    X11Mod.X11MOD_SUPER, X11Mod.X11MOD_HYPER]

/-- `x11_figure_out_masks`: `find i` is the result of the call of
`x11_find_mod_mask` for modifier `i` (it depends on the keymap), `old` is the
table before the call. -/
def x11_figure_out_masks (find : X11Mod → Nat) (old : X11Mod → Nat) : X11Mod → Nat :=
  let t : X11Mod → Nat := fun i => if i = X11Mod.X11MOD_ANY then old X11Mod.X11MOD_ANY else find i
  fun i =>
    if i = X11Mod.X11MOD_ANY then
      x11_modifiers.foldl (fun any j => any ||| t j) (t X11Mod.X11MOD_ANY)
    else t i

/-- `x11_modifier_active`. -/
def x11_modifier_active (x11_mod_masks : X11Mod → Nat) (mask : Nat) (key : X11Mod) : Bool :=
  decide (x11_mod_masks key &&& mask ≠ 0)

/-- The body of the loop of `x11_canonalize_mask`. -/
def x11_canonalize_step (x11_mod_masks : X11Mod → Nat) (mask : Nat) (i : X11Mod) : Nat :=
  if mask &&& x11_mod_masks i ≠ 0 then mask ||| x11_mod_masks i else mask

/-- `x11_canonalize_mask`. -/
def x11_canonalize_mask (x11_mod_masks : X11Mod → Nat) (mask : Nat) : Nat :=
  x11_modifiers.foldl (x11_canonalize_step x11_mod_masks)
    (mask &&& x11_mod_masks X11Mod.X11MOD_ANY)

/-- Every bit set in `a` is set in `b`. -/
def bits_sub (a b : Nat) : Prop := ∀ k, a.testBit k = true → b.testBit k = true

/-! ## listview.c: scrolling and layout -/

/-- The glib constant `TRUE`. -/
def TRUE : Nat := 1

/-- The glib constant `FALSE`. -/
def FALSE : Nat := 0

/-- `scroll_per_page`: the offset returned and the list view afterwards.  The
local `offset` is a C `int`. -/
def scroll_per_page (lv : listview) : Nat × listview :=
  if usub lv.selected lv.last_offset < lv.max_elements ∧ lv.selected ≥ lv.last_offset then
    (to_uint (to_int lv.last_offset), lv)
  else
    let page := if lv.max_elements > 0 then lv.selected / lv.max_elements else 0
    let offset : Int := to_int (umul page lv.max_elements)
    let lv1 := if page ≠ lv.cur_page then { lv with cur_page := page, rchanged := TRUE } else lv
    (to_uint offset, lv1)

/-- The local `middle` of `scroll_continious`. -/
def scroll_continious_middle (lv : listview) : Nat :=
  usub lv.max_rows (if lv.max_rows &&& 1 = 0 then 1 else 0) / 2

/-- The local `offset` of `scroll_continious` before it is compared with
`cur_page`. -/
def scroll_continious_offset (lv : listview) : Nat :=
  let middle := scroll_continious_middle lv
  if lv.selected > middle then
    if lv.selected < usub lv.req_elements (usub lv.max_rows middle) then
      usub lv.selected middle
    else if lv.req_elements > lv.max_rows then usub lv.req_elements lv.max_rows
    else 0
  else 0

/-- `scroll_continious`: the offset returned and the list view afterwards. -/
def scroll_continious (lv : listview) : Nat × listview :=
  let offset := scroll_continious_offset lv
  let lv1 := if offset ≠ lv.cur_page then { lv with cur_page := offset, rchanged := TRUE } else lv
  (offset, lv1)

/-- The functions of `widget.c` and `textbox.c` that the list view calls.  Each of
them works on the widget header it is given; `textbox_create` receives whether
`TB_INDICATOR` is requested and the height, and yields the header of the new
textbox. -/
structure widget_env where
  widget_queue_redraw : widget → widget
  widget_move : widget → Int → Int → widget
  widget_resize : widget → Int → Int → widget
  widget_get_width : widget → Int
  textbox_create : Bool → Nat → widget

/-- `listview_recompute_elements`.  The textboxes beyond the new count are freed
and the missing ones are created. -/
def listview_recompute_elements (api : widget_env) (lv : listview) : listview :=
  if lv.max_rows = 0 then lv
  else
    let newne : Nat := if lv.req_elements < lv.max_elements then lv.req_elements
      else lv.max_elements
    let lv1 : listview :=
      if lv.req_elements < lv.max_elements then
        { lv with cur_columns := uadd lv.req_elements (usub lv.max_rows 1) / lv.max_rows }
      else { lv with cur_columns := lv.menu_columns }
    let boxes := lv1.boxes.take newne
      ++ List.replicate (newne - lv1.cur_elements)
          (api.textbox_create lv1.multi_select lv1.element_height)
    { lv1 with
      boxes := boxes,
      rchanged := TRUE,
      scrollbar := scrollbar_set_handle_length lv1.scrollbar (umul lv1.cur_columns lv1.max_rows),
      cur_elements := newne }

/-- `listview_resize`.  The division by `element_height + padding` traps when
that sum is zero; the outcome is then `Except.error`. -/
def listview_resize (api : widget_env) (lv : listview) (w h : Int) : Except String listview :=
  let lv1 : listview := { lv with widget := { lv.widget with w := MAX 0 w, h := MAX 0 h } }
  if uadd lv1.element_height lv1.padding = 0 then Except.error "division by zero"
  else
    let lv2 : listview :=
      { lv1 with
        max_rows := uadd lv1.padding (to_uint lv1.widget.h)
          / uadd lv1.element_height lv1.padding }
    let lv3 : listview := { lv2 with max_elements := umul lv2.max_rows lv2.menu_columns }
    let lv4 : listview :=
      { lv3 with
        scrollbar := lv3.scrollbar.map (fun s =>
          { s with
            widget := api.widget_move s.widget
              (lv3.widget.w - api.widget_get_width s.widget) 0 }) }
    let lv5 : listview :=
      { lv4 with
        scrollbar := lv4.scrollbar.map (fun s =>
          { s with
            widget := api.widget_resize s.widget (api.widget_get_width s.widget) h }) }
    let lv6 := listview_recompute_elements api lv5
    Except.ok { lv6 with widget := api.widget_queue_redraw lv6.widget }

/-- An implementation of the widget functions for evaluation: moving and
resizing store the geometry, queuing a redraw leaves the header alone. -/
def api_example : widget_env :=
  { widget_queue_redraw := fun wd => wd,
    widget_move := fun wd x y => { wd with x := x, y := y },
    widget_resize := fun wd w h => { wd with w := w, h := h },
    widget_get_width := fun wd => wd.w,
    textbox_create := fun _ h => { x := 0, y := 0, w := 0, h := h, enabled := true } }

/-- A list view whose `element_height + padding` wraps around to `1`. -/
def lv_wrap_padding : listview :=
  { lv_example with element_height := 3, padding := 4294967294, menu_columns := 1 }

/-- A list view with more than `2 ^ 31` rows per column and `2 ^ 31` elements. -/
def lv_wrap_columns : listview :=
  { lv_example with
    max_rows := 2147483649, menu_columns := 1, max_elements := 2147483649,
    req_elements := 2147483648, cur_elements := 2147483648, cur_columns := 1 }

/-! ## scrollbar.c: drawing -/

/-- Multiplication of two `double`s. -/
def dmul : dbl → dbl → dbl
  | dbl.nan, _ => dbl.nan
  | _, dbl.nan => dbl.nan
  | dbl.inf s, dbl.inf t => dbl.inf (s != t)
  | dbl.inf s, dbl.fin a _ => if a = 0 then dbl.nan else dbl.inf (if a < 0 then !s else s)
  | dbl.fin a _, dbl.inf s => if a = 0 then dbl.nan else dbl.inf (if a < 0 then !s else s)
  | dbl.fin a b, dbl.fin c d => dbl.fin (a * c) (b * d)

/-- The local `y` of `scrollbar_draw` after `y = MIN ( y, wid->h - handle )`. -/
def scrollbar_draw_y (s : scrollbar) : Nat :=
  let y := dtou (dmul (itod s.pos) (scrollbar_sec s))
  MIN y (usub (to_uint s.widget.h) (scrollbar_handle s))

/-- The local `height` of `scrollbar_draw` after `height = MAX ( 2, height )`. -/
def scrollbar_draw_height (s : scrollbar) : Nat := MAX 2 (scrollbar_handle s)

/-- The arguments of a call of `cairo_rectangle`. -/
structure cairo_rect where
  x : Int
  y : Nat
  width : Int
  height : Nat
deriving DecidableEq, Repr

/-- `scrollbar_draw`: the rectangle that is filled.  (The colour comes from
`color_separator`.) -/
def scrollbar_draw (s : scrollbar) : cairo_rect :=
  { x := s.widget.x,
    y := uadd (to_uint s.widget.y) (scrollbar_draw_y s),
    width := s.widget.w,
    height := scrollbar_draw_height s }

/-- The scrollbar of a list of 129 elements that shows two of them in a bar 65
pixels high, with the last element selected. -/
def sb_long_list : scrollbar :=
  { widget := { x := 96, y := 0, w := 4, h := 65, enabled := true },
    length := 129, pos := 128, pos_length := 2 }

/-! ## x11-helper.c: monitors

The monitor list `xcb->monitors`, the screen size and the replies of the X server
to the queries of `monitor_active_from_id` form one snapshot `x11_state`: a query
that is repeated gets the same reply. -/

/-- The `workarea` structure; the list link `next` is the position in the list
of monitors. -/
structure workarea where
  monitor_id : Int
  primary : Int
  x : Int
  y : Int
  w : Int
  h : Int
  name : Option String
deriving DecidableEq, Repr

/-- The screen, the monitor list and the replies of the X server: the pointer
position (`xcb_query_pointer`), the current desktop and the desktop viewports
(EWMH), the active window, its geometry `(x, y, width, height)` and its translated
origin `(dst_x, dst_y)`.  A reply that is `none` is a failed query. -/
structure x11_state where
  width_in_pixels : Nat
  height_in_pixels : Nat
  monitors : List workarea
  pointer : Option (Int × Int)
  current_desktop : Option Nat
  desktop_viewport : Option (List (Nat × Nat))
  active_window : Option Nat
  geometry : Option (Int × Int × Int × Int)
  translate : Option (Int × Int)

/-- The macro `INTERSECT`: the point lies in the half-open rectangle. -/
def INTERSECT (x y x1 y1 w1 h1 : Int) : Bool :=
  decide ((x ≥ x1 ∧ x < x1 + w1) ∧ (y ≥ y1 ∧ y < y1 + h1))

/-- What `memset` and the two assignments at the head of `monitor_dimensions` and
`monitor_get_dimension` leave in `*mon`: the whole screen. -/
def whole_screen (xs : x11_state) : workarea :=
  { monitor_id := 0, primary := 0, x := 0, y := 0,
    w := (xs.width_in_pixels : Int), h := (xs.height_in_pixels : Int), name := none }

/-- The loop of `monitor_dimensions` over the monitor list. -/
def monitor_dimensions_loop (x y : Int) : List workarea → workarea → workarea
  | [], mon => mon
  | iter :: rest, mon =>
    if INTERSECT x y iter.x iter.y iter.w iter.h then iter
    else monitor_dimensions_loop x y rest mon

/-- `monitor_dimensions`: the value left in `*mon`. -/
def monitor_dimensions (xs : x11_state) (x y : Int) : workarea :=
  monitor_dimensions_loop x y xs.monitors (whole_screen xs)

/-- The loop of `monitor_get_dimension` over the monitor list. -/
def monitor_get_dimension_loop (monitor_id : Int) : List workarea → workarea → Bool × workarea
  | [], mon => (false, mon)
  | iter :: rest, mon =>
    if iter.monitor_id = monitor_id then (true, iter)
    else monitor_get_dimension_loop monitor_id rest mon

/-- `monitor_get_dimension`: the return value and the value left in `*mon`. -/
def monitor_get_dimension (xs : x11_state) (monitor_id : Int) : Bool × workarea :=
  monitor_get_dimension_loop monitor_id xs.monitors (whole_screen xs)

/-- `pointer_get`: the reply of the X server, `none` when the query fails. -/
def pointer_get (xs : x11_state) : Option (Int × Int) := xs.pointer

/-- `monitor_active_from_id`: the return value and the value left in `*mon`.
The function calls itself; `fuel` bounds the depth of the calls and the result is
`none` when it does not suffice. -/
def monitor_active_from_id (fuel : Nat) (xs : x11_state) (mon_id : Int) (mon : workarea) :
    Option (Bool × workarea) :=
  match fuel with
  | 0 => none
  | fuel + 1 =>
    if mon_id = -3 then
      match pointer_get xs with
      | some (x, y) => some (true, { monitor_dimensions xs x y with x := x, y := y })
      | none => monitor_active_from_id fuel xs (-5) mon
    else if mon_id = -1 then
      match xs.current_desktop, xs.desktop_viewport with
      | some current_desktop, some vp =>
        match vp.get? current_desktop with
        | some v => some (true, monitor_dimensions xs (to_int v.1) (to_int v.2))
        | none => monitor_active_from_id fuel xs (-5) mon
      | _, _ => monitor_active_from_id fuel xs (-5) mon
    else if mon_id = -2 ∨ mon_id = -4 then
      match xs.active_window, xs.geometry, xs.translate with
      | some _, some r, some t =>
        if mon_id = -2 then
          some (true, { mon with x := t.1 - r.1, y := t.2 - r.2.1, w := r.2.2.1, h := r.2.2.2 })
        else some (true, monitor_dimensions xs t.1 t.2)
      | _, _, _ => monitor_active_from_id fuel xs (-5) mon
    else if mon_id = -5 then
      match pointer_get xs with
      | some (x, y) => some (true, monitor_dimensions xs x y)
      | none => some (false, mon)
    else monitor_active_from_id fuel xs (-5) mon

/-- The first monitor whose name equals `config.monitor`. -/
def monitor_by_name (config_monitor : Option String) : List workarea → Option workarea
  | [] => none
  | iter :: rest =>
    if g_strcmp0 config_monitor iter.name = 0 then some iter
    else monitor_by_name config_monitor rest

/-- The first monitor that is flagged primary. -/
def monitor_primary : List workarea → Option workarea
  | [] => none
  | iter :: rest => if iter.primary ≠ 0 then some iter else monitor_primary rest

/-- The conversion of a `gint64` argument to the `int` parameter of
`monitor_get_dimension` and `monitor_active_from_id`. -/
def int_of_gint64 (i : Int) : Int := to_int (to_uint i)

/-- `monitor_active`: the return value and the value left in `*mon`.
`g_ascii_strtoll s` is the number glib reads at the start of `s` with base 0, and
`none` when it reads nothing (`end == config.monitor`), which is what happens for
a `NULL` string as well. -/
def monitor_active (fuel : Nat) (g_ascii_strtoll : String → Option Int) (xs : x11_state)
    (config_monitor : Option String) (mon : workarea) : Option (Bool × workarea) :=
  match (if config_monitor ≠ none then monitor_by_name config_monitor xs.monitors else none) with
  | some iter => some (true, iter)
  | none =>
    match (if g_strcmp0 config_monitor (some "primary") = 0 then monitor_primary xs.monitors
      else none) with
    | some iter => some (true, iter)
    | none =>
      match config_monitor.bind g_ascii_strtoll with
      | some mon_id =>
        if mon_id ≥ 0 then
          if (monitor_get_dimension xs (int_of_gint64 mon_id)).1 then
            some (true, (monitor_get_dimension xs (int_of_gint64 mon_id)).2)
          else some (false, monitor_dimensions xs 0 0)
        else monitor_active_from_id fuel xs (int_of_gint64 mon_id) mon
      | none => some (false, monitor_dimensions xs 0 0)

/-- Two monitors side by side, the second one primary, on a screen of 3840 by
1080 pixels; the pointer is on the second monitor. -/
def xs_example : x11_state :=
  { width_in_pixels := 3840, height_in_pixels := 1080,
    monitors :=
      [{ monitor_id := 0, primary := 0, x := 0, y := 0, w := 1920, h := 1080,
         name := some "DP-1" },
       { monitor_id := 1, primary := 1, x := 1920, y := 0, w := 1920, h := 1080,
         name := some "HDMI-1" }],
    pointer := some (2000, 500), current_desktop := none, desktop_viewport := none,
    active_window := none, geometry := none, translate := none }

/-- The value of a string of decimal digits. -/
def decimal_value (cs : List Char) : Nat :=
  cs.foldl (fun acc c => 10 * acc + (c.toNat - 48)) 0

/-- A reader of decimal numbers standing in for `g_ascii_strtoll` in evaluations:
an optional `-` followed by digits. -/
def strtoll_example (s : String) : Option Int :=
  if s.data.head? = some '-' then
    if s.data.tail ≠ [] ∧ s.data.tail.all Char.isDigit then
      some (-(decimal_value s.data.tail : Int))
    else none
  else if s.data ≠ [] ∧ s.data.all Char.isDigit then some (decimal_value s.data : Int)
  else none

/-- A `workarea` holding zeros, as a caller of `monitor_active` passes it. -/
def workarea_zero : workarea :=
  { monitor_id := 0, primary := 0, x := 0, y := 0, w := 0, h := 0, name := none }

/-! ## x11-helper.c: colours

`color_get` reads a number with the C library function `strtoul` and stores it in
a union of a 32-bit `pixel` and the four bytes `b`, `g`, `r`, `a`; on the
little-endian machines rofi runs on, `b` is the lowest byte of `pixel`. -/

/-- The `Color` structure: four `double` components. -/
structure Color where
  red : dbl
  green : dbl
  blue : dbl
  alpha : dbl
deriving DecidableEq, Repr

/-- The bytes `sep.b`, `sep.g`, `sep.r`, `sep.a` of the local union `color`. -/
structure color_sep where
  b : Nat
  g : Nat
  r : Nat
  a : Nat
deriving DecidableEq, Repr

/-- The bytes of the union after `color.pixel = v` (`v` is reduced to 32 bits). -/
def color_of_pixel (v : Nat) : color_sep :=
  { b := v % 4294967296 % 256,
    g := v % 4294967296 / 256 % 256,
    r := v % 4294967296 / 65536 % 256,
    a := v % 4294967296 / 16777216 % 256 }

/-- The value of a hexadecimal digit. -/
def hex_digit_value (c : Char) : Option Nat :=
  if 48 ≤ c.toNat ∧ c.toNat ≤ 57 then some (c.toNat - 48)
  else if 97 ≤ c.toNat ∧ c.toNat ≤ 102 then some (c.toNat - 87)
  else if 65 ≤ c.toNat ∧ c.toNat ≤ 70 then some (c.toNat - 55)
  else none

/-- The C library `isspace` in the "C" locale. -/
def isspace_c (c : Char) : Bool := decide (c.toNat = 32 ∨ (9 ≤ c.toNat ∧ c.toNat ≤ 13))

/-- The digits read by `strtoul` with base 16: the value of the longest run of
hexadecimal digits. -/
def strtoul_digits : Nat → List Char → Nat
  | acc, [] => acc
  | acc, c :: cs =>
    match hex_digit_value c with
    | some d => strtoul_digits (acc * 16 + d) cs
    | none => acc

/-- The C library `strtoul ( s, NULL, 16 )` with a 64-bit `unsigned long`: white
space, an optional sign, an optional `0x` or `0X`, then hexadecimal digits; a
value that does not fit is `ULONG_MAX`, a minus sign negates modulo `2 ^ 64`. -/
def strtoul16 (s : List Char) : Nat :=
  let s1 := s.dropWhile isspace_c
  let s2 := if s1.head? = some '-' ∨ s1.head? = some '+' then s1.tail else s1
  let s3 :=
    match s2 with
    | c0 :: c1 :: rest => if c0 = '0' ∧ (c1 = 'x' ∨ c1 = 'X') then rest else s2
    | _ => s2
  let v := strtoul_digits 0 s3
  if v > 18446744073709551615 then 18446744073709551615
  else if s1.head? = some '-' then (18446744073709551616 - v) % 18446744073709551616
  else v

/-- The number of bytes a character takes in a C string; the strings of rofi and
glib are encoded in UTF-8. -/
def utf8_bytes (c : Char) : Nat :=
  if c.toNat < 128 then 1 else if c.toNat < 2048 then 2 else if c.toNat < 65536 then 3 else 4

/-- The C library `strlen`: the number of bytes of the string. -/
def strlen (s : List Char) : Nat := (s.map utf8_bytes).sum

/-- The local union `color` of `color_get` when the colour name has been
resolved.  `named` is the reply of the X server to `xcb_alloc_named_color` for a
colour name: the 16-bit `visual_red`, `visual_green` and `visual_blue`, or `none`
when there is no reply. -/
def color_get_sep (env : x11_env) (named : List Char → Option (Nat × Nat × Nat))
    (name : List Char) : color_sep :=
  let cname := g_strstrip env name
  let white : color_sep := color_of_pixel 4294967295
  if cname.take 5 = "argb:".toList then color_of_pixel (strtoul16 (cname.drop 5))
  else if cname.take 1 = "#".toList then
    let val := strtoul16 (cname.drop 1)
    let length := strlen (cname.drop 1)
    if length = 3 then
      { white with
        a := 255,
        r := (16 * ((val &&& 3840) >>> 8)) % 256,
        g := (16 * ((val &&& 240) >>> 4)) % 256,
        b := (16 * (val &&& 15)) % 256 }
    else if length = 6 then { color_of_pixel val with a := 255 }
    else if length = 8 then color_of_pixel val
    else white
  else
    match named cname with
    | some v => { white with a := 255, r := v.1 % 256, g := v.2.1 % 256, b := v.2.2 % 256 }
    | none => white

/-- `color_get`: every component is a byte of the union divided by `255.0`. -/
def color_get (env : x11_env) (named : List Char → Option (Nat × Nat × Nat))
    (name : List Char) : Color :=
  let color := color_get_sep env named name
  { red := ddiv (itod color.r) (itod 255),
    green := ddiv (itod color.g) (itod 255),
    blue := ddiv (itod color.b) (itod 255),
    alpha := ddiv (itod color.a) (itod 255) }

/-- The colour whose components are the bytes `a`, `r`, `g`, `b` divided by 255. -/
def color_of_bytes (a r g b : Nat) : Color :=
  { red := dbl.fin r 255, green := dbl.fin g 255, blue := dbl.fin b 255,
    alpha := dbl.fin a 255 }

/-- An X server that knows no colour name. -/
def named_example (_ : List Char) : Option (Nat × Nat × Nat) := none

/-- The query that `monitor_active_from_id` makes for the identifier `mon_id`
itself gives no monitor: the pointer query fails for `-3`, the desktop or
viewport reply is missing or too short for `-1`, a reply for the active window is
missing for `-2` and `-4`, and an identifier outside `-1 .. -5` has no query. -/
def own_lookup_fails (xs : x11_state) (mon_id : Int) : Prop :=
  (mon_id = -3 ∧ pointer_get xs = none) ∨
  (mon_id = -1 ∧ ∀ current_desktop vp, xs.current_desktop = some current_desktop →
    xs.desktop_viewport = some vp → vp.get? current_desktop = none) ∨
  ((mon_id = -2 ∨ mon_id = -4) ∧
    (xs.active_window = none ∨ xs.geometry = none ∨ xs.translate = none)) ∨
  (mon_id ≠ -1 ∧ mon_id ≠ -2 ∧ mon_id ≠ -3 ∧ mon_id ≠ -4 ∧ mon_id ≠ -5)

/-! ## listview.c: creation and the requested number of elements -/

/-- `listview_create`: `g_malloc0` clears every field.  The argument
`textbox_get_estimated_char_height` is the `int` that the function of that name in
`textbox.c` returns. -/
def listview_create (textbox_get_estimated_char_height : Int) (eh : Nat) : listview :=
  { widget := { x := 0, y := 0, w := 0, h := 0, enabled := true },
    rchanged := 0, cur_page := 0, last_offset := 0, selected := 0,
    element_height := umul (to_uint textbox_get_estimated_char_height) eh,
    element_width := 0, max_rows := 0, max_elements := 0,
    cur_columns := 0, req_elements := 0, cur_elements := 0, padding := 0,
    menu_lines := 0, menu_columns := 0, fixed_num_lines := 0, cycle := false,
    multi_select := false, scroll_type := ScrollType.LISTVIEW_SCROLL_PER_PAGE,
    boxes := [], scrollbar := some (scrollbar_create 0 0 4 0), scrollbar_scroll := false,
    last_click := 0 }

/-- `listview_set_max_columns`. -/
def listview_set_max_columns (lv : Option listview) (columns : Nat) : Option listview :=
  match lv with
  | none => none
  | some l => some { l with menu_columns := columns }

/-- `listview_set_num_elements`. -/
def listview_set_num_elements (api : widget_env) (lv : listview) (rows : Nat) : listview :=
  let lv1 : listview := { lv with req_elements := rows }
  let lv2 : listview :=
    match listview_set_selected api.widget_queue_redraw (some lv1) lv1.selected with
    | some l => l
    | none => lv1
  let lv3 := listview_recompute_elements api lv2
  let lv4 : listview :=
    { lv3 with scrollbar := scrollbar_set_max_value lv3.scrollbar lv3.req_elements }
  { lv4 with widget := api.widget_queue_redraw lv4.widget }

/-- The selection of a list view is valid: the list is empty or `selected` is the
index of one of its elements. -/
def selection_valid (lv : listview) : Prop :=
  lv.req_elements = 0 ∨ lv.selected < lv.req_elements

instance (lv : listview) : Decidable (selection_valid lv) := by
  unfold selection_valid
  exact inferInstance

/-- A list view as `listview_create` returns it (ten pixels per line), after
`listview_set_max_columns ( lv, 1 )`. -/
def lv_one_column : listview := { listview_create 10 1 with menu_columns := 1 }

/-- The list view `lv_one_column` after a resize to 100 by 50 pixels: five rows
fit, the list is still empty. -/
def lv_five_rows : listview :=
  { lv_one_column with
    widget := { x := 0, y := 0, w := 100, h := 50, enabled := true },
    rchanged := 1, max_rows := 5, max_elements := 5,
    scrollbar := some { widget := { x := 96, y := 0, w := 4, h := 50, enabled := true },
                        length := 10, pos := 0, pos_length := 1 } }

/-! ## listview.c: mouse clicks -/

/-- The fields of an `xcb_button_press_event_t` that the list view reads:
`event_x` and `event_y` are `int16_t`, `time` is an `xcb_timestamp_t`
(`uint32_t`). -/
structure xcb_button_press_event_t where
  event_x : Int
  event_y : Int
  time : Nat
deriving DecidableEq, Repr

/-- Conversion of an `int` to `int16_t`. -/
def to_int16 (i : Int) : Int := (i + 32768) % 65536 - 32768

/-- What a click handler of the list view leaves behind: its return value, the
list view, the event (the handler is given a pointer to it), and whether the
callback `mouse_activated` has been called.  The callback belongs to the user of
the list view and is taken not to write to the list view. -/
structure click_result where
  ret : Bool
  lv : listview
  xce : xcb_button_press_event_t
  mouse_activated : Bool
deriving DecidableEq, Repr

/-- The functions of `widget.c` that the click handler calls, each on a pointer to
a widget header that may be `NULL`.  `widget_clicked` runs the handler registered
for the widget, which is given the list view as user data. -/
structure click_env where
  widget_enabled : Option widget → Bool
  widget_intersect : Option widget → Int → Int → Bool
  widget_get_x_pos : Option widget → Int
  widget_get_y_pos : Option widget → Int
  widget_clicked : Option widget → xcb_button_press_event_t → listview → Bool × listview

/-- `listview_scrollbar_clicked`: the handler that `listview_create` registers for
the scrollbar. -/
def listview_scrollbar_clicked (wqr : widget → widget) (sb : Option scrollbar)
    (xce : xcb_button_press_event_t) (lv : listview) : Bool × listview :=
  let sel := scrollbar_clicked sb xce.event_y
  match listview_set_selected wqr (some lv) sel with
  | some l => (true, l)
  | none => (true, lv)

/-- The body of the loop of `listview_clicked` for a box that the click is in. -/
def listview_clicked_box (wqr : widget → widget) (lv : listview)
    (xce : xcb_button_press_event_t) (i : Nat) : click_result :=
  if uadd lv.last_offset i = lv.selected then
    { ret := true, lv := { lv with last_click := xce.time }, xce := xce,
      mouse_activated := decide (usub xce.time lv.last_click < 200) }
  else
    let lv1 : listview :=
      match listview_set_selected wqr (some lv) (uadd lv.last_offset i) with
      | some l => l
      | none => lv
    { ret := true, lv := { lv1 with last_click := xce.time }, xce := xce,
      mouse_activated := false }

/-- The loop of `listview_clicked` from index `i` on; the list holds
`boxes[i]`, `boxes[i + 1]`, and so on. -/
def listview_clicked_loop (wqr : widget → widget) (env : click_env) (lv : listview)
    (xce : xcb_button_press_event_t) (max : Nat) : Nat → List widget → click_result
  | _, [] => { ret := false, lv := lv, xce := xce, mouse_activated := false }
  | i, w :: rest =>
    if i < max then
      if env.widget_intersect (some w) xce.event_x xce.event_y then
        listview_clicked_box wqr lv xce i
      else listview_clicked_loop wqr env lv xce max (i + 1) rest
    else { ret := false, lv := lv, xce := xce, mouse_activated := false }

/-- `listview_clicked`. -/
def listview_clicked (wqr : widget → widget) (env : click_env) (lv : listview)
    (xce : xcb_button_press_event_t) : click_result :=
  let lv0 : listview := { lv with scrollbar_scroll := false }
  let sbw : Option widget := lv0.scrollbar.map (fun s => s.widget)
  if env.widget_enabled sbw && env.widget_intersect sbw xce.event_x xce.event_y then
    let xce2 := xce
    let xce1 : xcb_button_press_event_t :=
      { xce with
        event_x := to_int16 (xce.event_x - env.widget_get_x_pos sbw),
        event_y := to_int16 (xce.event_y - env.widget_get_y_pos sbw) }
    let lv1 : listview := { lv0 with scrollbar_scroll := true }
    let r := env.widget_clicked sbw xce2 lv1
    { ret := r.1, lv := r.2, xce := xce1, mouse_activated := false }
  else
    let max := MIN lv0.cur_elements (usub lv0.req_elements lv0.last_offset)
    listview_clicked_loop wqr env lv0 xce max 0 lv0.boxes

/-- The widget functions for evaluation: a widget contains the points of its
rectangle, and a click on the scrollbar runs `listview_scrollbar_clicked`. -/
def click_env_example : click_env :=
  { widget_enabled := fun w =>
      match w with
      | some wd => wd.enabled
      | none => false,
    widget_intersect := fun w x y =>
      match w with
      | some wd => decide (wd.x ≤ x ∧ x < wd.x + wd.w ∧ wd.y ≤ y ∧ y < wd.y + wd.h)
      | none => false,
    widget_get_x_pos := fun w =>
      match w with
      | some wd => wd.x
      | none => 0,
    widget_get_y_pos := fun w =>
      match w with
      | some wd => wd.y
      | none => 0,
    widget_clicked := fun _ xce lv => listview_scrollbar_clicked id lv.scrollbar xce lv }

/-- A list of ten elements in one column of three rows, drawn with the third page
(elements 6 to 8) on screen and element 7 selected. -/
def lv_scrolled : listview :=
  { widget := { x := 0, y := 0, w := 100, h := 58, enabled := true },
    rchanged := 0, cur_page := 2, last_offset := 6, selected := 7,
    element_height := 18, element_width := 100, max_rows := 3, max_elements := 3,
    cur_columns := 1, req_elements := 10, cur_elements := 3, padding := 2,
    menu_lines := 3, menu_columns := 1, fixed_num_lines := 0, cycle := false,
    multi_select := false, scroll_type := ScrollType.LISTVIEW_SCROLL_PER_PAGE,
    boxes := [{ x := 0, y := 0, w := 100, h := 18, enabled := true },
              { x := 0, y := 20, w := 100, h := 18, enabled := true },
              { x := 0, y := 40, w := 100, h := 18, enabled := true }],
    scrollbar := none, scrollbar_scroll := false, last_click := 500 }

/-! ## x11-helper.c: the colour cache

`color_background`, `color_border` and `color_separator` keep their colour in the
static array `color_cache`, indexed by `BACKGROUND`, `BORDER` and `SEPARATOR`.
Each function is given the value of `config.color_window` and the cache, and
yields the cache afterwards and the colour it passes to
`x11_helper_set_cairo_rgba`. -/

/-- The text before and after the first occurrence of `delimiter`, as `strstr`
finds it. -/
def split_first (delimiter : Char) : List Char → Option (List Char × List Char)
  | [] => none
  | c :: cs =>
    if c = delimiter then some ([], cs)
    else
      match split_first delimiter cs with
      | some (a, b) => some (c :: a, b)
      | none => none

/-- The loop of the glib function `g_strsplit`: `n` more delimiters may be used;
what remains is one token. -/
def g_strsplit_tokens (delimiter : Char) : Nat → List Char → List (List Char)
  | 0, remainder => [remainder]
  | n + 1, remainder =>
    match split_first delimiter remainder with
    | some (a, b) => a :: g_strsplit_tokens delimiter n b
    | none => [remainder]

/-- The glib function `g_strsplit` for a delimiter of one character: `NULL` for a
`NULL` string, the empty vector for the empty string, and otherwise at most
`max_tokens` tokens, the last one holding the rest of the string. -/
def g_strsplit (string : Option (List Char)) (delimiter : Char) (max_tokens : Nat) :
    Option (List (List Char)) :=
  match string with
  | none => none
  | some s =>
    if s = [] then some []
    else some (g_strsplit_tokens delimiter
      ((if max_tokens < 1 then 2147483647 else max_tokens) - 1) s)

/-- One element of `color_cache`. -/
structure color_cache_entry where
  color : Color
  set : Nat
deriving DecidableEq, Repr

/-- The static array `color_cache`. -/
structure color_cache_t where
  BACKGROUND : color_cache_entry
  BORDER : color_cache_entry
  SEPARATOR : color_cache_entry
deriving DecidableEq, Repr

/-- The colour `(0, 0, 0, 0)`. -/
def color_zero : Color :=
  { red := dbl.fin 0 1, green := dbl.fin 0 1, blue := dbl.fin 0 1, alpha := dbl.fin 0 1 }

/-- The array `color_cache` when the program starts: static storage is zeroed. -/
def color_cache_zero : color_cache_t :=
  { BACKGROUND := { color := color_zero, set := 0 },
    BORDER := { color := color_zero, set := 0 },
    SEPARATOR := { color := color_zero, set := 0 } }

/-- `color_background`. -/
def color_background (env : x11_env) (named : List Char → Option (Nat × Nat × Nat))
    (color_window : Option (List Char)) (color_cache : color_cache_t) :
    color_cache_t × Color :=
  let cache1 : color_cache_t :=
    if color_cache.BACKGROUND.set = 0 then
      let vals := g_strsplit color_window ',' 3
      let color : Color :=
        match vals with
        | some (v0 :: _) => color_get env named v0
        | _ => color_cache.BACKGROUND.color
      { color_cache with BACKGROUND := { color := color, set := TRUE } }
    else color_cache
  (cache1, cache1.BACKGROUND.color)

/-- `color_border`. -/
def color_border (env : x11_env) (named : List Char → Option (Nat × Nat × Nat))
    (color_window : Option (List Char)) (color_cache : color_cache_t) :
    color_cache_t × Color :=
  let cache1 : color_cache_t :=
    if color_cache.BORDER.set = 0 then
      let vals := g_strsplit color_window ',' 3
      let color : Color :=
        match vals with
        | some (_ :: v1 :: _) => color_get env named v1
        | _ => color_cache.BORDER.color
      { color_cache with BORDER := { color := color, set := TRUE } }
    else color_cache
  (cache1, cache1.BORDER.color)

/-- `color_separator`. -/
def color_separator (env : x11_env) (named : List Char → Option (Nat × Nat × Nat))
    (color_window : Option (List Char)) (color_cache : color_cache_t) :
    color_cache_t × Color :=
  let cache1 : color_cache_t :=
    if color_cache.SEPARATOR.set = 0 then
      let vals := g_strsplit color_window ',' 3
      let color : Color :=
        match vals with
        | some (_ :: _ :: v2 :: _) => color_get env named v2
        | some (_ :: v1 :: _) => color_get env named v1
        | _ => color_cache.SEPARATOR.color
      { color_cache with SEPARATOR := { color := color, set := TRUE } }
    else color_cache
  (cache1, cache1.SEPARATOR.color)

/-- The three colour functions. -/
inductive color_function where
  | background
  | border
  | separator
deriving DecidableEq, Repr

/-- A call of one of the three colour functions. -/
def color_call (env : x11_env) (named : List Char → Option (Nat × Nat × Nat))
    (f : color_function) (color_window : Option (List Char)) (color_cache : color_cache_t) :
    color_cache_t × Color :=
  match f with
  | color_function.background => color_background env named color_window color_cache
  | color_function.border => color_border env named color_window color_cache
  | color_function.separator => color_separator env named color_window color_cache

/-- The cache after a sequence of calls, each with its own value of
`config.color_window`. -/
def color_calls (env : x11_env) (named : List Char → Option (Nat × Nat × Nat))
    (calls : List (color_function × Option (List Char))) (color_cache : color_cache_t) :
    color_cache_t :=
  calls.foldl (fun cache call => (color_call env named call.1 call.2 cache).1) color_cache

/-- The cache entry that belongs to a colour function. -/
def color_entry (f : color_function) (color_cache : color_cache_t) : color_cache_entry :=
  match f with
  | color_function.background => color_cache.BACKGROUND
  | color_function.border => color_cache.BORDER
  | color_function.separator => color_cache.SEPARATOR

/-- The fields of `config.color_window`: the vector that `g_strsplit` returns for
the delimiter "," and at most three tokens, empty for a `NULL` string. -/
def color_fields (color_window : Option (List Char)) : List (List Char) :=
  match g_strsplit color_window ',' 3 with
  | some vals => vals
  | none => []

/-! ## x11-helper.c: the modifier masks of a keymap

The table `x11_mod_masks` is static and written by `x11_figure_out_masks` only,
which `x11_setup` calls; every mask in it comes from `x11_find_mod_mask`. -/

/-- The xkbcommon function `xkb_keymap_mod_get_index`.  A keymap is given by the
names of its modifiers, the modifier with index `i` at position `i`; a name that
the keymap does not have gives `XKB_MOD_INVALID`, here `none`. -/
def xkb_keymap_mod_get_index (keymap : List String) (name : String) : Option Nat :=
  if name ∈ keymap then some (keymap.indexOf name) else none

/-- `x11_find_mod_mask`: `names` are the variable arguments up to the `NULL`.  The
count of the shift `1 << i` is taken modulo 32, as the x86-64 shift instruction
does; the indices of xkbcommon are below 32. -/
def x11_find_mod_mask (keymap : List String) (names : List String) : Nat :=
  names.foldl (fun mask name =>
    match xkb_keymap_mod_get_index keymap name with
    | some i => mask ||| (1 <<< (i % 32))
    | none => mask) 0

/-- The xkbcommon macro `XKB_MOD_NAME_SHIFT`. -/
def XKB_MOD_NAME_SHIFT : String := "Shift"

/-- The xkbcommon macro `XKB_MOD_NAME_CTRL`. -/
def XKB_MOD_NAME_CTRL : String := "Control"

/-- The xkbcommon macro `XKB_MOD_NAME_ALT`. -/
def XKB_MOD_NAME_ALT : String := "Mod1"

/-- The xkbcommon macro `XKB_MOD_NAME_LOGO`. -/
def XKB_MOD_NAME_LOGO : String := "Mod4"

/-- The names that `x11_figure_out_masks` passes to `x11_find_mod_mask` for each
modifier. -/
def x11_mod_names : X11Mod → List String
  | X11Mod.X11MOD_SHIFT => [XKB_MOD_NAME_SHIFT]
  | X11Mod.X11MOD_CONTROL => [XKB_MOD_NAME_CTRL]
  | X11Mod.X11MOD_ALT => [XKB_MOD_NAME_ALT, "Alt", "LAlt", "RAlt", "AltGr", "Mod5", "LevelThree"]
  | X11Mod.X11MOD_META => ["Meta"]
  | X11Mod.X11MOD_SUPER => [XKB_MOD_NAME_LOGO, "Super"]
  | X11Mod.X11MOD_HYPER => ["Hyper"]
  | X11Mod.X11MOD_ANY => []

/-- The table `x11_mod_masks` after `x11_figure_out_masks` has run for a keymap;
`old` is the table before the call, all zero when the program starts. -/
def x11_mod_masks_of_keymap (keymap : List String) (old : X11Mod → Nat) : X11Mod → Nat :=
  x11_figure_out_masks (fun i => x11_find_mod_mask keymap (x11_mod_names i)) old

/-- The modifiers of a usual X11 keymap, the eight real ones first. -/
def keymap_example : List String :=
  ["Shift", "Lock", "Control", "Mod1", "Mod2", "Mod3", "Mod4", "Mod5", "NumLock", "Alt",
    "LevelThree", "LAlt", "RAlt", "RControl", "LControl", "ScrollLock", "LevelFive", "AltGr",
    "Meta", "Super", "Hyper"]

/-! ## Arithmetic lemmas -/

theorem usub_of_le (a b : Nat) (hb : b ≤ a) (ha : a < 4294967296) : usub a b = a - b := by
  unfold usub
  omega

theorem uadd_of_lt (a b : Nat) (h : a + b < 4294967296) : uadd a b = a + b := by
  unfold uadd
  omega

theorem MIN_eq_min (a b : Nat) : MIN a b = min a b := by
  unfold MIN
  split <;> omega

theorem MAX_eq_max (a b : Nat) : MAX a b = max a b := by
  unfold MAX
  split <;> omega

theorem to_uint_to_int (u : Nat) (hu : u < 4294967296) : to_uint (to_int u) = u := by
  unfold to_uint to_int
  split <;> omega

theorem to_int_eq_zero (u : Nat) (hu : u < 4294967296) : to_int u = 0 ↔ u = 0 := by
  unfold to_int
  split <;> omega

theorem to_uint_to_int_pred (u : Nat) (hu : u < 4294967296) (h0 : u ≠ 0) :
    to_uint (to_int u - 1) = u - 1 := by
  unfold to_uint to_int
  split <;> omega

theorem usub_lt (a b : Nat) : usub a b < 4294967296 := by
  unfold usub
  omega

theorem MIN_le_right (a b : Nat) : MIN a b ≤ b := by
  unfold MIN
  split <;> omega

theorem dtou_zero_div (d : dbl) : dtou (ddiv (itod 0) d) = 0 := by
  cases d with
  | fin c e =>
    by_cases hc : c = 0
    · simp [itod, ddiv, dtou, hc]
    · by_cases hp : 0 < c
      · simp [itod, ddiv, dtou, hc, hp]
      · simp [itod, ddiv, dtou, hc, hp]
  | inf n => simp [itod, ddiv, dtou]
  | nan => simp [itod, ddiv, dtou]

theorem strcmp_eq_zero (a b : List Char) : strcmp a b = 0 ↔ a = b := by
  induction a generalizing b with
  | nil =>
    cases b with
    | nil => simp [strcmp]
    | cons y ys => simp [strcmp]
  | cons x xs ih =>
    cases b with
    | nil => simp [strcmp]
    | cons y ys =>
      by_cases hxy : x = y
      · simp [strcmp, hxy, ih]
      · have hn : x.toNat ≠ y.toNat := fun h => hxy (Char.ext (UInt32.ext h))
        have hne : ((x.toNat : Int) - (y.toNat : Int)) ≠ 0 := by omega
        simp [strcmp, hxy, hne]

theorem g_strcmp0_eq_zero (a : Option String) (b : String) :
    g_strcmp0 a (some b) = 0 ↔ a = some b := by
  cases a with
  | none => simp [g_strcmp0]
  | some x =>
    simp only [g_strcmp0, strcmp_eq_zero, Option.some.injEq]
    exact ⟨fun h => String.ext h, fun h => by rw [h]⟩

theorem g_strsplit_set_loop_clean (delimiters e : List Char) (he : ∀ c ∈ e, c ∉ delimiters)
    (rest cur : List Char) :
    g_strsplit_set_loop delimiters (e ++ rest) cur
      = g_strsplit_set_loop delimiters rest (cur ++ e) := by
  induction e generalizing cur with
  | nil => simp
  | cons c cs ih =>
    have hc : c ∉ delimiters := he c (List.mem_cons_self c cs)
    have hcs : ∀ d ∈ cs, d ∉ delimiters := fun d hd => he d (List.mem_cons_of_mem c hd)
    have step : g_strsplit_set_loop delimiters (c :: (cs ++ rest)) cur
        = g_strsplit_set_loop delimiters (cs ++ rest) (cur ++ [c]) := by
      simp only [g_strsplit_set_loop, hc, if_false]
    rw [List.cons_append, step, ih hcs]
    simp

theorem g_strsplit_set_loop_combo (rest : List (Char × List Char))
    (hsep : ∀ p ∈ rest, p.1 = '+' ∨ p.1 = '-')
    (hent : ∀ p ∈ rest, '+' ∉ p.2 ∧ '-' ∉ p.2)
    (e cur : List Char) (he : '+' ∉ e ∧ '-' ∉ e) :
    g_strsplit_set_loop "+-".toList (e ++ combo_tail rest) cur
      = (cur ++ e) :: rest.map Prod.snd := by
  have clean : ∀ x : List Char, ('+' ∉ x ∧ '-' ∉ x) → ∀ c ∈ x, c ∉ "+-".toList := by
    intro x hx c hc hmem
    have h2 : c = '+' ∨ c = '-' := by simpa using hmem
    rcases h2 with h | h
    · exact hx.1 (h ▸ hc)
    · exact hx.2 (h ▸ hc)
  induction rest generalizing e cur with
  | nil =>
    rw [g_strsplit_set_loop_clean _ e (clean e he)]
    simp [combo_tail, g_strsplit_set_loop]
  | cons p r ih =>
    have hp : p.1 ∈ "+-".toList := by
      rcases hsep p (List.mem_cons_self p r) with h | h <;> rw [h] <;> decide
    have hr1 : ∀ q ∈ r, q.1 = '+' ∨ q.1 = '-' := fun q hq => hsep q (List.mem_cons_of_mem p hq)
    have hr2 : ∀ q ∈ r, '+' ∉ q.2 ∧ '-' ∉ q.2 := fun q hq => hent q (List.mem_cons_of_mem p hq)
    rw [g_strsplit_set_loop_clean _ e (clean e he)]
    simp only [combo_tail, g_strsplit_set_loop, hp, if_true, List.map_cons]
    rw [ih hr1 hr2 p.2 [] (hent p (List.mem_cons_self p r))]
    simp

theorem x11_parse_key_entries (env : x11_env) (st0 : parse_key_locals) (es : List (List Char))
    (hacc : ∀ e ∈ es, entry_accepted env e) :
    es.foldl (x11_parse_key_entry env) st0
      = { modmask := (es.filterMap (entry_modifier env)).foldl
            (fun acc m => acc ||| env.x11_mod_masks m) st0.modmask,
          sym :=
            match (es.filter (fun e => (entry_modifier env e).isNone)).getLast? with
            | some e => env.xkb_keysym_from_name (g_strstrip env e)
            | none => st0.sym,
          error_msg := st0.error_msg } := by
  induction es using List.reverseRecOn with
  | nil => simp
  | append_singleton l a ih =>
    have hl : ∀ e ∈ l, entry_accepted env e := fun e he => hacc e (List.mem_append_left _ he)
    have ha : entry_accepted env a := hacc a (List.mem_append_right _ (List.mem_singleton_self a))
    rw [List.foldl_append, ih hl]
    simp only [List.foldl_cons, List.foldl_nil, List.filterMap_append, List.filter_append,
      List.foldl_append]
    unfold entry_accepted at ha
    cases hm : x11_modifier_of_name (env.g_utf8_strdown (g_strstrip env a)) with
    | none =>
      have hem : entry_modifier env a = none := by simp [entry_modifier, hm]
      rw [hem] at ha
      simp only [] at ha
      simp [x11_parse_key_entry, hm, hem, ha]
    | some mn =>
      have hem : entry_modifier env a = some mn.1 := by simp [entry_modifier, hm]
      rw [hem] at ha
      simp only [] at ha
      simp [x11_parse_key_entry, hm, hem, ha]

theorem x11_parse_key_entry_rejected (env : x11_env) (st : parse_key_locals) (e : List Char)
    (h : entry_rejected env e) :
    ∃ m, (x11_parse_key_entry env st e).error_msg = some m ∧ m.getLast? = some '\n' := by
  unfold entry_rejected at h
  cases hm : x11_modifier_of_name (env.g_utf8_strdown (g_strstrip env e)) with
  | none =>
    have hem : entry_modifier env e = none := by simp [entry_modifier, hm]
    rw [hem] at h
    simp only [] at h
    have hv : (x11_parse_key_entry env st e).error_msg
        = some ("∙ Key <i>".toList ++ env.g_markup_escape_text (g_strstrip env e)
            ++ "</i> is not understood\n".toList) := by
      simp only [x11_parse_key_entry, hm, h, if_true]
    exact ⟨_, hv, by rw [List.getLast?_append]; rfl⟩
  | some mn =>
    have hem : entry_modifier env e = some mn.1 := by simp [entry_modifier, hm]
    rw [hem] at h
    simp only [] at h
    have hv : (x11_parse_key_entry env st e).error_msg
        = some ("X11 configured keyboard has no <b>".toList ++ mn.2 ++ "</b> key.\n".toList) := by
      simp only [x11_parse_key_entry, hm, h, if_true]
    exact ⟨_, hv, by rw [List.getLast?_append]; rfl⟩

theorem x11_parse_key_entry_kept (env : x11_env) (st : parse_key_locals) (e : List Char)
    (h : ¬ entry_rejected env e) :
    (x11_parse_key_entry env st e).error_msg = st.error_msg := by
  unfold entry_rejected at h
  cases hm : x11_modifier_of_name (env.g_utf8_strdown (g_strstrip env e)) with
  | none =>
    have hem : entry_modifier env e = none := by simp [entry_modifier, hm]
    rw [hem] at h
    simp only [] at h
    simp only [x11_parse_key_entry, hm, h, if_false]
  | some mn =>
    have hem : entry_modifier env e = some mn.1 := by simp [entry_modifier, hm]
    rw [hem] at h
    simp only [] at h
    simp only [x11_parse_key_entry, hm, h, if_false]

theorem x11_parse_key_error_iff (env : x11_env) (es : List (List Char)) (st : parse_key_locals) :
    ((es.foldl (x11_parse_key_entry env) st).error_msg ≠ none
      ↔ (st.error_msg ≠ none ∨ ∃ e ∈ es, entry_rejected env e)) ∧
    ((∀ m, st.error_msg = some m → m.getLast? = some '\n') →
      ∀ m, (es.foldl (x11_parse_key_entry env) st).error_msg = some m →
        m.getLast? = some '\n') := by
  induction es generalizing st with
  | nil => simp
  | cons a l ih =>
    simp only [List.foldl_cons]
    obtain ⟨ih1, ih2⟩ := ih (x11_parse_key_entry env st a)
    by_cases ha : entry_rejected env a
    · obtain ⟨m, hm, hlast⟩ := x11_parse_key_entry_rejected env st a ha
      constructor
      · rw [ih1]
        constructor
        · intro _
          exact Or.inr ⟨a, List.mem_cons_self a l, ha⟩
        · intro _
          left
          rw [hm]
          exact Option.some_ne_none m
      · intro _
        apply ih2
        intro m2 hm2
        rw [hm] at hm2
        cases hm2
        exact hlast
    · have hk := x11_parse_key_entry_kept env st a ha
      constructor
      · rw [ih1, hk]
        constructor
        · rintro (h | ⟨e, he, hr⟩)
          · exact Or.inl h
          · exact Or.inr ⟨e, List.mem_cons_of_mem a he, hr⟩
        · rintro (h | ⟨e, he, hr⟩)
          · exact Or.inl h
          · rcases List.mem_cons.1 he with h2 | h2
            · exact absurd (h2 ▸ hr) ha
            · exact Or.inr ⟨e, h2, hr⟩
      · intro hinv
        apply ih2
        rw [hk]
        exact hinv

theorem bits_sub_refl (a : Nat) : bits_sub a a := fun _ h => h

theorem bits_sub_trans {a b c : Nat} (h1 : bits_sub a b) (h2 : bits_sub b c) : bits_sub a c :=
  fun k h => h2 k (h1 k h)

theorem and_ne_zero_iff (a b : Nat) :
    a &&& b ≠ 0 ↔ ∃ k, a.testBit k = true ∧ b.testBit k = true := by
  constructor
  · intro h
    obtain ⟨k, hk⟩ := Nat.ne_zero_implies_bit_true h
    rw [Nat.testBit_and, Bool.and_eq_true] at hk
    exact ⟨k, hk⟩
  · rintro ⟨k, ha, hb⟩ h0
    have hk : (a &&& b).testBit k = true := by
      rw [Nat.testBit_and, ha, hb]
      rfl
    rw [h0, Nat.zero_testBit] at hk
    exact Bool.noConfusion hk

theorem x11_canonalize_step_mono (masks : X11Mod → Nat) (acc : Nat) (i : X11Mod) :
    bits_sub acc (x11_canonalize_step masks acc i) := by
  intro k hk
  unfold x11_canonalize_step
  split
  · rw [Nat.testBit_or, hk]
    rfl
  · exact hk

theorem x11_canonalize_fold_mono (masks : X11Mod → Nat) (l : List X11Mod) (acc : Nat) :
    bits_sub acc (l.foldl (x11_canonalize_step masks) acc) := by
  induction l generalizing acc with
  | nil => exact bits_sub_refl acc
  | cons i r ih =>
    exact bits_sub_trans (x11_canonalize_step_mono masks acc i) (ih _)

theorem x11_canonalize_fold_bound (masks : X11Mod → Nat) (u : Nat) (l : List X11Mod)
    (hl : ∀ i ∈ l, bits_sub (masks i) u) (acc : Nat) (hacc : bits_sub acc u) :
    bits_sub (l.foldl (x11_canonalize_step masks) acc) u := by
  induction l generalizing acc with
  | nil => exact hacc
  | cons i r ih =>
    apply ih (fun j hj => hl j (List.mem_cons_of_mem i hj))
    intro k hk
    unfold x11_canonalize_step at hk
    split at hk
    · rw [Nat.testBit_or, Bool.or_eq_true] at hk
      rcases hk with h | h
      · exact hacc k h
      · exact hl i (List.mem_cons_self i r) k h
    · exact hacc k hk

theorem x11_canonalize_fold_adds (masks : X11Mod → Nat) (l : List X11Mod) (acc : Nat)
    (i : X11Mod) (hi : i ∈ l) (hshare : acc &&& masks i ≠ 0) :
    bits_sub (masks i) (l.foldl (x11_canonalize_step masks) acc) := by
  induction l generalizing acc with
  | nil => exact absurd hi (List.not_mem_nil i)
  | cons j r ih =>
    rcases List.mem_cons.1 hi with h | h
    · subst h
      have h1 : bits_sub (masks i) (x11_canonalize_step masks acc i) := by
        intro k hk
        unfold x11_canonalize_step
        rw [if_pos hshare, Nat.testBit_or, hk]
        simp
      exact bits_sub_trans h1 (x11_canonalize_fold_mono masks r _)
    · apply ih _ h
      obtain ⟨k, ha, hb⟩ := (and_ne_zero_iff _ _).1 hshare
      exact (and_ne_zero_iff _ _).2 ⟨k, x11_canonalize_step_mono masks acc j k ha, hb⟩

theorem listview_get_desired_height_eq (lv : listview)
    (hml : lv.menu_lines < 4294967296) (hreq : lv.req_elements < 4294967296) :
    listview_get_desired_height (some lv) =
      (if (if lv.fixed_num_lines ≠ 0 then lv.menu_lines
            else min lv.menu_lines lv.req_elements) = 0 then 0
       else
        ((if lv.fixed_num_lines ≠ 0 then lv.menu_lines
            else min lv.menu_lines lv.req_elements) * lv.element_height
          + ((if lv.fixed_num_lines ≠ 0 then lv.menu_lines
            else min lv.menu_lines lv.req_elements) - 1) * lv.padding) % 4294967296) := by
  have key : ∀ u : Nat, u < 4294967296 →
      (if to_int u = 0 then 0
        else uadd (umul (to_uint (to_int u)) lv.element_height)
          (umul (to_uint (to_int u - 1)) lv.padding))
      = (if u = 0 then 0
          else (u * lv.element_height + (u - 1) * lv.padding) % 4294967296) := by
    intro u hu
    by_cases h0 : u = 0
    · subst h0
      simp [to_int]
    · have hz : ¬ to_int u = 0 := fun h => h0 ((to_int_eq_zero u hu).1 h)
      rw [if_neg hz, if_neg h0, to_uint_to_int u hu, to_uint_to_int_pred u hu h0]
      unfold uadd umul
      exact (Nat.add_mod _ _ _).symm
  unfold listview_get_desired_height
  by_cases hf : lv.fixed_num_lines = 0
  · have hm : min lv.menu_lines lv.req_elements < 4294967296 := by omega
    simp only [hf, MIN_eq_min, if_true, ne_eq, not_true_eq_false, if_false]
    exact key _ hm
  · simp only [hf, if_false, ne_eq, not_false_eq_true, if_true]
    exact key _ hml

theorem listview_recompute_elements_frame (api : widget_env) (lv : listview) :
    (listview_recompute_elements api lv).widget = lv.widget ∧
    (listview_recompute_elements api lv).max_rows = lv.max_rows ∧
    (listview_recompute_elements api lv).max_elements = lv.max_elements ∧
    (listview_recompute_elements api lv).req_elements = lv.req_elements ∧
    (listview_recompute_elements api lv).selected = lv.selected ∧
    (listview_recompute_elements api lv).menu_columns = lv.menu_columns := by
  unfold listview_recompute_elements
  by_cases h0 : lv.max_rows = 0
  · simp [h0]
  · by_cases h1 : lv.req_elements < lv.max_elements <;> simp [h0, h1]

theorem rows_fit_iff (n eh p h : Nat) (hn : 1 ≤ n) (hpos : 0 < eh + p) :
    n * eh + (n - 1) * p ≤ h ↔ n ≤ (p + h) / (eh + p) := by
  rw [Nat.le_div_iff_mul_le hpos]
  obtain ⟨k, rfl⟩ : ∃ k, n = k + 1 := ⟨n - 1, by omega⟩
  have e : (k + 1) * (eh + p) = (k + 1) * eh + k * p + p := by ring
  rw [e, Nat.add_sub_cancel]
  omega

theorem ceil_div_spec (req m : Nat) (hm : 0 < m) :
    req ≤ (req + (m - 1)) / m * m ∧ ∀ c, req ≤ c * m → (req + (m - 1)) / m ≤ c := by
  constructor
  · have h1 := Nat.div_add_mod (req + (m - 1)) m
    have h2 := Nat.mod_lt (req + (m - 1)) hm
    rw [Nat.mul_comm] at h1
    omega
  · intro c hc
    apply Nat.le_of_lt_succ
    rw [Nat.div_lt_iff_lt_mul hm]
    have e : (c + 1) * m = c * m + m := by ring
    rw [e]
    omega

theorem listview_resize_ok (api : widget_env) (lv : listview) (w h : Int)
    (hne : uadd lv.element_height lv.padding ≠ 0) :
    ∃ l, listview_resize api lv w h = Except.ok l ∧
      l.widget = api.widget_queue_redraw { lv.widget with w := MAX 0 w, h := MAX 0 h } ∧
      l.max_rows = uadd lv.padding (to_uint (MAX 0 h)) / uadd lv.element_height lv.padding ∧
      l.max_elements
        = umul (uadd lv.padding (to_uint (MAX 0 h)) / uadd lv.element_height lv.padding)
            lv.menu_columns := by
  unfold listview_resize
  simp only [hne, if_false]
  refine ⟨_, rfl, ?_, ?_, ?_⟩
  · simp only [(listview_recompute_elements_frame api _).1]
  · simp only [(listview_recompute_elements_frame api _).2.1]
  · simp only [(listview_recompute_elements_frame api _).2.2.1]

theorem monitor_dimensions_loop_eq (x y : Int) (l : List workarea) (d : workarea) :
    monitor_dimensions_loop x y l d
      = match l.find? (fun m => decide ((x ≥ m.x ∧ x < m.x + m.w) ∧ (y ≥ m.y ∧ y < m.y + m.h))) with
        | some m => m
        | none => d := by
  induction l with
  | nil => rfl
  | cons m r ih =>
    by_cases h : (x ≥ m.x ∧ x < m.x + m.w) ∧ (y ≥ m.y ∧ y < m.y + m.h)
    · simp [monitor_dimensions_loop, INTERSECT, List.find?, h]
    · simp only [monitor_dimensions_loop, INTERSECT, List.find?, h, decide_False, ih]
      rfl

theorem int_of_gint64_of_range (i : Int) (h0 : 0 ≤ i) (h1 : i < 2147483648) :
    int_of_gint64 i = i := by
  unfold int_of_gint64 to_int to_uint
  split <;> omega

/-- The order of the lookups of `monitor_active`, for a number that is an `int`:
a monitor of that name; else, for "primary", the first primary monitor; else the
monitor with the parsed non-negative id; a negative number goes to
`monitor_active_from_id`; everything else ends in `monitor_dimensions ( 0, 0 )`
with `FALSE`. -/
theorem monitor_active_in_range (fuel : Nat) (strtoll : String → Option Int) (xs : x11_state)
    (cfg : Option String) (mon : workarea) :
    (∀ iter, cfg ≠ none → monitor_by_name cfg xs.monitors = some iter →
      monitor_active fuel strtoll xs cfg mon = some (true, iter)) ∧
    ((cfg = none ∨ monitor_by_name cfg xs.monitors = none) →
      (∀ iter, cfg = some "primary" → monitor_primary xs.monitors = some iter →
        monitor_active fuel strtoll xs cfg mon = some (true, iter)) ∧
      ((cfg ≠ some "primary" ∨ monitor_primary xs.monitors = none) →
        (∀ id, cfg.bind strtoll = some id → 0 ≤ id → id < 2147483648 →
          monitor_active fuel strtoll xs cfg mon
            = if (monitor_get_dimension xs id).1 then
                some (true, (monitor_get_dimension xs id).2)
              else some (false, monitor_dimensions xs 0 0)) ∧
        (∀ id, cfg.bind strtoll = some id → id < 0 →
          monitor_active fuel strtoll xs cfg mon
            = monitor_active_from_id fuel xs (int_of_gint64 id) mon) ∧
        (cfg.bind strtoll = none →
          monitor_active fuel strtoll xs cfg mon = some (false, monitor_dimensions xs 0 0)))) := by
  constructor
  · intro iter hc hn
    unfold monitor_active
    simp only [hc, ne_eq, not_false_eq_true, if_true, hn]
  · intro h1
    have e1 : (if cfg ≠ none then monitor_by_name cfg xs.monitors else none) = none := by
      rcases h1 with h | h
      · simp [h]
      · simp [h]
    constructor
    · intro iter hp hm
      unfold monitor_active
      have hz : g_strcmp0 cfg (some "primary") = 0 := (g_strcmp0_eq_zero _ _).2 hp
      simp only [e1, hz, if_true, hm]
    · intro h2
      have e2 : (if g_strcmp0 cfg (some "primary") = 0 then monitor_primary xs.monitors
          else none) = none := by
        rcases h2 with h | h
        · have hz : ¬ g_strcmp0 cfg (some "primary") = 0 :=
            fun hc => h ((g_strcmp0_eq_zero _ _).1 hc)
          simp [hz]
        · simp [h]
      refine ⟨?_, ?_, ?_⟩
      · intro id hid h0 h31
        unfold monitor_active
        have hge : id ≥ 0 := h0
        simp only [e1, e2, hid, hge, if_true, int_of_gint64_of_range id h0 h31]
      · intro id hid hneg
        unfold monitor_active
        have hge : ¬ id ≥ 0 := by omega
        simp only [e1, e2, hid, hge, if_false]
      · intro hnone
        unfold monitor_active
        simp only [e1, e2, hnone]

theorem mask_shift (val k : Nat) : (val &&& (15 <<< k)) >>> k = val / 2 ^ k % 16 := by
  apply Nat.eq_of_testBit_eq
  intro j
  have h15 : (15 : Nat) = 2 ^ 4 - 1 := by decide
  have h16 : (16 : Nat) = 2 ^ 4 := by decide
  rw [Nat.testBit_shiftRight, Nat.testBit_and, Nat.testBit_shiftLeft, h16,
    Nat.testBit_mod_two_pow, ← Nat.shiftRight_eq_div_pow, Nat.testBit_shiftRight, h15,
    Nat.testBit_two_pow_sub_one]
  simp
  exact Bool.and_comm _ _

theorem hex_digit_facts (c : Char) (v : Nat) (h : hex_digit_value c = some v) :
    v < 16 ∧ isspace_c c = false ∧ c ≠ '-' ∧ c ≠ '+' ∧ c ≠ 'x' ∧ c ≠ 'X' := by
  have hr : v < 16 ∧ c.toNat ≠ 32 ∧ ¬ (9 ≤ c.toNat ∧ c.toNat ≤ 13) ∧ c.toNat ≠ 45
      ∧ c.toNat ≠ 43 ∧ c.toNat ≠ 120 ∧ c.toNat ≠ 88 := by
    unfold hex_digit_value at h
    split_ifs at h <;> cases h <;> omega
  obtain ⟨h1, h2, h3, h4, h5, h6, h7⟩ := hr
  refine ⟨h1, ?_, ?_, ?_, ?_, ?_⟩
  · simp [isspace_c, h2, h3]
  · exact fun hc => h4 (by rw [hc]; rfl)
  · exact fun hc => h5 (by rw [hc]; rfl)
  · exact fun hc => h6 (by rw [hc]; rfl)
  · exact fun hc => h7 (by rw [hc]; rfl)

theorem strtoul16_hex (c : Char) (cs : List Char) (v : Nat) (hc : hex_digit_value c = some v)
    (hx : cs.head? ≠ some 'x' ∧ cs.head? ≠ some 'X')
    (hsmall : strtoul_digits 0 (c :: cs) ≤ 18446744073709551615) :
    strtoul16 (c :: cs) = strtoul_digits 0 (c :: cs) := by
  obtain ⟨_, hsp, hm, hp, _, _⟩ := hex_digit_facts c v hc
  have h1 : List.dropWhile isspace_c (c :: cs) = c :: cs := by
    simp [List.dropWhile, hsp]
  have h3 : (match c :: cs with
      | c0 :: c1 :: rest => if c0 = '0' ∧ (c1 = 'x' ∨ c1 = 'X') then rest else c :: cs
      | _ => c :: cs) = c :: cs := by
    cases cs with
    | nil => rfl
    | cons c1 rest =>
      have hx1 : c1 ≠ 'x' := fun h => hx.1 (by rw [h]; rfl)
      have hx2 : c1 ≠ 'X' := fun h => hx.2 (by rw [h]; rfl)
      simp [hx1, hx2]
  unfold strtoul16
  simp only [h1, List.head?_cons, Option.some.injEq, hm, hp, or_self, if_false, h3]
  rw [if_neg (by omega)]

theorem ddiv_byte (n : Nat) : ddiv (itod (n : Int)) (itod 255) = dbl.fin n 255 := by
  simp [ddiv, itod]

theorem color_get_sep_bytes (env : x11_env) (named : List Char → Option (Nat × Nat × Nat))
    (name : List Char) :
    (color_get_sep env named name).a ≤ 255 ∧ (color_get_sep env named name).r ≤ 255 ∧
    (color_get_sep env named name).g ≤ 255 ∧ (color_get_sep env named name).b ≤ 255 := by
  unfold color_get_sep
  simp only []
  split_ifs
  all_goals first
    | (simp only [color_of_pixel]; omega)
    | (split <;> simp only [color_of_pixel] <;> omega)

theorem color_get_eq (env : x11_env) (named : List Char → Option (Nat × Nat × Nat))
    (name : List Char) :
    color_get env named name
      = color_of_bytes (color_get_sep env named name).a (color_get_sep env named name).r
          (color_get_sep env named name).g (color_get_sep env named name).b := by
  simp only [color_get, color_of_bytes, ddiv_byte]

theorem color_get_sep_hash (env : x11_env) (named : List Char → Option (Nat × Nat × Nat))
    (name rest : List Char) (hs : g_strstrip env name = '#' :: rest) :
    color_get_sep env named name
      = if strlen rest = 3 then
          { color_of_pixel 4294967295 with
            a := 255,
            r := (16 * ((strtoul16 rest &&& 3840) >>> 8)) % 256,
            g := (16 * ((strtoul16 rest &&& 240) >>> 4)) % 256,
            b := (16 * (strtoul16 rest &&& 15)) % 256 }
        else if strlen rest = 6 then { color_of_pixel (strtoul16 rest) with a := 255 }
        else if strlen rest = 8 then color_of_pixel (strtoul16 rest)
        else color_of_pixel 4294967295 := by
  have h5 : ¬ (List.take 5 ('#' :: rest) = "argb:".toList) := by
    intro h
    have h2 : '#' :: List.take 4 rest = 'a' :: "rgb:".toList := h
    exact absurd (List.cons.inj h2).1 (by decide)
  have h1 : List.take 1 ('#' :: rest) = "#".toList := rfl
  have hd : List.drop 1 ('#' :: rest) = rest := rfl
  unfold color_get_sep
  simp only [hs, h5, h1, hd, if_true, if_false]

theorem color_get_sep_argb (env : x11_env) (named : List Char → Option (Nat × Nat × Nat))
    (name rest : List Char) (hs : g_strstrip env name = "argb:".toList ++ rest) :
    color_get_sep env named name = color_of_pixel (strtoul16 rest) := by
  have h5 : List.take 5 ("argb:".toList ++ rest) = "argb:".toList := rfl
  have hd : List.drop 5 ("argb:".toList ++ rest) = rest := rfl
  unfold color_get_sep
  simp only [hs, h5, hd, if_true]

theorem utf8_bytes_hex (c : Char) (v : Nat) (h : hex_digit_value c = some v) :
    utf8_bytes c = 1 := by
  have hr : c.toNat < 128 := by
    unfold hex_digit_value at h
    split_ifs at h <;> omega
  unfold utf8_bytes
  rw [if_pos hr]

theorem strtoul16_three (c1 c2 c3 : Char) (v1 v2 v3 : Nat)
    (h1 : hex_digit_value c1 = some v1) (h2 : hex_digit_value c2 = some v2)
    (h3 : hex_digit_value c3 = some v3) :
    strtoul16 [c1, c2, c3] = v1 * 256 + v2 * 16 + v3 := by
  obtain ⟨b1, _⟩ := hex_digit_facts c1 v1 h1
  obtain ⟨b2, _, _, _, x2, y2⟩ := hex_digit_facts c2 v2 h2
  obtain ⟨b3, _⟩ := hex_digit_facts c3 v3 h3
  have hd : strtoul_digits 0 [c1, c2, c3] = ((0 * 16 + v1) * 16 + v2) * 16 + v3 := by
    simp only [strtoul_digits, h1, h2, h3]
  rw [strtoul16_hex c1 [c2, c3] v1 h1
    ⟨fun h => x2 (Option.some.inj h), fun h => y2 (Option.some.inj h)⟩ (by rw [hd]; omega), hd]
  omega

theorem strtoul16_six (c1 c2 c3 c4 c5 c6 : Char) (v1 v2 v3 v4 v5 v6 : Nat)
    (h1 : hex_digit_value c1 = some v1) (h2 : hex_digit_value c2 = some v2)
    (h3 : hex_digit_value c3 = some v3) (h4 : hex_digit_value c4 = some v4)
    (h5 : hex_digit_value c5 = some v5) (h6 : hex_digit_value c6 = some v6) :
    strtoul16 [c1, c2, c3, c4, c5, c6]
      = (16 * v1 + v2) * 65536 + (16 * v3 + v4) * 256 + (16 * v5 + v6) := by
  obtain ⟨b1, _⟩ := hex_digit_facts c1 v1 h1
  obtain ⟨b2, _, _, _, x2, y2⟩ := hex_digit_facts c2 v2 h2
  obtain ⟨b3, _⟩ := hex_digit_facts c3 v3 h3
  obtain ⟨b4, _⟩ := hex_digit_facts c4 v4 h4
  obtain ⟨b5, _⟩ := hex_digit_facts c5 v5 h5
  obtain ⟨b6, _⟩ := hex_digit_facts c6 v6 h6
  have hd : strtoul_digits 0 [c1, c2, c3, c4, c5, c6]
      = (((((0 * 16 + v1) * 16 + v2) * 16 + v3) * 16 + v4) * 16 + v5) * 16 + v6 := by
    simp only [strtoul_digits, h1, h2, h3, h4, h5, h6]
  rw [strtoul16_hex c1 [c2, c3, c4, c5, c6] v1 h1
    ⟨fun h => x2 (Option.some.inj h), fun h => y2 (Option.some.inj h)⟩ (by rw [hd]; omega), hd]
  omega

theorem strtoul16_eight (c1 c2 c3 c4 c5 c6 c7 c8 : Char) (v1 v2 v3 v4 v5 v6 v7 v8 : Nat)
    (h1 : hex_digit_value c1 = some v1) (h2 : hex_digit_value c2 = some v2)
    (h3 : hex_digit_value c3 = some v3) (h4 : hex_digit_value c4 = some v4)
    (h5 : hex_digit_value c5 = some v5) (h6 : hex_digit_value c6 = some v6)
    (h7 : hex_digit_value c7 = some v7) (h8 : hex_digit_value c8 = some v8) :
    strtoul16 [c1, c2, c3, c4, c5, c6, c7, c8]
      = (16 * v1 + v2) * 16777216 + (16 * v3 + v4) * 65536 + (16 * v5 + v6) * 256
        + (16 * v7 + v8) := by
  obtain ⟨b1, _⟩ := hex_digit_facts c1 v1 h1
  obtain ⟨b2, _, _, _, x2, y2⟩ := hex_digit_facts c2 v2 h2
  obtain ⟨b3, _⟩ := hex_digit_facts c3 v3 h3
  obtain ⟨b4, _⟩ := hex_digit_facts c4 v4 h4
  obtain ⟨b5, _⟩ := hex_digit_facts c5 v5 h5
  obtain ⟨b6, _⟩ := hex_digit_facts c6 v6 h6
  obtain ⟨b7, _⟩ := hex_digit_facts c7 v7 h7
  obtain ⟨b8, _⟩ := hex_digit_facts c8 v8 h8
  have hd : strtoul_digits 0 [c1, c2, c3, c4, c5, c6, c7, c8]
      = (((((((0 * 16 + v1) * 16 + v2) * 16 + v3) * 16 + v4) * 16 + v5) * 16 + v6) * 16 + v7)
          * 16 + v8 := by
    simp only [strtoul_digits, h1, h2, h3, h4, h5, h6, h7, h8]
  rw [strtoul16_hex c1 [c2, c3, c4, c5, c6, c7, c8] v1 h1
    ⟨fun h => x2 (Option.some.inj h), fun h => y2 (Option.some.inj h)⟩ (by rw [hd]; omega), hd]
  omega

theorem monitor_active_from_id_give_up (fuel : Nat) (xs : x11_state) (mon : workarea) :
    monitor_active_from_id (fuel + 1) xs (-5) mon =
      some (match pointer_get xs with
        | some (x, y) => (true, monitor_dimensions xs x y)
        | none => (false, mon)) := by
  unfold monitor_active_from_id
  rw [if_neg (by decide), if_neg (by decide), if_neg (by decide), if_pos rfl]
  cases pointer_get xs with
  | none => rfl
  | some p => rfl

theorem monitor_active_from_id_fuel (fuel : Nat) (xs : x11_state) (mon_id : Int)
    (mon : workarea) :
    monitor_active_from_id (fuel + 2) xs mon_id mon = monitor_active_from_id 2 xs mon_id mon := by
  have h5 : monitor_active_from_id (fuel + 1) xs (-5) mon
      = monitor_active_from_id 1 xs (-5) mon := by
    rw [monitor_active_from_id_give_up fuel, monitor_active_from_id_give_up 0]
  have e1 : monitor_active_from_id (fuel + 2) xs mon_id mon
      = monitor_active_from_id ((fuel + 1) + 1) xs mon_id mon := rfl
  have e2 : monitor_active_from_id 2 xs mon_id mon
      = monitor_active_from_id (1 + 1) xs mon_id mon := rfl
  rw [e1, e2]
  unfold monitor_active_from_id
  rw [h5]

theorem monitor_active_from_id_fails (xs : x11_state) (mon_id : Int) (mon : workarea)
    (h : own_lookup_fails xs mon_id) :
    monitor_active_from_id 2 xs mon_id mon = monitor_active_from_id 1 xs (-5) mon := by
  have e2 : monitor_active_from_id 2 xs mon_id mon
      = monitor_active_from_id (1 + 1) xs mon_id mon := rfl
  rw [e2]
  generalize hR : monitor_active_from_id 1 xs (-5) mon = R
  rcases h with ⟨h1, h2⟩ | ⟨h1, h2⟩ | ⟨h1, h2⟩ | ⟨h1, h2, h3, h4, h5⟩
  · subst h1
    unfold monitor_active_from_id
    rw [if_pos rfl, h2]
    exact hR
  · subst h1
    unfold monitor_active_from_id
    rw [if_neg (by decide), if_pos rfl]
    cases hc : xs.current_desktop with
    | none => exact hR
    | some cd =>
      cases hv : xs.desktop_viewport with
      | none => exact hR
      | some vp =>
        simp only [h2 cd vp hc hv]
        exact hR
  · have hn3 : mon_id ≠ -3 := by rcases h1 with h | h <;> omega
    have hn1 : mon_id ≠ -1 := by rcases h1 with h | h <;> omega
    unfold monitor_active_from_id
    rw [if_neg hn3, if_neg hn1, if_pos h1]
    rcases h2 with h | h | h
    · simp only [h]
      exact hR
    · cases xs.active_window <;> simp only [h] <;> exact hR
    · cases xs.active_window <;> cases xs.geometry <;> simp only [h] <;> exact hR
  · have h24 : ¬ (mon_id = -2 ∨ mon_id = -4) := by omega
    unfold monitor_active_from_id
    rw [if_neg h3, if_neg h1, if_neg h24, if_neg h5]
    exact hR

theorem listview_nav_down_selected (wqr : widget → widget) (l : listview)
    (hr : l.req_elements < 4294967296) (hsel : l.selected < l.req_elements) :
    ∃ l1, listview_nav_down wqr (some l) = some l1 ∧ l1.req_elements = l.req_elements ∧
      l1.cycle = l.cycle ∧
      l1.selected = (if l.selected + 1 < l.req_elements then l.selected + 1
        else if l.cycle = true then 0 else l.selected) := by
  have h1 : usub l.req_elements 1 = l.req_elements - 1 := usub_of_le _ _ (by omega) hr
  have h2 : uadd l.selected 1 = l.selected + 1 := uadd_of_lt _ _ (by omega)
  unfold listview_nav_down
  simp only [h1, h2, MIN_eq_min]
  by_cases hlast : l.selected + 1 < l.req_elements
  · have hne : ¬ (l.req_elements = 0 ∨ (l.selected = l.req_elements - 1 ∧ l.cycle = false)) := by
      omega
    have hlt : l.selected < l.req_elements - 1 := by omega
    rw [if_neg hne, if_pos hlast]
    refine ⟨_, rfl, rfl, rfl, ?_⟩
    simp only [if_pos hlt]
    omega
  · have hs : l.selected = l.req_elements - 1 := by omega
    rw [if_neg hlast]
    by_cases hc : l.cycle = true
    · have hne : ¬ (l.req_elements = 0 ∨ (l.selected = l.req_elements - 1 ∧ l.cycle = false)) := by
        rw [hc]; simp; omega
      have hlt : ¬ l.selected < l.req_elements - 1 := by omega
      rw [if_neg hne, if_pos hc]
      refine ⟨_, rfl, rfl, rfl, ?_⟩
      simp only [if_neg hlt]
    · have hcf : l.cycle = false := by simpa using hc
      have hp : l.req_elements = 0 ∨ (l.selected = l.req_elements - 1 ∧ l.cycle = false) :=
        Or.inr ⟨hs, hcf⟩
      rw [if_pos hp, if_neg hc]
      exact ⟨_, rfl, rfl, rfl, rfl⟩

theorem listview_nav_up_selected (wqr : widget → widget) (l : listview)
    (hr : l.req_elements < 4294967296) (hsel : l.selected < l.req_elements) :
    ∃ l1, listview_nav_up wqr (some l) = some l1 ∧ l1.req_elements = l.req_elements ∧
      l1.cycle = l.cycle ∧
      l1.selected = (if 0 < l.selected then l.selected - 1
        else if l.cycle = true then l.req_elements - 1 else l.selected) := by
  unfold listview_nav_up
  dsimp only []
  by_cases h0 : 0 < l.selected
  · have hne : ¬ (l.req_elements = 0 ∨ (l.selected = 0 ∧ l.cycle = false)) := by omega
    have hs0 : ¬ l.selected = 0 := by omega
    rw [if_neg hne, if_pos h0, if_neg hs0]
    refine ⟨_, rfl, rfl, rfl, ?_⟩
    exact usub_of_le _ _ (by omega) (by omega)
  · have hs0 : l.selected = 0 := by omega
    rw [if_neg h0]
    by_cases hc : l.cycle = true
    · have hne : ¬ (l.req_elements = 0 ∨ (l.selected = 0 ∧ l.cycle = false)) := by
        rw [hc]; simp; omega
      rw [if_neg hne, if_pos hc, if_pos hs0]
      refine ⟨_, rfl, rfl, rfl, ?_⟩
      show usub l.req_elements 1 = l.req_elements - 1
      exact usub_of_le _ _ (by omega) hr
    · have hcf : l.cycle = false := by simpa using hc
      have hp : l.req_elements = 0 ∨ (l.selected = 0 ∧ l.cycle = false) := Or.inr ⟨hs0, hcf⟩
      rw [if_pos hp, if_neg hc]
      exact ⟨_, rfl, rfl, rfl, rfl⟩

theorem selection_valid_set_selected (wqr : widget → widget) (l : listview) (s : Nat)
    (hr : l.req_elements < 4294967296) :
    ∃ l1, listview_set_selected wqr (some l) s = some l1 ∧
      l1.req_elements = l.req_elements ∧ (l.req_elements = 0 ∨ l1.selected < l.req_elements) := by
  unfold listview_set_selected
  dsimp only []
  by_cases h0 : l.req_elements > 0
  · rw [if_pos h0]
    have key : MIN s (usub l.req_elements 1) < l.req_elements := by
      rw [MIN_eq_min, usub_of_le _ _ (by omega) hr]
      omega
    refine ⟨_, rfl, rfl, ?_⟩
    right
    dsimp only []
    exact key
  · rw [if_neg h0]
    exact ⟨_, rfl, rfl, Or.inl (by omega)⟩

theorem selection_valid_nav_left (wqr : widget → widget) (l : listview)
    (h : selection_valid l) (hr : l.req_elements < 4294967296) :
    ∃ l1, listview_nav_left wqr (some l) = some l1 ∧ selection_valid l1 := by
  unfold listview_nav_left
  dsimp only []
  unfold selection_valid at h
  by_cases h0 : l.selected ≥ l.max_rows
  · rw [if_pos h0]
    refine ⟨_, rfl, ?_⟩
    show l.req_elements = 0 ∨ usub l.selected l.max_rows < l.req_elements
    rcases h with h | h
    · exact Or.inl h
    · right
      rw [usub_of_le _ _ h0 (by omega)]
      omega
  · rw [if_neg h0]
    exact ⟨_, rfl, h⟩

theorem selection_valid_nav_page_prev (wqr : widget → widget) (l : listview)
    (h : selection_valid l) (hr : l.req_elements < 4294967296) :
    ∃ l1, listview_nav_page_prev wqr (some l) = some l1 ∧ selection_valid l1 := by
  unfold listview_nav_page_prev
  dsimp only []
  unfold selection_valid at h
  refine ⟨_, rfl, ?_⟩
  by_cases h0 : l.selected < l.max_elements
  · rw [if_pos h0]
    show l.req_elements = 0 ∨ 0 < l.req_elements
    omega
  · rw [if_neg h0]
    show l.req_elements = 0 ∨ usub l.selected l.max_elements < l.req_elements
    rcases h with h | h
    · exact Or.inl h
    · right
      rw [usub_of_le _ _ (by omega) (by omega)]
      omega

theorem selection_valid_nav_page_next (wqr : widget → widget) (l : listview)
    (h : selection_valid l) (hr : l.req_elements < 4294967296) :
    ∃ l1, listview_nav_page_next wqr (some l) = some l1 ∧ selection_valid l1 := by
  unfold listview_nav_page_next
  dsimp only []
  by_cases h0 : l.req_elements = 0
  · rw [if_pos h0]
    exact ⟨_, rfl, h⟩
  · rw [if_neg h0]
    refine ⟨_, rfl, ?_⟩
    by_cases h1 : uadd l.selected l.max_elements ≥ l.req_elements
    · rw [if_pos h1]
      show l.req_elements = 0 ∨ usub l.req_elements 1 < l.req_elements
      rw [usub_of_le _ _ (by omega) hr]
      omega
    · rw [if_neg h1]
      show l.req_elements = 0 ∨ uadd l.selected l.max_elements < l.req_elements
      omega

theorem selection_valid_nav_right (wqr : widget → widget) (l : listview)
    (h : selection_valid l) (hr : l.req_elements < 4294967296) :
    (∀ l1, listview_nav_right wqr (some l) = Except.ok (some l1) → selection_valid l1) ∧
    (0 < l.req_elements ∨ 0 < l.max_rows →
      ∃ l1, listview_nav_right wqr (some l) = Except.ok (some l1)) := by
  unfold listview_nav_right
  dsimp only []
  unfold selection_valid at h
  by_cases h0 : uadd l.selected l.max_rows < l.req_elements
  · rw [if_pos h0]
    refine ⟨fun l1 h1 => ?_, fun _ => ⟨_, rfl⟩⟩
    have e := Option.some.inj (Except.ok.inj h1)
    rw [← e]
    exact Or.inr h0
  · rw [if_neg h0]
    by_cases h1 : l.selected < usub l.req_elements 1
    · rw [if_pos h1]
      by_cases h2 : l.max_rows = 0
      · rw [if_pos h2]
        refine ⟨fun l1 h3 => (by cases h3), fun h3 => ?_⟩
        exfalso
        have hu : uadd l.selected l.max_rows = l.selected := by
          rw [h2]; exact uadd_of_lt _ _ (by omega)
        rw [hu] at h0
        omega
      · rw [if_neg h2]
        by_cases h3 : to_int (l.selected / l.max_rows) ≠ to_int (l.req_elements / l.max_rows)
        · rw [if_pos h3]
          refine ⟨fun l1 h4 => ?_, fun _ => ⟨_, rfl⟩⟩
          have e := Option.some.inj (Except.ok.inj h4)
          rw [← e]
          show l.req_elements = 0 ∨ usub l.req_elements 1 < l.req_elements
          by_cases hz : l.req_elements = 0
          · exact Or.inl hz
          · rw [usub_of_le _ _ (by omega) hr]
            omega
        · rw [if_neg h3]
          refine ⟨fun l1 h4 => ?_, fun _ => ⟨_, rfl⟩⟩
          have e := Option.some.inj (Except.ok.inj h4)
          rw [← e]
          exact h
    · rw [if_neg h1]
      refine ⟨fun l1 h4 => ?_, fun _ => ⟨_, rfl⟩⟩
      have e := Option.some.inj (Except.ok.inj h4)
      rw [← e]
      exact h

theorem selection_valid_nav_right_returns (wqr : widget → widget) (l : listview)
    (h : selection_valid l) (hr : l.req_elements < 4294967296)
    (hok : ¬ (l.req_elements = 0 ∧ l.max_rows = 0 ∧ l.selected < 4294967295)) :
    ∃ l1, listview_nav_right wqr (some l) = Except.ok (some l1) ∧ selection_valid l1 := by
  by_cases hc : 0 < l.req_elements ∨ 0 < l.max_rows
  · obtain ⟨l1, h1⟩ := (selection_valid_nav_right wqr l h hr).2 hc
    exact ⟨l1, h1, (selection_valid_nav_right wqr l h hr).1 l1 h1⟩
  · have hreq : l.req_elements = 0 := by omega
    have hrows : l.max_rows = 0 := by omega
    have hsel : ¬ l.selected < 4294967295 := fun hlt => hok ⟨hreq, hrows, hlt⟩
    have hu : usub l.req_elements 1 = 4294967295 := by
      rw [hreq]
      rfl
    refine ⟨l, ?_, h⟩
    unfold listview_nav_right
    dsimp only []
    rw [if_neg (by rw [hreq]; exact Nat.not_lt_zero _), hu, if_neg hsel]

theorem listview_nav_right_traps (wqr : widget → widget) (l : listview)
    (hreq : l.req_elements = 0) (hrows : l.max_rows = 0) (hsel : l.selected < 4294967295) :
    listview_nav_right wqr (some l) = Except.error "division by zero" := by
  have hu : usub l.req_elements 1 = 4294967295 := by
    rw [hreq]
    rfl
  unfold listview_nav_right
  dsimp only []
  rw [if_neg (by rw [hreq]; exact Nat.not_lt_zero _), hu, if_pos hsel, if_pos hrows]

theorem selection_valid_set_num_elements (api : widget_env) (l : listview) (rows : Nat)
    (hrows : rows < 4294967296) :
    selection_valid (listview_set_num_elements api l rows) := by
  obtain ⟨l2, h2, h2r, h2s⟩ :=
    selection_valid_set_selected api.widget_queue_redraw { l with req_elements := rows }
      l.selected hrows
  unfold listview_set_num_elements
  dsimp only []
  rw [h2]
  dsimp only []
  unfold selection_valid
  show (listview_recompute_elements api l2).req_elements = 0 ∨
    (listview_recompute_elements api l2).selected < (listview_recompute_elements api l2).req_elements
  rw [(listview_recompute_elements_frame api l2).2.2.2.1,
    (listview_recompute_elements_frame api l2).2.2.2.2.1, h2r]
  exact h2s

theorem or_eq_of_bits_sub (a b : Nat) (h : bits_sub b a) : a ||| b = a := by
  apply Nat.eq_of_testBit_eq
  intro k
  rw [Nat.testBit_or]
  cases hb : b.testBit k with
  | false => simp
  | true => rw [h k hb]; rfl

theorem and_eq_of_bits_sub (a b : Nat) (h : bits_sub a b) : a &&& b = a := by
  apply Nat.eq_of_testBit_eq
  intro k
  rw [Nat.testBit_and]
  cases ha : a.testBit k with
  | false => simp
  | true => rw [h k ha]; rfl

theorem x11_canonalize_fold_fixed (masks : X11Mod → Nat) (l : List X11Mod) (r : Nat)
    (h : ∀ i ∈ l, r &&& masks i ≠ 0 → bits_sub (masks i) r) :
    l.foldl (x11_canonalize_step masks) r = r := by
  induction l with
  | nil => rfl
  | cons i t ih =>
    have hstep : x11_canonalize_step masks r i = r := by
      unfold x11_canonalize_step
      by_cases hs : r &&& masks i ≠ 0
      · rw [if_pos hs]
        exact or_eq_of_bits_sub _ _ (h i (List.mem_cons_self i t) hs)
      · rw [if_neg hs]
    rw [List.foldl_cons, hstep]
    exact ih (fun j hj => h j (List.mem_cons_of_mem i hj))

theorem x11_canonalize_fold_origin (masks : X11Mod → Nat) (m : Nat) (mods : List X11Mod)
    (hdisj : ∀ i ∈ mods, ∀ j ∈ mods, i ≠ j → masks i &&& masks j = 0)
    (l : List X11Mod) (hl : ∀ i ∈ l, i ∈ mods) (acc : Nat)
    (hacc : ∀ k, acc.testBit k = true →
      m.testBit k = true ∨ ∃ j ∈ mods, m &&& masks j ≠ 0 ∧ (masks j).testBit k = true) :
    ∀ k, (l.foldl (x11_canonalize_step masks) acc).testBit k = true →
      m.testBit k = true ∨ ∃ j ∈ mods, m &&& masks j ≠ 0 ∧ (masks j).testBit k = true := by
  induction l generalizing acc with
  | nil => exact hacc
  | cons i t ih =>
    rw [List.foldl_cons]
    apply ih (fun j hj => hl j (List.mem_cons_of_mem i hj))
    intro k hk
    unfold x11_canonalize_step at hk
    by_cases hs : acc &&& masks i ≠ 0
    · rw [if_pos hs, Nat.testBit_or, Bool.or_eq_true] at hk
      rcases hk with hk | hk
      · exact hacc k hk
      · right
        have him : i ∈ mods := hl i (List.mem_cons_self i t)
        refine ⟨i, him, ?_, hk⟩
        obtain ⟨b, hb1, hb2⟩ := (and_ne_zero_iff _ _).1 hs
        rcases hacc b hb1 with hm | ⟨j, hj, hmj, hjb⟩
        · exact (and_ne_zero_iff _ _).2 ⟨b, hm, hb2⟩
        · by_cases hij : i = j
          · rw [hij]
            exact hmj
          · exfalso
            have hz := hdisj i him j hj hij
            exact (and_ne_zero_iff _ _).2 ⟨b, hb2, hjb⟩ hz
    · rw [if_neg hs] at hk
      exact hacc k hk

theorem x11_canonalize_mask_idem (masks : X11Mod → Nat) (m : Nat)
    (hsub : ∀ i ∈ x11_modifiers, bits_sub (masks i) (masks X11Mod.X11MOD_ANY))
    (hdisj : ∀ i ∈ x11_modifiers, ∀ j ∈ x11_modifiers, i ≠ j → masks i &&& masks j = 0) :
    x11_canonalize_mask masks (x11_canonalize_mask masks m) = x11_canonalize_mask masks m := by
  have hR : bits_sub (x11_canonalize_mask masks m) (masks X11Mod.X11MOD_ANY) := by
    apply x11_canonalize_fold_bound masks _ _ hsub
    intro k hk
    rw [Nat.testBit_and, Bool.and_eq_true] at hk
    exact hk.2
  have horigin := x11_canonalize_fold_origin masks m x11_modifiers hdisj x11_modifiers
    (fun i hi => hi) (m &&& masks X11Mod.X11MOD_ANY) (by
      intro k hk
      rw [Nat.testBit_and, Bool.and_eq_true] at hk
      exact Or.inl hk.1)
  have hclosed : ∀ i ∈ x11_modifiers, x11_canonalize_mask masks m &&& masks i ≠ 0 →
      bits_sub (masks i) (x11_canonalize_mask masks m) := by
    intro i hi hs
    obtain ⟨b, hb1, hb2⟩ := (and_ne_zero_iff _ _).1 hs
    have hm : m &&& masks i ≠ 0 := by
      rcases horigin b hb1 with hm | ⟨j, hj, hmj, hjb⟩
      · exact (and_ne_zero_iff _ _).2 ⟨b, hm, hb2⟩
      · by_cases hij : i = j
        · rw [hij]
          exact hmj
        · exfalso
          exact (and_ne_zero_iff _ _).2 ⟨b, hb2, hjb⟩ (hdisj i hi j hj hij)
    apply x11_canonalize_fold_adds masks _ _ i hi
    obtain ⟨c, hc1, hc2⟩ := (and_ne_zero_iff _ _).1 hm
    refine (and_ne_zero_iff _ _).2 ⟨c, ?_, hc2⟩
    rw [Nat.testBit_and, hc1, hsub i hi c hc2]
    rfl
  have e : x11_canonalize_mask masks (x11_canonalize_mask masks m)
      = x11_modifiers.foldl (x11_canonalize_step masks)
          (x11_canonalize_mask masks m &&& masks X11Mod.X11MOD_ANY) := rfl
  rw [e, and_eq_of_bits_sub _ _ hR]
  exact x11_canonalize_fold_fixed masks _ _ hclosed

theorem listview_clicked_loop_hit (wqr : widget → widget) (env : click_env) (lv : listview)
    (xce : xcb_button_press_event_t) (max : Nat) (boxes : List widget) :
    ∀ (k i : Nat) (b : widget), boxes.get? i = some b →
      env.widget_intersect (some b) xce.event_x xce.event_y = true →
      (∀ j bj, j < i → boxes.get? j = some bj →
        env.widget_intersect (some bj) xce.event_x xce.event_y = false) →
      k + i < max →
      listview_clicked_loop wqr env lv xce max k boxes
        = listview_clicked_box wqr lv xce (k + i) := by
  induction boxes with
  | nil =>
    intro k i b hb
    simp at hb
  | cons w rest ih =>
    intro k i b hb hhit hfirst hlt
    cases i with
    | zero =>
      have hw : w = b := by simpa using hb
      unfold listview_clicked_loop
      rw [if_pos (by omega), hw, hhit]
      rfl
    | succ i1 =>
      have hw : env.widget_intersect (some w) xce.event_x xce.event_y = false :=
        hfirst 0 w (by omega) rfl
      unfold listview_clicked_loop
      rw [if_pos (by omega), hw]
      have e : k + (i1 + 1) = (k + 1) + i1 := by omega
      rw [e]
      apply ih (k + 1) i1 b
      · simpa using hb
      · exact hhit
      · intro j bj hj hbj
        exact hfirst (j + 1) bj (by omega) (by simpa using hbj)
      · omega

theorem listview_clicked_loop_miss (wqr : widget → widget) (env : click_env) (lv : listview)
    (xce : xcb_button_press_event_t) (max : Nat) (boxes : List widget) :
    ∀ (k : Nat), (∀ j bj, k + j < max → boxes.get? j = some bj →
        env.widget_intersect (some bj) xce.event_x xce.event_y = false) →
      listview_clicked_loop wqr env lv xce max k boxes
        = { ret := false, lv := lv, xce := xce, mouse_activated := false } := by
  induction boxes with
  | nil =>
    intro k _
    rfl
  | cons w rest ih =>
    intro k hmiss
    unfold listview_clicked_loop
    by_cases hk : k < max
    · rw [if_pos hk, hmiss 0 w (by omega) rfl]
      apply ih (k + 1)
      intro j bj hj hbj
      exact hmiss (j + 1) bj (by omega) (by simpa using hbj)
    · rw [if_neg hk]

theorem listview_clicked_box_spec (wqr : widget → widget) (lv : listview)
    (xce : xcb_button_press_event_t) (i : Nat)
    (hr : lv.req_elements < 4294967296) (ht : xce.time < 4294967296)
    (hlc : lv.last_click < 4294967296) (hi : lv.last_offset + i < lv.req_elements) :
    (listview_clicked_box wqr lv xce i).ret = true ∧
    (listview_clicked_box wqr lv xce i).lv.last_click = xce.time ∧
    (lv.last_offset + i ≠ lv.selected →
      (listview_clicked_box wqr lv xce i).lv.selected = lv.last_offset + i ∧
      (listview_clicked_box wqr lv xce i).mouse_activated = false) ∧
    (lv.last_offset + i = lv.selected →
      (listview_clicked_box wqr lv xce i).lv.selected = lv.selected ∧
      ((listview_clicked_box wqr lv xce i).mouse_activated = true ↔
        ((xce.time : Int) - (lv.last_click : Int)) % 4294967296 < 200)) := by
  have hadd : uadd lv.last_offset i = lv.last_offset + i := uadd_of_lt _ _ (by omega)
  have hsub : usub lv.req_elements 1 = lv.req_elements - 1 := usub_of_le _ _ (by omega) hr
  unfold listview_clicked_box
  rw [hadd]
  by_cases hs : lv.last_offset + i = lv.selected
  · rw [if_pos hs]
    refine ⟨rfl, rfl, fun h => absurd hs h, fun _ => ⟨rfl, ?_⟩⟩
    dsimp only []
    rw [decide_eq_true_iff]
    unfold usub
    omega
  · rw [if_neg hs]
    have hset : listview_set_selected wqr (some lv) (lv.last_offset + i)
        = some { lv with selected := lv.last_offset + i, widget := wqr lv.widget } := by
      unfold listview_set_selected
      dsimp only []
      rw [if_pos (by omega), hsub, MIN_eq_min, Nat.min_eq_left (by omega)]
    rw [hset]
    exact ⟨rfl, rfl, fun _ => ⟨rfl, rfl⟩, fun h => absurd h hs⟩

theorem split_first_none (d : Char) (s : List Char) (h : d ∉ s) : split_first d s = none := by
  induction s with
  | nil => rfl
  | cons c cs ih =>
    have hc : c ≠ d := fun e => h (by rw [e]; exact List.mem_cons_self d cs)
    have hcs : d ∉ cs := fun e => h (List.mem_cons_of_mem c e)
    unfold split_first
    rw [if_neg hc, ih hcs]

theorem split_first_append (d : Char) (a b : List Char) (h : d ∉ a) :
    split_first d (a ++ d :: b) = some (a, b) := by
  induction a with
  | nil =>
    show split_first d (d :: b) = some ([], b)
    unfold split_first
    rw [if_pos rfl]
  | cons c cs ih =>
    have hc : c ≠ d := fun e => h (by rw [e]; exact List.mem_cons_self d cs)
    have hcs : d ∉ cs := fun e => h (List.mem_cons_of_mem c e)
    show split_first d (c :: (cs ++ d :: b)) = some (c :: cs, b)
    unfold split_first
    rw [if_neg hc, ih hcs]

theorem g_strsplit_tokens_length (d : Char) (n : Nat) :
    ∀ s : List Char, (g_strsplit_tokens d n s).length ≤ n + 1 := by
  induction n with
  | zero =>
    intro s
    simp [g_strsplit_tokens]
  | succ n ih =>
    intro s
    unfold g_strsplit_tokens
    cases h : split_first d s with
    | none => simp
    | some p =>
      have := ih p.2
      simp only [List.length_cons]
      omega

theorem color_fields_some (s : List Char) (hs : s ≠ []) :
    color_fields (some s) = g_strsplit_tokens ',' 2 s := by
  unfold color_fields g_strsplit
  simp only [if_neg hs]
  rfl

theorem color_call_sets (env : x11_env) (named : List Char → Option (Nat × Nat × Nat))
    (f : color_function) (cw : Option (List Char)) (cache : color_cache_t) :
    (color_entry f (color_call env named f cw cache).1).set ≠ 0 ∧
    (color_call env named f cw cache).2
      = (color_entry f (color_call env named f cw cache).1).color := by
  cases f
  · unfold color_call color_entry color_background
    dsimp only []
    refine ⟨?_, rfl⟩
    by_cases h : cache.BACKGROUND.set = 0
    · rw [if_pos h]
      show TRUE ≠ 0
      decide
    · rw [if_neg h]
      exact h
  · unfold color_call color_entry color_border
    dsimp only []
    refine ⟨?_, rfl⟩
    by_cases h : cache.BORDER.set = 0
    · rw [if_pos h]
      show TRUE ≠ 0
      decide
    · rw [if_neg h]
      exact h
  · unfold color_call color_entry color_separator
    dsimp only []
    refine ⟨?_, rfl⟩
    by_cases h : cache.SEPARATOR.set = 0
    · rw [if_pos h]
      show TRUE ≠ 0
      decide
    · rw [if_neg h]
      exact h

theorem color_call_keeps (env : x11_env) (named : List Char → Option (Nat × Nat × Nat))
    (f g : color_function) (cw : Option (List Char)) (cache : color_cache_t)
    (h : (color_entry f cache).set ≠ 0) :
    color_entry f (color_call env named g cw cache).1 = color_entry f cache := by
  cases g
  · unfold color_call color_background
    dsimp only []
    by_cases hs : cache.BACKGROUND.set = 0
    · rw [if_pos hs]
      cases f
      · exact absurd hs h
      · rfl
      · rfl
    · rw [if_neg hs]
  · unfold color_call color_border
    dsimp only []
    by_cases hs : cache.BORDER.set = 0
    · rw [if_pos hs]
      cases f
      · rfl
      · exact absurd hs h
      · rfl
    · rw [if_neg hs]
  · unfold color_call color_separator
    dsimp only []
    by_cases hs : cache.SEPARATOR.set = 0
    · rw [if_pos hs]
      cases f
      · rfl
      · rfl
      · exact absurd hs h
    · rw [if_neg hs]

theorem color_calls_keeps (env : x11_env) (named : List Char → Option (Nat × Nat × Nat))
    (f : color_function) (calls : List (color_function × Option (List Char))) :
    ∀ cache : color_cache_t, (color_entry f cache).set ≠ 0 →
      color_entry f (color_calls env named calls cache) = color_entry f cache := by
  induction calls with
  | nil =>
    intro cache _
    rfl
  | cons c cs ih =>
    intro cache h
    have hk := color_call_keeps env named f c.1 c.2 cache h
    have e : color_calls env named (c :: cs) cache
        = color_calls env named cs (color_call env named c.1 c.2 cache).1 := rfl
    rw [e, ih _ (by rw [hk]; exact h), hk]

theorem x11_find_mod_mask_bits (keymap : List String) (names : List String) (k : Nat) :
    ∀ acc : Nat,
      (names.foldl (fun mask name =>
        match xkb_keymap_mod_get_index keymap name with
        | some i => mask ||| (1 <<< (i % 32))
        | none => mask) acc).testBit k = true →
      acc.testBit k = true ∨
        ∃ name ∈ names, ∃ i, xkb_keymap_mod_get_index keymap name = some i ∧ i % 32 = k := by
  induction names with
  | nil =>
    intro acc h
    exact Or.inl h
  | cons a t ih =>
    intro acc h
    rw [List.foldl_cons] at h
    rcases ih _ h with h1 | ⟨name, hn, i, hi, hk⟩
    · cases hidx : xkb_keymap_mod_get_index keymap a with
      | none =>
        rw [hidx] at h1
        exact Or.inl h1
      | some i =>
        rw [hidx] at h1
        simp only [] at h1
        rw [Nat.testBit_or, Bool.or_eq_true] at h1
        rcases h1 with h1 | h1
        · exact Or.inl h1
        · right
          rw [Nat.one_shiftLeft, Nat.testBit_two_pow, decide_eq_true_iff] at h1
          exact ⟨a, List.mem_cons_self a t, i, hidx, h1⟩
    · exact Or.inr ⟨name, List.mem_cons_of_mem a hn, i, hi, hk⟩

theorem xkb_keymap_mod_get_index_inj (keymap : List String) (a b : String) (i : Nat)
    (ha : xkb_keymap_mod_get_index keymap a = some i)
    (hb : xkb_keymap_mod_get_index keymap b = some i) : a = b ∧ i < keymap.length := by
  unfold xkb_keymap_mod_get_index at ha hb
  by_cases hma : a ∈ keymap
  · by_cases hmb : b ∈ keymap
    · rw [if_pos hma] at ha
      rw [if_pos hmb] at hb
      have ea := Option.some.inj ha
      have eb := Option.some.inj hb
      refine ⟨(List.indexOf_inj hma hmb).1 (by rw [ea, eb]), ?_⟩
      rw [← ea]
      exact List.indexOf_lt_length.2 hma
    · rw [if_neg hmb] at hb
      exact Option.noConfusion hb
  · rw [if_neg hma] at ha
    exact Option.noConfusion ha

theorem x11_mod_names_disjoint :
    ∀ i ∈ x11_modifiers, ∀ j ∈ x11_modifiers, i ≠ j →
      ∀ a ∈ x11_mod_names i, a ∉ x11_mod_names j := by
  decide

theorem x11_find_mod_mask_disjoint (keymap : List String) (hmods : keymap.length ≤ 32) :
    ∀ i ∈ x11_modifiers, ∀ j ∈ x11_modifiers, i ≠ j →
      x11_find_mod_mask keymap (x11_mod_names i)
        &&& x11_find_mod_mask keymap (x11_mod_names j) = 0 := by
  intro i hi j hj hij
  by_contra hne
  obtain ⟨k, hk1, hk2⟩ := (and_ne_zero_iff _ _).1 hne
  have hz : (0 : Nat).testBit k = true → False := by
    rw [Nat.zero_testBit]
    exact fun h => Bool.noConfusion h
  rcases x11_find_mod_mask_bits keymap (x11_mod_names i) k 0 hk1 with h0 | ⟨a, ha, ia, hia, hka⟩
  · exact hz h0
  · rcases x11_find_mod_mask_bits keymap (x11_mod_names j) k 0 hk2 with
      h0 | ⟨b, hb, ib, hib, hkb⟩
    · exact hz h0
    · have la := (xkb_keymap_mod_get_index_inj keymap a a ia hia hia).2
      have lb := (xkb_keymap_mod_get_index_inj keymap b b ib hib hib).2
      have e : ia = ib := by omega
      rw [← e] at hib
      have hab := (xkb_keymap_mod_get_index_inj keymap a b ia hia hib).1
      rw [hab] at ha
      exact x11_mod_names_disjoint i hi j hj hij b ha hb

theorem bits_sub_foldl_or (g : X11Mod → Nat) (l : List X11Mod) (i : X11Mod) (hi : i ∈ l) :
    ∀ acc : Nat, bits_sub (g i) (l.foldl (fun any j => any ||| g j) acc) := by
  induction l with
  | nil => exact absurd hi (List.not_mem_nil i)
  | cons a t ih =>
    intro acc
    rw [List.foldl_cons]
    rcases List.mem_cons.1 hi with h | h
    · subst h
      have hmono : ∀ (l2 : List X11Mod) (acc2 : Nat),
          bits_sub acc2 (l2.foldl (fun any j => any ||| g j) acc2) := by
        intro l2
        induction l2 with
        | nil => exact fun acc2 => bits_sub_refl acc2
        | cons b t2 ih2 =>
          intro acc2 k hk
          rw [List.foldl_cons]
          apply ih2
          rw [Nat.testBit_or, hk]
          rfl
      intro k hk
      apply hmono
      rw [Nat.testBit_or, hk]
      simp
    · exact ih h _

theorem x11_mod_masks_of_keymap_spec (keymap : List String) (old : X11Mod → Nat) :
    (∀ i ∈ x11_modifiers,
      x11_mod_masks_of_keymap keymap old i = x11_find_mod_mask keymap (x11_mod_names i)) ∧
    (∀ i ∈ x11_modifiers,
      bits_sub (x11_mod_masks_of_keymap keymap old i)
        (x11_mod_masks_of_keymap keymap old X11Mod.X11MOD_ANY)) := by
  have hne : ∀ i ∈ x11_modifiers, i ≠ X11Mod.X11MOD_ANY := by decide
  have h1 : ∀ i ∈ x11_modifiers,
      x11_mod_masks_of_keymap keymap old i = x11_find_mod_mask keymap (x11_mod_names i) := by
    intro i hi
    unfold x11_mod_masks_of_keymap x11_figure_out_masks
    simp only [if_neg (hne i hi)]
  refine ⟨h1, ?_⟩
  intro i hi
  have hany : x11_mod_masks_of_keymap keymap old X11Mod.X11MOD_ANY
      = x11_modifiers.foldl
          (fun any j => any ||| (fun j =>
            if j = X11Mod.X11MOD_ANY then old X11Mod.X11MOD_ANY
            else x11_find_mod_mask keymap (x11_mod_names j)) j)
          (old X11Mod.X11MOD_ANY) := by
    unfold x11_mod_masks_of_keymap x11_figure_out_masks
    simp only [if_true]
  rw [hany, h1 i hi]
  have hb := bits_sub_foldl_or (fun j =>
      if j = X11Mod.X11MOD_ANY then old X11Mod.X11MOD_ANY
      else x11_find_mod_mask keymap (x11_mod_names j)) x11_modifiers i hi
    (old X11Mod.X11MOD_ANY)
  simp only [if_neg (hne i hi)] at hb
  exact hb

/-! ## Selection and navigation in the list view -/

/-- C1: with `req_elements > 0`, `listview_set_selected` stores
`min s (req_elements - 1)`; with `req_elements = 0` or a `NULL` list view nothing
changes; `listview_get_selected` returns the stored selection and `0` for `NULL`. -/
theorem C1_set_selected (wqr : widget → widget) (lv : listview) (s : Nat)
    (hreq : lv.req_elements < 4294967296) :
    (0 < lv.req_elements →
      listview_get_selected (listview_set_selected wqr (some lv) s)
        = min s (lv.req_elements - 1)) ∧
    (lv.req_elements = 0 → listview_set_selected wqr (some lv) s = some lv) ∧
    listview_set_selected wqr none s = none ∧
    listview_get_selected (some lv) = lv.selected ∧
    listview_get_selected none = 0 := by
  refine ⟨?_, ?_, rfl, rfl, rfl⟩
  · intro hpos
    have h1 : usub lv.req_elements 1 = lv.req_elements - 1 :=
      usub_of_le _ _ (by omega) hreq
    simp [listview_set_selected, listview_get_selected, hpos, h1, MIN_eq_min]
  · intro h0
    simp [listview_set_selected, h0]

theorem C1_set_selected_witness :
    lv_example.req_elements < 4294967296 ∧
    listview_get_selected (listview_set_selected id (some lv_example) 9) = 5 :=
  ⟨by decide, (C1_set_selected id lv_example 9 (by decide)).1 (by decide)⟩

/-- C2: `listview_nav_down` on a list view with `req_elements > 0` and
`selected < req_elements` moves the selection to `selected + 1` below the last
element; on the last element it wraps to `0` with `cycle` and stays without it.
With `req_elements = 0` the list view is unchanged. -/
theorem C2_nav_down (wqr : widget → widget) (lv : listview)
    (hreq : lv.req_elements < 4294967296) :
    (0 < lv.req_elements → lv.selected < lv.req_elements →
      (lv.selected < lv.req_elements - 1 →
        listview_get_selected (listview_nav_down wqr (some lv)) = lv.selected + 1) ∧
      (lv.selected = lv.req_elements - 1 → lv.cycle = true →
        listview_get_selected (listview_nav_down wqr (some lv)) = 0) ∧
      (lv.selected = lv.req_elements - 1 → lv.cycle = false →
        listview_get_selected (listview_nav_down wqr (some lv)) = lv.selected)) ∧
    (lv.req_elements = 0 → listview_nav_down wqr (some lv) = some lv) := by
  constructor
  · intro hpos hsel
    have h1 : usub lv.req_elements 1 = lv.req_elements - 1 :=
      usub_of_le _ _ (by omega) hreq
    refine ⟨?_, ?_, ?_⟩
    · intro hlt
      have h2 : uadd lv.selected 1 = lv.selected + 1 := uadd_of_lt _ _ (by omega)
      have hne : lv.req_elements ≠ 0 := by omega
      have hne2 : lv.selected ≠ lv.req_elements - 1 := by omega
      simp [listview_nav_down, listview_get_selected, h1, h2, hne, hne2, hlt, MIN_eq_min]
      omega
    · intro heq hc
      have hne : lv.req_elements ≠ 0 := by omega
      have hnlt : ¬ lv.selected < lv.req_elements - 1 := by omega
      simp [listview_nav_down, listview_get_selected, h1, hne, hc, hnlt]
    · intro heq hc
      simp [listview_nav_down, listview_get_selected, h1, heq, hc]
  · intro h0
    simp [listview_nav_down, h0]

theorem C2_nav_down_witness :
    lv_example.req_elements < 4294967296 ∧
    listview_get_selected (listview_nav_down id (some lv_example)) = lv_example.selected + 1 :=
  ⟨by decide,
    ((C2_nav_down id lv_example (by decide)).1 (by decide) (by decide)).1 (by decide)⟩

/-- C3: `listview_nav_up` on a list view with `req_elements > 0` moves the
selection to `selected - 1` when `selected > 0`; from `0` it wraps to
`req_elements - 1` with `cycle` and stays `0` without it.  With
`req_elements = 0` the list view is unchanged. -/
theorem C3_nav_up (wqr : widget → widget) (lv : listview)
    (hreq : lv.req_elements < 4294967296) (hsel : lv.selected < 4294967296) :
    (0 < lv.req_elements →
      (0 < lv.selected →
        listview_get_selected (listview_nav_up wqr (some lv)) = lv.selected - 1) ∧
      (lv.selected = 0 → lv.cycle = true →
        listview_get_selected (listview_nav_up wqr (some lv)) = lv.req_elements - 1) ∧
      (lv.selected = 0 → lv.cycle = false →
        listview_get_selected (listview_nav_up wqr (some lv)) = 0)) ∧
    (lv.req_elements = 0 → listview_nav_up wqr (some lv) = some lv) := by
  constructor
  · intro hpos
    have hne : lv.req_elements ≠ 0 := by omega
    refine ⟨?_, ?_, ?_⟩
    · intro hs
      have hs0 : lv.selected ≠ 0 := by omega
      have h1 : usub lv.selected 1 = lv.selected - 1 := usub_of_le _ _ (by omega) hsel
      simp [listview_nav_up, listview_get_selected, hne, hs0, h1]
    · intro hs hc
      have h1 : usub lv.req_elements 1 = lv.req_elements - 1 :=
        usub_of_le _ _ (by omega) hreq
      simp [listview_nav_up, listview_get_selected, hne, hs, hc, h1]
    · intro hs hc
      simp [listview_nav_up, listview_get_selected, hs, hc]
  · intro h0
    simp [listview_nav_up, h0]

theorem C3_nav_up_witness :
    lv_example.req_elements < 4294967296 ∧ lv_example.selected < 4294967296 ∧
    listview_get_selected (listview_nav_up id (some lv_example)) = lv_example.selected - 1 :=
  ⟨by decide, by decide,
    ((C3_nav_up id lv_example (by decide) (by decide)).1 (by decide)).1 (by decide)⟩

/-- C4: evaluation of `listview_nav_right` on six elements in two full columns of
three rows with the selection on element 4: the selection is already in the last
column (`4 / 3 = (6 - 1) / 3`) and the last column is full, yet the code moves it
to the last element 5. -/
theorem C4_nav_right_full_last_column :
    lv_example.max_rows = 3 ∧ lv_example.req_elements = 6 ∧ lv_example.selected = 4 ∧
    lv_example.selected / lv_example.max_rows
      = (lv_example.req_elements - 1) / lv_example.max_rows ∧
    lv_example.req_elements % lv_example.max_rows = 0 ∧
    listview_nav_right id (some lv_example)
      = Except.ok (some { lv_example with selected := 5 }) := by
  decide

/-- C5: `listview_nav_page_prev` subtracts `max_elements` from the selection when
`selected >= max_elements` and otherwise sets it to `0`; `listview_nav_page_next`,
for `req_elements > 0` and `selected + max_elements < 2 ^ 32`, sets it to
`min (selected + max_elements) (req_elements - 1)` and leaves the list view
unchanged when `req_elements = 0`. -/
theorem C5_nav_page (wqr : widget → widget) (lv : listview)
    (hsel : lv.selected < 4294967296) (hreq : lv.req_elements < 4294967296) :
    (lv.max_elements ≤ lv.selected →
      listview_get_selected (listview_nav_page_prev wqr (some lv))
        = lv.selected - lv.max_elements) ∧
    (lv.selected < lv.max_elements →
      listview_get_selected (listview_nav_page_prev wqr (some lv)) = 0) ∧
    (0 < lv.req_elements → lv.selected + lv.max_elements < 4294967296 →
      listview_get_selected (listview_nav_page_next wqr (some lv))
        = min (lv.selected + lv.max_elements) (lv.req_elements - 1)) ∧
    (lv.req_elements = 0 → listview_nav_page_next wqr (some lv) = some lv) := by
  refine ⟨?_, ?_, ?_, ?_⟩
  · intro hge
    have h1 : usub lv.selected lv.max_elements = lv.selected - lv.max_elements :=
      usub_of_le _ _ hge hsel
    have hn : ¬ lv.selected < lv.max_elements := by omega
    simp [listview_nav_page_prev, listview_get_selected, hn, h1]
  · intro hlt
    simp [listview_nav_page_prev, listview_get_selected, hlt]
  · intro hpos hno
    have h1 : usub lv.req_elements 1 = lv.req_elements - 1 :=
      usub_of_le _ _ (by omega) hreq
    have h2 : uadd lv.selected lv.max_elements = lv.selected + lv.max_elements :=
      uadd_of_lt _ _ hno
    have hne : lv.req_elements ≠ 0 := by omega
    simp only [listview_nav_page_next, listview_get_selected, hne, h1, h2, if_false]
    by_cases hc : lv.selected + lv.max_elements ≥ lv.req_elements
    · simp only [hc, if_true]
      omega
    · simp only [hc, if_false]
      omega
  · intro h0
    simp [listview_nav_page_next, h0]

theorem C5_nav_page_witness :
    lv_example.selected < 4294967296 ∧ lv_example.req_elements < 4294967296 ∧
    listview_get_selected (listview_nav_page_next id (some lv_example)) = 5 :=
  ⟨by decide, by decide,
    (C5_nav_page id lv_example (by decide) (by decide)).2.2.1 (by decide) (by decide)⟩

/-- C6: `listview_get_desired_height` returns `0` for a `NULL` list view or a
line count `h = 0`, and otherwise `h * element_height + (h - 1) * padding`
modulo `2 ^ 32`, where `h` is `menu_lines` if `fixed_num_lines` is set and
`min menu_lines req_elements` otherwise. -/
theorem C6_desired_height (lv : listview)
    (hml : lv.menu_lines < 4294967296) (hreq : lv.req_elements < 4294967296) :
    listview_get_desired_height none = 0 ∧
    listview_get_desired_height (some lv) =
      (if (if lv.fixed_num_lines ≠ 0 then lv.menu_lines
            else min lv.menu_lines lv.req_elements) = 0 then 0
       else
        ((if lv.fixed_num_lines ≠ 0 then lv.menu_lines
            else min lv.menu_lines lv.req_elements) * lv.element_height
          + ((if lv.fixed_num_lines ≠ 0 then lv.menu_lines
            else min lv.menu_lines lv.req_elements) - 1) * lv.padding) % 4294967296) := by
  refine ⟨rfl, ?_⟩
  have key : ∀ u : Nat, u < 4294967296 →
      (if to_int u = 0 then 0
        else uadd (umul (to_uint (to_int u)) lv.element_height)
          (umul (to_uint (to_int u - 1)) lv.padding))
      = (if u = 0 then 0
          else (u * lv.element_height + (u - 1) * lv.padding) % 4294967296) := by
    intro u hu
    by_cases h0 : u = 0
    · subst h0
      simp [to_int]
    · have hz : ¬ to_int u = 0 := fun h => h0 ((to_int_eq_zero u hu).1 h)
      rw [if_neg hz, if_neg h0, to_uint_to_int u hu, to_uint_to_int_pred u hu h0]
      unfold uadd umul
      exact (Nat.add_mod _ _ _).symm
  unfold listview_get_desired_height
  by_cases hf : lv.fixed_num_lines = 0
  · have hm : min lv.menu_lines lv.req_elements < 4294967296 := by omega
    simp only [hf, MIN_eq_min, if_true, ne_eq, not_true_eq_false, if_false]
    exact key _ hm
  · simp only [hf, if_false, ne_eq, not_false_eq_true, if_true]
    exact key _ hml

theorem C6_desired_height_witness :
    lv_example.menu_lines < 4294967296 ∧ lv_example.req_elements < 4294967296 ∧
    listview_get_desired_height (some lv_example) = 58 :=
  ⟨by decide, by decide, (C6_desired_height lv_example (by decide) (by decide)).2.trans (by decide)⟩

/-! ## The scrollbar -/

/-- C7: `scrollbar_clicked` returns an index of at most `length - 1` for every
scrollbar with `length >= 1` and every `y`; it returns `0` for a `NULL` scrollbar
and for `y` outside `[widget.y, widget.y + widget.h]`; and it returns `0` for a
click at or above the centre of the top-most handle position,
`y <= widget.y + handle / 2`. -/
theorem C7_scrollbar_clicked (sb : scrollbar) (y : Int)
    (hlen : sb.length < 4294967296)
    (hy : -2147483648 ≤ y ∧ y < 2147483648)
    (hwy : -32768 ≤ sb.widget.y ∧ sb.widget.y < 32768) :
    (1 ≤ sb.length → scrollbar_clicked (some sb) y ≤ sb.length - 1) ∧
    scrollbar_clicked none y = 0 ∧
    (y < sb.widget.y ∨ sb.widget.y + sb.widget.h < y → scrollbar_clicked (some sb) y = 0) ∧
    (y ≤ sb.widget.y + ((scrollbar_handle sb / 2 : Nat) : Int) →
      scrollbar_clicked (some sb) y = 0) := by
  refine ⟨?_, rfl, ?_, ?_⟩
  · intro h1
    have hl : usub sb.length 1 = sb.length - 1 := usub_of_le _ _ h1 hlen
    unfold scrollbar_clicked
    simp only []
    split
    · rw [← hl]
      exact MIN_le_right _ _
    · exact Nat.zero_le _
  · intro hout
    have hg : ¬ (y ≥ sb.widget.y ∧ y ≤ sb.widget.y + sb.widget.h) := by omega
    simp [scrollbar_clicked, hg]
  · intro hc
    unfold scrollbar_clicked
    simp only []
    split
    · rename_i hg
      have hh : scrollbar_handle sb < 4294967296 := usub_lt _ _
      have hy1 : to_int (usub (to_uint y)
          (uadd (to_uint sb.widget.y) (scrollbar_handle sb / 2))) ≤ 0 := by
        unfold to_int usub uadd to_uint
        split <;> omega
      have hm : MAX (0 : Int) (to_int (usub (to_uint y)
          (uadd (to_uint sb.widget.y) (scrollbar_handle sb / 2)))) = 0 := by
        unfold MAX
        split <;> omega
      have hy2 : to_int (if to_uint (0 : Int)
            < usub (to_uint sb.widget.h) (umul 2 (scrollbar_handle sb / 2))
          then to_uint (0 : Int)
          else usub (to_uint sb.widget.h) (umul 2 (scrollbar_handle sb / 2))) = 0 := by
        have h0 : to_uint (0 : Int) = 0 := by decide
        rw [h0]
        split
        · decide
        · rename_i hn
          have : usub (to_uint sb.widget.h) (umul 2 (scrollbar_handle sb / 2)) = 0 := by omega
          rw [this]
          decide
      rw [hm, hy2]
      have hz : dtou (ddiv (itod 0) (scrollbar_sec sb)) = 0 := dtou_zero_div _
      rw [hz]
      unfold MIN
      split <;> omega
    · rfl

theorem C7_scrollbar_clicked_witness :
    sb_example.length < 4294967296 ∧ scrollbar_clicked (some sb_example) 14 = 4 ∧
    scrollbar_clicked (some sb_example) 14 ≤ sb_example.length - 1 :=
  ⟨by decide, by decide,
    (C7_scrollbar_clicked sb_example 14 (by decide) (by decide) (by decide)).1 (by decide)⟩

/-- C8: each scrollbar setter stores its clamped argument and changes no other
field: `scrollbar_set_max_value` sets `length = max 1 max`, `scrollbar_set_handle`
sets `pos = min length pos`, `scrollbar_set_handle_length` sets
`pos_length = min length (max 1 pos_length)`; on a `NULL` scrollbar each is a
no-op.  `scrollbar_create x y w h` has width `max 1 w`, height `max 1 h`,
length 10, pos 0 and pos_length 4. -/
theorem C8_scrollbar_setters (sb : scrollbar) (n : Nat) (x y w h : Int) :
    scrollbar_set_max_value (some sb) n = some { sb with length := max 1 n } ∧
    scrollbar_set_handle (some sb) n = some { sb with pos := min sb.length n } ∧
    scrollbar_set_handle_length (some sb) n
      = some { sb with pos_length := min sb.length (max 1 n) } ∧
    scrollbar_set_max_value none n = none ∧
    scrollbar_set_handle none n = none ∧
    scrollbar_set_handle_length none n = none ∧
    (scrollbar_create x y w h).widget.w = max 1 w ∧
    (scrollbar_create x y w h).widget.h = max 1 h ∧
    (scrollbar_create x y w h).length = 10 ∧
    (scrollbar_create x y w h).pos = 0 ∧
    (scrollbar_create x y w h).pos_length = 4 := by
  have hmaxi : ∀ a b : Int, MAX a b = max a b := by
    intro a b
    unfold MAX
    split <;> omega
  refine ⟨?_, ?_, ?_, rfl, rfl, rfl, ?_, ?_, rfl, rfl, rfl⟩
  · simp [scrollbar_set_max_value, MAX_eq_max]
  · simp [scrollbar_set_handle, MIN_eq_min]
  · simp [scrollbar_set_handle_length, MIN_eq_min, MAX_eq_max]
  · simp [scrollbar_create, hmaxi]
  · simp [scrollbar_create, hmaxi]

/-! ## The separator -/

/-- C9: `separator_set_line_style_from_string` stores `S_LINE_NONE` for exactly
the string "none", `S_LINE_DASH` for exactly "dash", and `S_LINE_SOLID` for every
other value, among them `NULL`, the empty string and differently-cased spellings;
on a `NULL` separator nothing happens. -/
theorem C9_line_style_from_string (wnr : widget → widget) (sp : separator)
    (style_str : Option String) :
    separator_set_line_style_from_string wnr (some sp) style_str
      = some { sp with
          line_style :=
            if style_str = some "none" then separator_line_style.S_LINE_NONE
            else if style_str = some "dash" then separator_line_style.S_LINE_DASH
            else separator_line_style.S_LINE_SOLID,
          widget := wnr sp.widget } ∧
    (∀ t : Option String, t ∈ [none, some "", some "None", some "NONE", some "Dash",
        some "DASH", some "solid", some " none", some "dashed"] →
      (separator_set_line_style_from_string wnr (some sp) t).map (fun r => r.line_style)
        = some separator_line_style.S_LINE_SOLID) ∧
    separator_set_line_style_from_string wnr none style_str = none := by
  have main : ∀ t : Option String,
      separator_set_line_style_from_string wnr (some sp) t
        = some { sp with
            line_style :=
              if t = some "none" then separator_line_style.S_LINE_NONE
              else if t = some "dash" then separator_line_style.S_LINE_DASH
              else separator_line_style.S_LINE_SOLID,
            widget := wnr sp.widget } := by
    intro t
    simp only [separator_set_line_style_from_string, separator_set_line_style,
      g_strcmp0_eq_zero, _separator_style_none, _separator_style_dash]
  refine ⟨main style_str, ?_, rfl⟩
  intro t ht
  rw [main t]
  simp only [List.mem_cons, List.mem_singleton, List.not_mem_nil, or_false] at ht
  rcases ht with h | h | h | h | h | h | h | h | h <;> subst h <;>
    simp only [Option.map_some'] <;> rw [if_neg (by decide), if_neg (by decide)]

/-! ## Key bindings -/

/-- C10: for every combination `[!]e1 sep e2 ... sep en` with separators `+` or
`-` in which every entry, white space trimmed, is a (case-insensitive) modifier
name with a non-zero mask or else a name accepted by `xkb_keysym_from_name`,
`x11_parse_key` returns `TRUE`, sets `*mod` to the OR of the masks of the named
modifiers, sets `*key` to the keysym of the last non-modifier entry
(`XKB_KEY_NoSymbol` if there is none), and sets `*release` to `TRUE` exactly when
the combination starts with `!`, leaving it untouched otherwise.  The library
facts used: the empty name is no keysym and lowers to itself. -/
theorem C10_parse_key (env : x11_env) (bang : Bool) (e1 : List Char)
    (rest : List (Char × List Char)) (out : parse_key_out)
    (hk : env.xkb_keysym_from_name [] = XKB_KEY_NoSymbol)
    (hd : env.g_utf8_strdown [] = [])
    (hsep : ∀ p ∈ rest, p.1 = '+' ∨ p.1 = '-')
    (hent : ∀ e ∈ e1 :: rest.map Prod.snd, '+' ∉ e ∧ '-' ∉ e)
    (hbang : bang = false → (e1 ++ combo_tail rest).head? ≠ some '!')
    (hacc : ∀ e ∈ e1 :: rest.map Prod.snd, entry_accepted env e) :
    x11_parse_key env ((if bang then ['!'] else []) ++ (e1 ++ combo_tail rest)) out
      = (true,
          { mod := combo_mod_mask env (e1 :: rest.map Prod.snd),
            key := combo_key env (e1 :: rest.map Prod.snd),
            release := if bang then true else out.release,
            str := out.str }) := by
  -- the text after the optional `!` is not empty
  have hne : e1 ++ combo_tail rest ≠ [] := by
    intro h
    have h1 : e1 = [] := (List.append_eq_nil.1 h).1
    have hacc1 : entry_accepted env e1 := hacc e1 (List.mem_cons_self _ _)
    rw [h1] at hacc1
    have hs : g_strstrip env [] = [] := by simp [g_strstrip, List.rdropWhile]
    have hm : entry_modifier env [] = none := by
      simp only [entry_modifier, hs, hd]
      decide
    unfold entry_accepted at hacc1
    rw [hm] at hacc1
    simp only [hs] at hacc1
    exact hacc1 hk
  -- the entries found by the split
  have hsplit : g_strsplit_set (e1 ++ combo_tail rest) "+-".toList
      = e1 :: rest.map Prod.snd := by
    unfold g_strsplit_set
    rw [if_neg hne]
    have hent2 : ∀ p ∈ rest, '+' ∉ p.2 ∧ '-' ∉ p.2 := fun p hp =>
      hent p.2 (List.mem_cons_of_mem _ (List.mem_map_of_mem Prod.snd hp))
    rw [g_strsplit_set_loop_combo rest hsep hent2 e1 [] (hent e1 (List.mem_cons_self _ _))]
    simp
  have hfold := x11_parse_key_entries env
    { modmask := 0, sym := XKB_KEY_NoSymbol, error_msg := none } (e1 :: rest.map Prod.snd) hacc
  cases bang with
  | true =>
    simp only [if_true, List.singleton_append]
    unfold x11_parse_key
    simp only [List.head?_cons, List.tail_cons, if_true, hsplit, hfold]
    rfl
  | false =>
    have hb := hbang rfl
    simp only [Bool.false_eq_true, if_false, List.nil_append]
    unfold x11_parse_key
    simp only [hb, if_false, hsplit, hfold]
    rfl

theorem C10_parse_key_witness :
    x11_parse_key env_example "!Control+Shift - a".toList
        { mod := 0, key := 0, release := false, str := [] }
      = (true, { mod := 5, key := 97, release := true, str := [] }) :=
  (C10_parse_key env_example true "Control".toList
    [('+', "Shift ".toList), ('-', " a".toList)]
    { mod := 0, key := 0, release := false, str := [] }
    (by decide) (by decide) (by decide) (by decide) (by decide) (by decide)).trans (by decide)

/-- C11: `x11_parse_key` returns `FALSE` if and only if at least one entry of the
combination (the text after the optional `!`, split on `+` and `-`, white space
trimmed) is a modifier name whose configured mask is zero or a non-modifier entry
that `xkb_keysym_from_name` does not understand, wherever it stands; it then
appends to `str` the line "Cannot understand the key combination: <i>COMBO</i>"
with the markup-escaped combination, followed by an error line.  A non-empty
text `e1 sep e2 ... sep en` has exactly the entries `e1 ... en` (an empty one
included); the empty text has no entry. -/
theorem C11_parse_key_failure (env : x11_env) (combo : List Char) (out : parse_key_out) :
    ((x11_parse_key env combo out).1 = false
      ↔ ∃ e ∈ g_strsplit_set (combo_body combo) "+-".toList, entry_rejected env e) ∧
    ((x11_parse_key env combo out).1 = false →
      ∃ line, line.getLast? = some '\n' ∧
        (x11_parse_key env combo out).2.str
          = out.str ++ "Cannot understand the key combination: <i>".toList
            ++ env.g_markup_escape_text combo ++ "</i>\n".toList ++ line) ∧
    (∀ (e1 : List Char) (rest : List (Char × List Char)),
      (∀ p ∈ rest, p.1 = '+' ∨ p.1 = '-') →
      (∀ e ∈ e1 :: rest.map Prod.snd, '+' ∉ e ∧ '-' ∉ e) →
      e1 ++ combo_tail rest ≠ [] →
      g_strsplit_set (e1 ++ combo_tail rest) "+-".toList = e1 :: rest.map Prod.snd) ∧
    g_strsplit_set [] "+-".toList = [] := by
  have hfold := x11_parse_key_error_iff env
    (g_strsplit_set (if combo.head? = some '!' then combo.tail else combo) "+-".toList)
    { modmask := 0, sym := XKB_KEY_NoSymbol, error_msg := none }
  obtain ⟨h1, h2⟩ := hfold
  have h1b : (List.foldl (x11_parse_key_entry env)
        { modmask := 0, sym := XKB_KEY_NoSymbol, error_msg := none }
        (g_strsplit_set (if combo.head? = some '!' then combo.tail else combo)
          "+-".toList)).error_msg ≠ none
      ↔ ∃ e ∈ g_strsplit_set (combo_body combo) "+-".toList, entry_rejected env e :=
    h1.trans ⟨fun h => h.elim (fun h0 => absurd rfl h0) id, Or.inr⟩
  have hsplit : ∀ (e1 : List Char) (rest : List (Char × List Char)),
      (∀ p ∈ rest, p.1 = '+' ∨ p.1 = '-') →
      (∀ e ∈ e1 :: rest.map Prod.snd, '+' ∉ e ∧ '-' ∉ e) →
      e1 ++ combo_tail rest ≠ [] →
      g_strsplit_set (e1 ++ combo_tail rest) "+-".toList = e1 :: rest.map Prod.snd := by
    intro e1 rest hsep hent hne
    unfold g_strsplit_set
    rw [if_neg hne]
    have hent2 : ∀ p ∈ rest, '+' ∉ p.2 ∧ '-' ∉ p.2 := fun p hp =>
      hent p.2 (List.mem_cons_of_mem _ (List.mem_map_of_mem Prod.snd hp))
    rw [g_strsplit_set_loop_combo rest hsep hent2 e1 [] (hent e1 (List.mem_cons_self _ _))]
    simp
  have hstr : ∀ o : parse_key_out,
      (if combo.head? = some '!' then { o with release := true } else o).str = o.str := by
    intro o
    split <;> rfl
  cases hst : (List.foldl (x11_parse_key_entry env)
        { modmask := 0, sym := XKB_KEY_NoSymbol, error_msg := none }
        (g_strsplit_set (if combo.head? = some '!' then combo.tail else combo)
          "+-".toList)).error_msg with
  | none =>
    have hres : (x11_parse_key env combo out).1 = true := by
      unfold x11_parse_key
      simp only [hst]
    have hno : ¬ ∃ e ∈ g_strsplit_set (combo_body combo) "+-".toList, entry_rejected env e :=
      fun h => (h1b.2 h) hst
    refine ⟨?_, ?_, ?_, rfl⟩
    · rw [hres]
      exact ⟨fun h => Bool.noConfusion h, fun h => absurd h hno⟩
    · rw [hres]
      intro h
      exact Bool.noConfusion h
    · exact hsplit
  | some m =>
    have hres : x11_parse_key env combo out
        = (false,
            { (if combo.head? = some '!' then { out with release := true } else out) with
              str := (if combo.head? = some '!' then { out with release := true } else out).str
                ++ "Cannot understand the key combination: <i>".toList
                ++ env.g_markup_escape_text combo ++ "</i>\n".toList ++ m }) := by
      unfold x11_parse_key
      simp only [hst]
    have hyes : ∃ e ∈ g_strsplit_set (combo_body combo) "+-".toList, entry_rejected env e :=
      h1b.1 (by rw [hst]; exact Option.some_ne_none m)
    refine ⟨?_, ?_, ?_, rfl⟩
    · rw [hres]
      exact ⟨fun _ => hyes, fun _ => rfl⟩
    · rw [hres]
      intro _
      exact ⟨m, h2 (fun m0 h0 => Option.noConfusion h0) m hst, by simp only [hstr]⟩
    · exact hsplit

theorem C11_parse_key_failure_witness :
    (x11_parse_key env_example "!Meta+b+a".toList
        { mod := 0, key := 0, release := false, str := [] }).1 = false ∧
    g_strsplit_set "a+".toList "+-".toList = ["a".toList, []] :=
  ⟨((C11_parse_key_failure env_example "!Meta+b+a".toList
      { mod := 0, key := 0, release := false, str := [] }).1).2
      ⟨"Meta".toList, by decide, by decide⟩,
    (C11_parse_key_failure env_example "!Meta+b+a".toList
      { mod := 0, key := 0, release := false, str := [] }).2.2.1 "a".toList [('+', [])]
      (by decide) (by decide) (by decide)⟩

/-! ## Modifier masks -/

/-- C15: with `x11_mod_masks[X11MOD_ANY]` the union of the six modifier masks (which
is what `x11_figure_out_masks` stores into a zeroed table), `x11_canonalize_mask m`
equals `x11_canonalize_mask (m & ANY)`, has no bit outside `ANY`, has every bit of
`m & ANY`, and has all bits of `x11_mod_masks[i]` for each modifier `i` with which
`m` shares a bit; masks that differ only in the group bits 13 and 14 get the same
result when no modifier mask contains these bits. -/
theorem C15_canonalize_mask (masks : X11Mod → Nat) (m : Nat)
    (hany : masks X11Mod.X11MOD_ANY
      = masks X11Mod.X11MOD_SHIFT ||| masks X11Mod.X11MOD_CONTROL ||| masks X11Mod.X11MOD_ALT
        ||| masks X11Mod.X11MOD_META ||| masks X11Mod.X11MOD_SUPER
        ||| masks X11Mod.X11MOD_HYPER) :
    x11_canonalize_mask masks m
      = x11_canonalize_mask masks (m &&& masks X11Mod.X11MOD_ANY) ∧
    (∀ k, (x11_canonalize_mask masks m).testBit k = true →
      (masks X11Mod.X11MOD_ANY).testBit k = true) ∧
    (∀ k, (m &&& masks X11Mod.X11MOD_ANY).testBit k = true →
      (x11_canonalize_mask masks m).testBit k = true) ∧
    (∀ i ∈ x11_modifiers, m &&& masks i ≠ 0 →
      ∀ k, (masks i).testBit k = true → (x11_canonalize_mask masks m).testBit k = true) ∧
    ((masks X11Mod.X11MOD_ANY).testBit 13 = false →
      (masks X11Mod.X11MOD_ANY).testBit 14 = false →
      ∀ m2, (∀ k, k ≠ 13 → k ≠ 14 → m2.testBit k = m.testBit k) →
        x11_canonalize_mask masks m2 = x11_canonalize_mask masks m) ∧
    (∀ find : X11Mod → Nat,
      x11_figure_out_masks find (fun _ => 0) X11Mod.X11MOD_ANY
        = find X11Mod.X11MOD_SHIFT ||| find X11Mod.X11MOD_CONTROL ||| find X11Mod.X11MOD_ALT
          ||| find X11Mod.X11MOD_META ||| find X11Mod.X11MOD_SUPER
          ||| find X11Mod.X11MOD_HYPER) := by
  have hsub : ∀ i ∈ x11_modifiers, bits_sub (masks i) (masks X11Mod.X11MOD_ANY) := by
    intro i hi k hk
    rw [hany]
    simp only [x11_modifiers, List.mem_cons, List.mem_singleton, List.not_mem_nil,
      or_false] at hi
    simp only [Nat.testBit_or, Bool.or_eq_true]
    rcases hi with h | h | h | h | h | h <;> subst h <;> simp [hk]
  refine ⟨?_, ?_, ?_, ?_, ?_, ?_⟩
  · unfold x11_canonalize_mask
    rw [Nat.and_assoc, Nat.and_self]
  · apply x11_canonalize_fold_bound masks _ _ hsub
    intro k hk
    rw [Nat.testBit_and, Bool.and_eq_true] at hk
    exact hk.2
  · exact x11_canonalize_fold_mono masks _ _
  · intro i hi hshare
    apply x11_canonalize_fold_adds masks _ _ i hi
    obtain ⟨k, ha, hb⟩ := (and_ne_zero_iff _ _).1 hshare
    refine (and_ne_zero_iff _ _).2 ⟨k, ?_, hb⟩
    rw [Nat.testBit_and, ha, hsub i hi k hb]
    rfl
  · intro h13 h14 m2 hm2
    unfold x11_canonalize_mask
    have heq : m2 &&& masks X11Mod.X11MOD_ANY = m &&& masks X11Mod.X11MOD_ANY := by
      apply Nat.eq_of_testBit_eq
      intro k
      rw [Nat.testBit_and, Nat.testBit_and]
      by_cases hk13 : k = 13
      · rw [hk13, h13]
        simp
      · by_cases hk14 : k = 14
        · rw [hk14, h14]
          simp
        · rw [hm2 k hk13 hk14]
    rw [heq]
  · intro find
    simp [x11_figure_out_masks, x11_modifiers]

theorem C15_canonalize_mask_witness :
    x11_canonalize_mask env_example.x11_mod_masks (8192 + 64 + 2)
      = x11_canonalize_mask env_example.x11_mod_masks ((8192 + 64 + 2) &&& 77) ∧
    x11_canonalize_mask env_example.x11_mod_masks (8192 + 64 + 2) = 64 :=
  ⟨(C15_canonalize_mask env_example.x11_mod_masks (8192 + 64 + 2) (by decide)).1, by decide⟩

/-! ## Scrolling -/

/-- C16: for `max_elements > 0`, `scroll_per_page` returns an offset with
`offset <= selected < offset + max_elements`; if
`last_offset <= selected < last_offset + max_elements` the offset is
`last_offset` and the list view is untouched; otherwise the offset is
`(selected / max_elements) * max_elements`, and `cur_page` and `rchanged` are
written exactly when that page number differs from `cur_page`. -/
theorem C16_scroll_per_page (lv : listview)
    (hsel : lv.selected < 4294967296) (hoff : lv.last_offset < 4294967296)
    (hmax : 0 < lv.max_elements) :
    ((scroll_per_page lv).1 ≤ lv.selected ∧
      lv.selected < (scroll_per_page lv).1 + lv.max_elements) ∧
    (lv.last_offset ≤ lv.selected ∧ lv.selected < lv.last_offset + lv.max_elements →
      scroll_per_page lv = (lv.last_offset, lv)) ∧
    (¬ (lv.last_offset ≤ lv.selected ∧ lv.selected < lv.last_offset + lv.max_elements) →
      (scroll_per_page lv).1 = lv.selected / lv.max_elements * lv.max_elements ∧
      (lv.selected / lv.max_elements ≠ lv.cur_page →
        (scroll_per_page lv).2
          = { lv with cur_page := lv.selected / lv.max_elements, rchanged := TRUE }) ∧
      (lv.selected / lv.max_elements = lv.cur_page → (scroll_per_page lv).2 = lv)) := by
  have hcond : (usub lv.selected lv.last_offset < lv.max_elements ∧ lv.selected ≥ lv.last_offset)
      ↔ (lv.last_offset ≤ lv.selected ∧ lv.selected < lv.last_offset + lv.max_elements) := by
    unfold usub
    constructor <;> intro h <;> omega
  have hp1 : lv.selected / lv.max_elements * lv.max_elements ≤ lv.selected :=
    Nat.div_mul_le_self _ _
  have hp2 : lv.selected < lv.selected / lv.max_elements * lv.max_elements + lv.max_elements := by
    have h1 := Nat.div_add_mod lv.selected lv.max_elements
    have h2 := Nat.mod_lt lv.selected hmax
    rw [Nat.mul_comm] at h1
    omega
  have hpage : to_uint (to_int (umul (lv.selected / lv.max_elements) lv.max_elements))
      = lv.selected / lv.max_elements * lv.max_elements := by
    have h3 : umul (lv.selected / lv.max_elements) lv.max_elements
        = lv.selected / lv.max_elements * lv.max_elements := by
      unfold umul
      exact Nat.mod_eq_of_lt (by omega)
    rw [h3]
    exact to_uint_to_int _ (by omega)
  have hin : (lv.last_offset ≤ lv.selected ∧ lv.selected < lv.last_offset + lv.max_elements) →
      scroll_per_page lv = (lv.last_offset, lv) := by
    intro h
    unfold scroll_per_page
    rw [if_pos (hcond.2 h), to_uint_to_int _ hoff]
  have hout : ¬ (lv.last_offset ≤ lv.selected ∧ lv.selected < lv.last_offset + lv.max_elements) →
      scroll_per_page lv
        = (lv.selected / lv.max_elements * lv.max_elements,
            if lv.selected / lv.max_elements ≠ lv.cur_page then
              { lv with cur_page := lv.selected / lv.max_elements, rchanged := TRUE }
            else lv) := by
    intro h
    unfold scroll_per_page
    rw [if_neg (fun hc => h (hcond.1 hc))]
    simp only [gt_iff_lt, hmax, if_true, hpage]
  refine ⟨?_, hin, ?_⟩
  · by_cases h : lv.last_offset ≤ lv.selected ∧ lv.selected < lv.last_offset + lv.max_elements
    · rw [hin h]
      exact h
    · rw [hout h]
      exact ⟨hp1, hp2⟩
  · intro h
    rw [hout h]
    refine ⟨rfl, ?_, ?_⟩
    · intro hne
      simp only [hne, ne_eq, not_false_eq_true, if_true]
    · intro heq
      simp only [heq, ne_eq, not_true_eq_false, if_false]

theorem C16_scroll_per_page_witness :
    lv_example.selected < 4294967296 ∧ lv_example.last_offset < 4294967296 ∧
    0 < lv_example.max_elements ∧ scroll_per_page lv_example = (0, lv_example) :=
  ⟨by decide, by decide, by decide,
    (C16_scroll_per_page lv_example (by decide) (by decide) (by decide)).2.1 (by decide)⟩

/-- C17: for `max_rows > 0` and `selected < req_elements`, every subtraction in
`scroll_continious` has a first operand at least as large as the second, and the
offset returned satisfies `offset <= selected < offset + max_rows` and
`offset + max_rows <= max req_elements max_rows`; it is `0` whenever
`req_elements <= max_rows`. -/
theorem C17_scroll_continious (lv : listview)
    (hrows : lv.max_rows < 4294967296) (hreq : lv.req_elements < 4294967296)
    (hpos : 0 < lv.max_rows) (hsel : lv.selected < lv.req_elements) :
    ((if lv.max_rows &&& 1 = 0 then 1 else 0) ≤ lv.max_rows ∧
      scroll_continious_middle lv ≤ lv.max_rows ∧
      (lv.selected > scroll_continious_middle lv →
        lv.max_rows - scroll_continious_middle lv ≤ lv.req_elements ∧
        (lv.selected < lv.req_elements - (lv.max_rows - scroll_continious_middle lv) →
          scroll_continious_middle lv ≤ lv.selected) ∧
        (lv.req_elements > lv.max_rows → lv.max_rows ≤ lv.req_elements))) ∧
    (scroll_continious lv).1 ≤ lv.selected ∧
    lv.selected < (scroll_continious lv).1 + lv.max_rows ∧
    (scroll_continious lv).1 + lv.max_rows ≤ max lv.req_elements lv.max_rows ∧
    (lv.req_elements ≤ lv.max_rows → (scroll_continious lv).1 = 0) := by
  have hmid : scroll_continious_middle lv
      = (lv.max_rows - (if lv.max_rows % 2 = 0 then 1 else 0)) / 2 := by
    unfold scroll_continious_middle usub
    rw [Nat.and_one_is_mod]
    split <;> omega
  have hoffset : (scroll_continious lv).1 = scroll_continious_offset lv := rfl
  rw [hoffset]
  unfold scroll_continious_offset
  simp only []
  rw [Nat.and_one_is_mod]
  generalize hm : scroll_continious_middle lv = middle at hmid
  unfold usub
  refine ⟨⟨?_, ?_, ?_⟩, ?_, ?_, ?_, ?_⟩
  · split <;> omega
  · split at hmid <;> omega
  · intro h
    split at hmid <;> omega
  all_goals
    split at hmid <;> split_ifs <;> omega

theorem C17_scroll_continious_witness :
    lv_example.max_rows < 4294967296 ∧ lv_example.req_elements < 4294967296 ∧
    (scroll_continious lv_example).1 = 3 ∧
    (scroll_continious lv_example).1 ≤ lv_example.selected :=
  ⟨by decide, by decide, by decide,
    (C17_scroll_continious lv_example (by decide) (by decide) (by decide) (by decide)).2.1⟩

/-! ## Layout of the list view -/

/-- C18, as stated, fails when `element_height + padding` wraps around: with
`element_height = 3`, `padding = 4294967294` and height 5 the code divides
`(4294967294 + 5) mod 2 ^ 32 = 3` by `(3 + 4294967294) mod 2 ^ 32 = 1` and stores
`max_rows = 3`, while `(padding + h) / (element_height + padding) = 1` and three
rows do not fit into the height. -/
theorem C18_resize_wraps :
    0 < lv_wrap_padding.element_height + lv_wrap_padding.padding ∧
    (listview_resize api_example lv_wrap_padding 100 5).toOption.map (fun l => l.max_rows)
      = some 3 ∧
    (lv_wrap_padding.padding + 5)
      / (lv_wrap_padding.element_height + lv_wrap_padding.padding) = 1 ∧
    ¬ (3 * lv_wrap_padding.element_height + (3 - 1) * lv_wrap_padding.padding ≤ 5) := by
  decide

/-- C18, amended: when `0 < element_height + padding < 2 ^ 32` and
`padding + h < 2 ^ 32` for the stored height `h = max 0 height`, `listview_resize`
returns, stores `max 0 w` and `max 0 height` as width and height, sets
`max_rows = (padding + h) / (element_height + padding)`, which is the greatest `n`
with `n * element_height + (n - 1) * padding <= h` (for `n >= 1`), and sets
`max_elements = max_rows * menu_columns` modulo `2 ^ 32`.  Consequently resizing
to the height `listview_get_desired_height` reports for `n >= 1` lines yields
`max_rows = n`, provided `n * element_height + (n - 1) * padding` is a C `short`. -/
theorem C18_resize (api : widget_env) (lv : listview) (w h : Int)
    (hshort : -32768 ≤ h ∧ h < 32768)
    (hpos : 0 < lv.element_height + lv.padding)
    (hsum : lv.element_height + lv.padding < 4294967296)
    (hph : lv.padding + (max 0 h).toNat < 4294967296) :
    (∃ l, listview_resize api lv w h = Except.ok l ∧
      l.widget = api.widget_queue_redraw { lv.widget with w := max 0 w, h := max 0 h } ∧
      l.max_rows = (lv.padding + (max 0 h).toNat) / (lv.element_height + lv.padding) ∧
      (∀ n, 1 ≤ n →
        (n * lv.element_height + (n - 1) * lv.padding ≤ (max 0 h).toNat ↔ n ≤ l.max_rows)) ∧
      l.max_elements = (l.max_rows * lv.menu_columns) % 4294967296) ∧
    (lv.menu_lines < 4294967296 → lv.req_elements < 4294967296 →
      ∀ n, n = (if lv.fixed_num_lines ≠ 0 then lv.menu_lines
          else min lv.menu_lines lv.req_elements) →
        1 ≤ n → n * lv.element_height + (n - 1) * lv.padding ≤ 32767 →
        ∃ l, listview_resize api lv w ((listview_get_desired_height (some lv) : Nat) : Int)
            = Except.ok l ∧ l.max_rows = n) := by
  have hmaxi : ∀ a b : Int, MAX a b = max a b := by
    intro a b
    unfold MAX
    split <;> omega
  have main : ∀ g : Int, -32768 ≤ g ∧ g < 32768 →
      lv.padding + (max 0 g).toNat < 4294967296 →
      ∃ l, listview_resize api lv w g = Except.ok l ∧
        l.widget = api.widget_queue_redraw { lv.widget with w := max 0 w, h := max 0 g } ∧
        l.max_rows = (lv.padding + (max 0 g).toNat) / (lv.element_height + lv.padding) ∧
        l.max_elements
          = ((lv.padding + (max 0 g).toNat) / (lv.element_height + lv.padding)
              * lv.menu_columns) % 4294967296 := by
    intro g hg hpg
    have h1 : uadd lv.element_height lv.padding = lv.element_height + lv.padding :=
      uadd_of_lt _ _ hsum
    have h2 : to_uint (max 0 g) = (max 0 g).toNat := by
      unfold to_uint
      omega
    have h3 : uadd lv.padding (max 0 g).toNat = lv.padding + (max 0 g).toNat :=
      uadd_of_lt _ _ hpg
    have hne : uadd lv.element_height lv.padding ≠ 0 := by
      rw [h1]
      omega
    obtain ⟨l, hl, hw, hr, he⟩ := listview_resize_ok api lv w g hne
    rw [hmaxi, hmaxi] at hw
    rw [hmaxi, h1, h2, h3] at hr he
    exact ⟨l, hl, hw, hr, he⟩
  constructor
  · obtain ⟨l, hl, hw, hr, he⟩ := main h hshort hph
    refine ⟨l, hl, hw, hr, ?_, ?_⟩
    · intro n hn
      rw [hr]
      exact rows_fit_iff n _ _ _ hn hpos
    · rw [he, hr]
  · intro hml hreq n hn h1 hfit
    have hd : listview_get_desired_height (some lv)
        = n * lv.element_height + (n - 1) * lv.padding := by
      rw [listview_get_desired_height_eq lv hml hreq, ← hn]
      have hn0 : n ≠ 0 := by omega
      rw [if_neg hn0]
      exact Nat.mod_eq_of_lt (by omega)
    rw [hd]
    have hcast : ∀ X : Nat, (max 0 (X : Int)).toNat = X := by
      intro X
      omega
    have hpH : lv.padding + (n * lv.element_height + (n - 1) * lv.padding) < 4294967296 := by
      rcases Nat.lt_or_ge n 2 with h2 | h2
      · have h3 : n = 1 := by omega
        subst h3
        simp only [Nat.one_mul, Nat.sub_self, Nat.zero_mul, Nat.add_zero]
        omega
      · have hmul : 1 * lv.padding ≤ (n - 1) * lv.padding :=
          Nat.mul_le_mul_right _ (by omega)
        omega
    have hrange : ∀ X : Nat, X ≤ 32767 → -32768 ≤ (X : Int) ∧ (X : Int) < 32768 := by
      intro X hX
      omega
    obtain ⟨l, hl, _, hr, _⟩ := main ((n * lv.element_height + (n - 1) * lv.padding : Nat) : Int)
      (hrange _ hfit) (by rw [hcast]; exact hpH)
    refine ⟨l, hl, ?_⟩
    rw [hr, hcast]
    apply Nat.le_antisymm
    · apply Nat.le_of_lt_succ
      rw [Nat.div_lt_iff_lt_mul hpos]
      obtain ⟨k, rfl⟩ : ∃ k, n = k + 1 := ⟨n - 1, by omega⟩
      have e : (k + 1 + 1) * (lv.element_height + lv.padding)
          = (k + 1) * lv.element_height + k * lv.padding
            + (lv.element_height + lv.padding) + lv.padding := by ring
      rw [e, Nat.add_sub_cancel]
      omega
    · exact (rows_fit_iff n _ _ _ h1 hpos).1 (Nat.le_refl _)

theorem C18_resize_witness :
    (listview_resize api_example lv_example 100 58).toOption.map (fun l => l.max_rows)
      = some 3 ∧
    ∃ l, listview_resize api_example lv_example 100 58 = Except.ok l ∧
      l.max_rows = (lv_example.padding + (max 0 (58 : Int)).toNat)
        / (lv_example.element_height + lv_example.padding) :=
  ⟨by decide,
    match (C18_resize api_example lv_example 100 58 (by decide) (by decide) (by decide)
      (by decide)).1 with
    | ⟨l, hl, _, hr, _⟩ => ⟨l, hl, hr⟩⟩

/-- C19, as stated, fails when `req_elements + (max_rows - 1)` wraps around: with
`max_rows = 2147483649`, `menu_columns = 1`, `max_elements = max_rows * menu_columns`
and `req_elements = 2147483648` the code divides `(2147483648 + 2147483648) mod 2 ^ 32
= 0` by `max_rows` and stores `cur_columns = 0`, although the ceiling of
`req_elements / max_rows` is `1` and `cur_elements = 2147483648 > 0`. -/
theorem C19_recompute_wraps :
    lv_wrap_columns.max_rows ≠ 0 ∧
    lv_wrap_columns.req_elements < lv_wrap_columns.max_elements ∧
    lv_wrap_columns.max_elements = lv_wrap_columns.max_rows * lv_wrap_columns.menu_columns ∧
    (listview_recompute_elements api_example lv_wrap_columns).cur_columns = 0 ∧
    (listview_recompute_elements api_example lv_wrap_columns).cur_elements = 2147483648 ∧
    ¬ (lv_wrap_columns.req_elements
        ≤ (listview_recompute_elements api_example lv_wrap_columns).cur_columns
          * lv_wrap_columns.max_rows) := by
  decide

/-- C19, amended: `listview_recompute_elements` changes nothing when `max_rows = 0`;
otherwise it sets `cur_elements = min req_elements max_elements`, sets `rchanged`,
and sets `cur_columns = menu_columns` when `req_elements >= max_elements`; when
`req_elements < max_elements` and `req_elements + (max_rows - 1) < 2 ^ 32` it sets
`cur_columns` to the ceiling of `req_elements / max_rows` (the least `c` with
`req_elements <= c * max_rows`).  Under that bound and
`max_elements = max_rows * menu_columns` this gives `cur_columns <= menu_columns`,
`cur_elements <= cur_columns * max_rows`, and `cur_columns >= 1` whenever
`cur_elements > 0`. -/
theorem C19_recompute_elements (api : widget_env) (lv : listview)
    (hrows : lv.max_rows < 4294967296) :
    (lv.max_rows = 0 → listview_recompute_elements api lv = lv) ∧
    (lv.max_rows ≠ 0 →
      (listview_recompute_elements api lv).cur_elements
        = min lv.req_elements lv.max_elements ∧
      (listview_recompute_elements api lv).rchanged = TRUE ∧
      (¬ lv.req_elements < lv.max_elements →
        (listview_recompute_elements api lv).cur_columns = lv.menu_columns) ∧
      (lv.req_elements < lv.max_elements →
        lv.req_elements + (lv.max_rows - 1) < 4294967296 →
        lv.req_elements ≤ (listview_recompute_elements api lv).cur_columns * lv.max_rows ∧
        ∀ c, lv.req_elements ≤ c * lv.max_rows →
          (listview_recompute_elements api lv).cur_columns ≤ c) ∧
      ((lv.req_elements < lv.max_elements →
          lv.req_elements + (lv.max_rows - 1) < 4294967296) →
        lv.max_elements = lv.max_rows * lv.menu_columns →
        (listview_recompute_elements api lv).cur_columns ≤ lv.menu_columns ∧
        (listview_recompute_elements api lv).cur_elements
          ≤ (listview_recompute_elements api lv).cur_columns * lv.max_rows ∧
        ((listview_recompute_elements api lv).cur_elements > 0 →
          (listview_recompute_elements api lv).cur_columns ≥ 1))) := by
  constructor
  · intro h0
    simp [listview_recompute_elements, h0]
  · intro h0
    have hpos : 0 < lv.max_rows := Nat.pos_of_ne_zero h0
    have hs1 : usub lv.max_rows 1 = lv.max_rows - 1 := usub_of_le _ _ hpos hrows
    by_cases hlt : lv.req_elements < lv.max_elements
    · have hel : (listview_recompute_elements api lv).cur_elements = lv.req_elements := by
        simp [listview_recompute_elements, h0, hlt]
      have hrc : (listview_recompute_elements api lv).rchanged = TRUE := by
        simp [listview_recompute_elements, h0, hlt]
      have hcol : lv.req_elements + (lv.max_rows - 1) < 4294967296 →
          (listview_recompute_elements api lv).cur_columns
            = (lv.req_elements + (lv.max_rows - 1)) / lv.max_rows := by
        intro hno
        have hadd : uadd lv.req_elements (lv.max_rows - 1)
            = lv.req_elements + (lv.max_rows - 1) := uadd_of_lt _ _ hno
        simp [listview_recompute_elements, h0, hlt, hs1, hadd]
      obtain ⟨hc1, hc2⟩ := ceil_div_spec lv.req_elements lv.max_rows hpos
      rw [hel, hrc]
      refine ⟨by omega, rfl, fun h => absurd hlt h, ?_, ?_⟩
      · intro _ hno
        rw [hcol hno]
        exact ⟨hc1, hc2⟩
      · intro hno hme
        rw [hcol (hno hlt)]
        refine ⟨?_, hc1, ?_⟩
        · apply hc2
          rw [Nat.mul_comm]
          omega
        · intro hgt
          by_contra hc
          have hz : (lv.req_elements + (lv.max_rows - 1)) / lv.max_rows = 0 := by omega
          rw [hz] at hc1
          omega
    · have hcol : (listview_recompute_elements api lv).cur_columns = lv.menu_columns := by
        simp [listview_recompute_elements, h0, hlt]
      have hel : (listview_recompute_elements api lv).cur_elements = lv.max_elements := by
        simp [listview_recompute_elements, h0, hlt]
      have hrc : (listview_recompute_elements api lv).rchanged = TRUE := by
        simp [listview_recompute_elements, h0, hlt]
      rw [hcol, hel, hrc]
      refine ⟨by omega, rfl, fun _ => rfl, fun h => absurd h hlt, ?_⟩
      intro _ hme
      refine ⟨Nat.le_refl _, ?_, ?_⟩
      · rw [hme, Nat.mul_comm]
      · intro hgt
        by_contra hc
        have hz : lv.menu_columns = 0 := by omega
        rw [hme, hz] at hgt
        simp at hgt

theorem C19_recompute_elements_witness :
    lv_example.max_rows < 4294967296 ∧
    (listview_recompute_elements api_example lv_example).cur_elements
      = min lv_example.req_elements lv_example.max_elements ∧
    (listview_recompute_elements api_example lv_example).cur_columns = lv_example.menu_columns ∧
    (listview_recompute_elements api_example lv_wrap_columns).cur_elements
      = min lv_wrap_columns.req_elements lv_wrap_columns.max_elements ∧
    (listview_recompute_elements api_example lv_wrap_columns).rchanged = TRUE :=
  ⟨by decide,
    ((C19_recompute_elements api_example lv_example (by decide)).2 (by decide)).1,
    ((C19_recompute_elements api_example lv_example (by decide)).2 (by decide)).2.2.1
      (by decide),
    ((C19_recompute_elements api_example lv_wrap_columns (by decide)).2 (by decide)).1,
    ((C19_recompute_elements api_example lv_wrap_columns (by decide)).2 (by decide)).2.1⟩

/-! ## Drawing the scrollbar -/

/-- C20: evaluation of `scrollbar_draw` on a bar 65 pixels high for 129 elements,
two of them visible, the last one selected.  All conditions of the claim hold;
`r = 64`, `handle = 1`, so `y = min 64 (65 - 1) = 64` and `height = max 2 1 = 2`:
the rectangle ends at `66`, one pixel below the bar. -/
theorem C20_handle_leaves_bar :
    1 ≤ sb_long_list.widget.h ∧ 2 ≤ sb_long_list.length ∧
    1 ≤ sb_long_list.pos_length ∧ sb_long_list.pos_length ≤ sb_long_list.length ∧
    sb_long_list.pos ≤ sb_long_list.length ∧
    scrollbar_r sb_long_list = 64 ∧ scrollbar_handle sb_long_list = 1 ∧
    scrollbar_draw_y sb_long_list = 64 ∧ scrollbar_draw_height sb_long_list = 2 ∧
    scrollbar_draw sb_long_list = { x := 96, y := 64, width := 4, height := 2 } ∧
    ¬ ((scrollbar_draw_y sb_long_list + scrollbar_draw_height sb_long_list : Nat)
        ≤ (65 : Nat)) := by
  decide

/-! ## Monitors -/

/-- C14: `monitor_dimensions` returns a copy of the first monitor, in list order,
whose half-open rectangle `[x, x + w) x [y, y + h)` contains the point; if no
monitor contains it the result is the whole screen: `x = 0`, `y = 0`, the width and
height of the screen, and all other fields zero. -/
theorem C14_monitor_dimensions (xs : x11_state) (x y : Int) :
    monitor_dimensions xs x y
      = match xs.monitors.find?
          (fun m => decide ((m.x ≤ x ∧ x < m.x + m.w) ∧ (m.y ≤ y ∧ y < m.y + m.h))) with
        | some m => m
        | none =>
          { monitor_id := 0, primary := 0, x := 0, y := 0,
            w := (xs.width_in_pixels : Int), h := (xs.height_in_pixels : Int),
            name := none } := by
  unfold monitor_dimensions
  rw [monitor_dimensions_loop_eq]
  rfl

/-- C13: evaluation of `monitor_active` with `config.monitor = "4294967297"` and two
monitors with ids 0 and 1.  The string is the name of no monitor, is not
"primary", and parses as the non-negative number 4294967297, which is the id of no
monitor; the code converts it to the `int` 1 when it calls
`monitor_get_dimension`, and returns `TRUE` with monitor 1 instead of `FALSE` with
the monitor at point (0,0). -/
theorem C13_monitor_id_narrowed :
    monitor_by_name (some "4294967297") xs_example.monitors = none ∧
    strtoll_example "4294967297" = some 4294967297 ∧
    (∀ m ∈ xs_example.monitors, m.monitor_id ≠ 4294967297) ∧
    int_of_gint64 4294967297 = 1 ∧
    monitor_active 2 strtoll_example xs_example (some "4294967297") workarea_zero
      = some (true,
          { monitor_id := 1, primary := 1, x := 1920, y := 0, w := 1920, h := 1080,
            name := some "HDMI-1" }) ∧
    monitor_dimensions xs_example 0 0
      = { monitor_id := 0, primary := 0, x := 0, y := 0, w := 1920, h := 1080,
          name := some "DP-1" } := by
  decide

/-! ## Colours -/

/-- C12: `color_get` resolves hexadecimal colour names without the X server (the
reply function `named` does not occur in the results): with the name trimmed of
surrounding white space, `#RRGGBB` gives alpha 255 and the bytes `RR`, `GG`, `BB`;
`#AARRGGBB` and `argb:AARRGGBB` give the bytes `AA`, `RR`, `GG`, `BB`; `#RGB` gives
alpha 255 and `16 * R`, `16 * G`, `16 * B`; `#` followed by any other number of
characters (C `char`s, the bytes that `strlen` counts) gives opaque white.  Every
component returned is a byte divided by 255. -/
theorem C12_color_get_hex (env : x11_env) (named : List Char → Option (Nat × Nat × Nat))
    (name : List Char) :
    (∀ (c1 c2 c3 c4 c5 c6 : Char) (v1 v2 v3 v4 v5 v6 : Nat),
      hex_digit_value c1 = some v1 → hex_digit_value c2 = some v2 →
      hex_digit_value c3 = some v3 → hex_digit_value c4 = some v4 →
      hex_digit_value c5 = some v5 → hex_digit_value c6 = some v6 →
      g_strstrip env name = ['#', c1, c2, c3, c4, c5, c6] →
      color_get env named name
        = color_of_bytes 255 (16 * v1 + v2) (16 * v3 + v4) (16 * v5 + v6)) ∧
    (∀ (c1 c2 c3 c4 c5 c6 c7 c8 : Char) (v1 v2 v3 v4 v5 v6 v7 v8 : Nat),
      hex_digit_value c1 = some v1 → hex_digit_value c2 = some v2 →
      hex_digit_value c3 = some v3 → hex_digit_value c4 = some v4 →
      hex_digit_value c5 = some v5 → hex_digit_value c6 = some v6 →
      hex_digit_value c7 = some v7 → hex_digit_value c8 = some v8 →
      (g_strstrip env name = ['#', c1, c2, c3, c4, c5, c6, c7, c8] ∨
        g_strstrip env name = "argb:".toList ++ [c1, c2, c3, c4, c5, c6, c7, c8]) →
      color_get env named name
        = color_of_bytes (16 * v1 + v2) (16 * v3 + v4) (16 * v5 + v6) (16 * v7 + v8)) ∧
    (∀ (c1 c2 c3 : Char) (v1 v2 v3 : Nat),
      hex_digit_value c1 = some v1 → hex_digit_value c2 = some v2 →
      hex_digit_value c3 = some v3 →
      g_strstrip env name = ['#', c1, c2, c3] →
      color_get env named name = color_of_bytes 255 (16 * v1) (16 * v2) (16 * v3)) ∧
    (∀ rest : List Char, g_strstrip env name = '#' :: rest →
      strlen rest ≠ 3 → strlen rest ≠ 6 → strlen rest ≠ 8 →
      color_get env named name = color_of_bytes 255 255 255 255) ∧
    (∃ a r g b : Nat, a ≤ 255 ∧ r ≤ 255 ∧ g ≤ 255 ∧ b ≤ 255 ∧
      color_get env named name = color_of_bytes a r g b) := by
  refine ⟨?_, ?_, ?_, ?_, ?_⟩
  · intro c1 c2 c3 c4 c5 c6 v1 v2 v3 v4 v5 v6 h1 h2 h3 h4 h5 h6 hs
    obtain ⟨b1, _⟩ := hex_digit_facts c1 v1 h1
    obtain ⟨b2, _⟩ := hex_digit_facts c2 v2 h2
    obtain ⟨b3, _⟩ := hex_digit_facts c3 v3 h3
    obtain ⟨b4, _⟩ := hex_digit_facts c4 v4 h4
    obtain ⟨b5, _⟩ := hex_digit_facts c5 v5 h5
    obtain ⟨b6, _⟩ := hex_digit_facts c6 v6 h6
    have hl : strlen [c1, c2, c3, c4, c5, c6] = 6 := by
      simp [strlen, utf8_bytes_hex c1 v1 h1, utf8_bytes_hex c2 v2 h2, utf8_bytes_hex c3 v3 h3,
        utf8_bytes_hex c4 v4 h4, utf8_bytes_hex c5 v5 h5, utf8_bytes_hex c6 v6 h6]
    rw [color_get_eq, color_get_sep_hash env named name _ hs,
      strtoul16_six c1 c2 c3 c4 c5 c6 v1 v2 v3 v4 v5 v6 h1 h2 h3 h4 h5 h6, hl]
    simp only [color_of_pixel]
    congr 1 <;> simp <;> omega
  · intro c1 c2 c3 c4 c5 c6 c7 c8 v1 v2 v3 v4 v5 v6 v7 v8 h1 h2 h3 h4 h5 h6 h7 h8 hs
    obtain ⟨b1, _⟩ := hex_digit_facts c1 v1 h1
    obtain ⟨b2, _⟩ := hex_digit_facts c2 v2 h2
    obtain ⟨b3, _⟩ := hex_digit_facts c3 v3 h3
    obtain ⟨b4, _⟩ := hex_digit_facts c4 v4 h4
    obtain ⟨b5, _⟩ := hex_digit_facts c5 v5 h5
    obtain ⟨b6, _⟩ := hex_digit_facts c6 v6 h6
    obtain ⟨b7, _⟩ := hex_digit_facts c7 v7 h7
    obtain ⟨b8, _⟩ := hex_digit_facts c8 v8 h8
    have hsep : color_get_sep env named name
        = color_of_pixel ((16 * v1 + v2) * 16777216 + (16 * v3 + v4) * 65536
            + (16 * v5 + v6) * 256 + (16 * v7 + v8)) := by
      have hl : strlen [c1, c2, c3, c4, c5, c6, c7, c8] = 8 := by
        simp [strlen, utf8_bytes_hex c1 v1 h1, utf8_bytes_hex c2 v2 h2,
          utf8_bytes_hex c3 v3 h3, utf8_bytes_hex c4 v4 h4, utf8_bytes_hex c5 v5 h5,
          utf8_bytes_hex c6 v6 h6, utf8_bytes_hex c7 v7 h7, utf8_bytes_hex c8 v8 h8]
      rcases hs with hs | hs
      · rw [color_get_sep_hash env named name _ hs,
          strtoul16_eight c1 c2 c3 c4 c5 c6 c7 c8 v1 v2 v3 v4 v5 v6 v7 v8
            h1 h2 h3 h4 h5 h6 h7 h8, hl]
        simp
      · rw [color_get_sep_argb env named name _ hs,
          strtoul16_eight c1 c2 c3 c4 c5 c6 c7 c8 v1 v2 v3 v4 v5 v6 v7 v8
            h1 h2 h3 h4 h5 h6 h7 h8]
    rw [color_get_eq, hsep]
    simp only [color_of_pixel]
    congr 1 <;> omega
  · intro c1 c2 c3 v1 v2 v3 h1 h2 h3 hs
    obtain ⟨b1, _⟩ := hex_digit_facts c1 v1 h1
    obtain ⟨b2, _⟩ := hex_digit_facts c2 v2 h2
    obtain ⟨b3, _⟩ := hex_digit_facts c3 v3 h3
    have m8 := mask_shift (v1 * 256 + v2 * 16 + v3) 8
    have m4 := mask_shift (v1 * 256 + v2 * 16 + v3) 4
    have m0 := mask_shift (v1 * 256 + v2 * 16 + v3) 0
    have e8 : (15 : Nat) <<< 8 = 3840 := by decide
    have e4 : (15 : Nat) <<< 4 = 240 := by decide
    have e0 : (15 : Nat) <<< 0 = 15 := by decide
    rw [e8] at m8
    rw [e4] at m4
    rw [e0, Nat.shiftRight_zero] at m0
    have hl : strlen [c1, c2, c3] = 3 := by
      simp [strlen, utf8_bytes_hex c1 v1 h1, utf8_bytes_hex c2 v2 h2, utf8_bytes_hex c3 v3 h3]
    rw [color_get_eq, color_get_sep_hash env named name _ hs,
      strtoul16_three c1 c2 c3 v1 v2 v3 h1 h2 h3, hl]
    simp only [m8, m4, m0]
    congr 1 <;> simp <;> omega
  · intro rest hs n3 n6 n8
    rw [color_get_eq, color_get_sep_hash env named name _ hs]
    simp only [n3, n6, n8, if_false]
    rfl
  · exact ⟨_, _, _, _, (color_get_sep_bytes env named name).1,
      (color_get_sep_bytes env named name).2.1, (color_get_sep_bytes env named name).2.2.1,
      (color_get_sep_bytes env named name).2.2.2, color_get_eq env named name⟩

theorem C12_color_get_hex_witness :
    color_get env_example named_example " #1a2B3c ".toList = color_of_bytes 255 26 43 60 ∧
    color_get env_example named_example "#f08".toList = color_of_bytes 255 240 0 128 ∧
    color_get env_example named_example "#é".toList = color_of_bytes 255 255 255 255 ∧
    color_get env_example named_example "#é1".toList = color_of_bytes 255 0 0 0 :=
  ⟨(C12_color_get_hex env_example named_example " #1a2B3c ".toList).1
      '1' 'a' '2' 'B' '3' 'c' 1 10 2 11 3 12 (by decide) (by decide) (by decide) (by decide)
      (by decide) (by decide) (by decide),
    (C12_color_get_hex env_example named_example "#f08".toList).2.2.1
      'f' '0' '8' 15 0 8 (by decide) (by decide) (by decide) (by decide),
    (C12_color_get_hex env_example named_example "#é".toList).2.2.2.1
      "é".toList (by decide) (by decide) (by decide) (by decide),
    by decide⟩

/-! ## Termination of the active-monitor lookup -/

/-- Claim C23: `monitor_active_from_id` returns for every identifier with at most
one call of itself (a call depth of two always gives a result, and more depth
gives the same one); the call for `-5` returns without a further call, `TRUE`
with the monitor under the pointer when the pointer query succeeds and `FALSE`
with `*mon` untouched otherwise; and for every other identifier whose own query
fails, and every identifier outside `-1 .. -5`, the result is that of `-5`. -/
theorem C23_monitor_active_from_id_returns (xs : x11_state) (mon_id : Int) (mon : workarea) :
    (∃ r, monitor_active_from_id 2 xs mon_id mon = some r) ∧
    (∀ fuel, 2 ≤ fuel →
      monitor_active_from_id fuel xs mon_id mon = monitor_active_from_id 2 xs mon_id mon) ∧
    (∀ fuel, 1 ≤ fuel → monitor_active_from_id fuel xs (-5) mon =
      some (match pointer_get xs with
        | some (x, y) => (true, monitor_dimensions xs x y)
        | none => (false, mon))) ∧
    (own_lookup_fails xs mon_id →
      monitor_active_from_id 2 xs mon_id mon = monitor_active_from_id 2 xs (-5) mon) := by
  refine ⟨?_, ?_, ?_, ?_⟩
  · have e2 : monitor_active_from_id 2 xs mon_id mon
        = monitor_active_from_id (1 + 1) xs mon_id mon := rfl
    rw [e2]
    unfold monitor_active_from_id
    rw [monitor_active_from_id_give_up 0]
    split_ifs
    · cases pointer_get xs with
      | none => exact ⟨_, rfl⟩
      | some p => exact ⟨_, rfl⟩
    · cases xs.current_desktop with
      | none => exact ⟨_, rfl⟩
      | some cd =>
        cases xs.desktop_viewport with
        | none => exact ⟨_, rfl⟩
        | some vp =>
          cases hg : vp.get? cd with
          | none => simp only [hg]; exact ⟨_, rfl⟩
          | some v => simp only [hg]; exact ⟨_, rfl⟩
    · cases xs.active_window <;> cases xs.geometry <;> cases xs.translate <;>
        exact ⟨_, rfl⟩
    · cases xs.active_window <;> cases xs.geometry <;> cases xs.translate <;>
        exact ⟨_, rfl⟩
    · cases pointer_get xs with
      | none => exact ⟨_, rfl⟩
      | some p => exact ⟨_, rfl⟩
    · exact ⟨_, rfl⟩
  · intro fuel hf
    obtain ⟨k, rfl⟩ : ∃ k, fuel = k + 2 := ⟨fuel - 2, by omega⟩
    exact monitor_active_from_id_fuel k xs mon_id mon
  · intro fuel hf
    obtain ⟨k, rfl⟩ : ∃ k, fuel = k + 1 := ⟨fuel - 1, by omega⟩
    exact monitor_active_from_id_give_up k xs mon
  · intro h
    rw [monitor_active_from_id_fails xs mon_id mon h, monitor_active_from_id_give_up 0,
      monitor_active_from_id_give_up 1]

/-! ## Moving down and up again -/

/-- Claim C25: on a list view with at least one element and a valid selection,
`listview_nav_down` followed by `listview_nav_up`, and `listview_nav_up` followed
by `listview_nav_down`, give back the selection they started from when `cycle` is
set; without `cycle` the same holds unless the selection is the last element
(down, then up) or the first one (up, then down). -/
theorem C25_nav_down_up_inverse (wqr : widget → widget) (l : listview)
    (hr : l.req_elements < 4294967296) (hsel : l.selected < l.req_elements) :
    (l.cycle = true →
      listview_get_selected (listview_nav_up wqr (listview_nav_down wqr (some l)))
        = l.selected ∧
      listview_get_selected (listview_nav_down wqr (listview_nav_up wqr (some l)))
        = l.selected) ∧
    (l.cycle = false →
      (l.selected ≠ l.req_elements - 1 →
        listview_get_selected (listview_nav_up wqr (listview_nav_down wqr (some l)))
          = l.selected) ∧
      (l.selected ≠ 0 →
        listview_get_selected (listview_nav_down wqr (listview_nav_up wqr (some l)))
          = l.selected)) := by
  obtain ⟨d, hd, hdr, hdc, hds⟩ := listview_nav_down_selected wqr l hr hsel
  obtain ⟨u, hu, hur, huc, hus⟩ := listview_nav_up_selected wqr l hr hsel
  have hdsel : d.selected < d.req_elements := by
    rw [hds, hdr]; split_ifs <;> omega
  have husel : u.selected < u.req_elements := by
    rw [hus, hur]; split_ifs <;> omega
  obtain ⟨du, hdu, _, _, hdus⟩ := listview_nav_up_selected wqr d (by omega) hdsel
  obtain ⟨ud, hud, _, _, huds⟩ := listview_nav_down_selected wqr u (by omega) husel
  rw [hd, hu, hdu, hud]
  simp only [listview_get_selected]
  rw [hdus, huds, hds, hus, hdr, hur, hdc, huc]
  refine ⟨fun hc => ⟨?_, ?_⟩, fun hc => ⟨fun hl => ?_, fun hf => ?_⟩⟩
  · simp only [hc, if_true]; split_ifs <;> omega
  · simp only [hc, if_true]; split_ifs <;> omega
  · simp only [hc]; split_ifs <;> omega
  · simp only [hc]; split_ifs <;> omega

theorem C25_nav_down_up_inverse_witness :
    listview_get_selected (listview_nav_up id (listview_nav_down id (some lv_example))) = 4 ∧
    listview_get_selected (listview_nav_down id (listview_nav_up id (some lv_example))) = 4 :=
  (C25_nav_down_up_inverse id lv_example (by decide) (by decide)).1 rfl

theorem C23_monitor_active_from_id_returns_witness :
    monitor_active_from_id 2 xs_example (-7) workarea_zero
      = monitor_active_from_id 2 xs_example (-5) workarea_zero :=
  (C23_monitor_active_from_id_returns xs_example (-7) workarea_zero).2.2.2
    (Or.inr (Or.inr (Or.inr ⟨by decide, by decide, by decide, by decide, by decide⟩)))

/-! ## The selection stays inside the list -/

/-- Claim C26: `listview_nav_right` on the list view that `listview_create`
returns (`req_elements = 0`, `max_rows = 0`) divides by `max_rows`; and on the
empty list that `listview_set_num_elements ( lv, 0 )` leaves (`selected = 4`,
`max_rows = 3`) it changes `selected` to `4294967295`. -/
theorem C26_nav_right_empty_list :
    (listview_create 10 1).req_elements = 0 ∧
    listview_nav_right id (some (listview_create 10 1)) = Except.error "division by zero" ∧
    (listview_set_num_elements api_example lv_example 0).req_elements = 0 ∧
    (listview_set_num_elements api_example lv_example 0).selected = 4 ∧
    (listview_nav_right id
        (some (listview_set_num_elements api_example lv_example 0))).toOption.map
      listview_get_selected = some 4294967295 := by
  decide

/-! ## The scrollbar after the number of elements changes -/

/-- Claim C27: after `listview_create`, `listview_set_max_columns ( lv, 1 )` and a
resize that makes five rows fit, `listview_set_num_elements ( lv, 3 )` leaves the
scrollbar with `length = 3` and `pos_length = 5`: the handle length was limited
by the length of before the call. -/
theorem C27_handle_longer_than_scrollbar :
    listview_set_max_columns (some (listview_create 10 1)) 1 = some lv_one_column ∧
    listview_resize api_example lv_one_column 100 50 = Except.ok lv_five_rows ∧
    (listview_set_num_elements api_example lv_five_rows 3).max_rows = 5 ∧
    (listview_set_num_elements api_example lv_five_rows 3).cur_columns = 1 ∧
    (listview_set_num_elements api_example lv_five_rows 3).scrollbar.map
      (fun s => (s.length, s.pos_length)) = some (3, 5) := by
  decide

/-! ## Outputs of a failed key parse -/

/-- Claim C29: `x11_parse_key` on the text "!foo", whose key name is not known,
returns `FALSE` and leaves `*mod` and `*key` alone, but `*release`, which was
`FALSE`, is `TRUE` afterwards. -/
theorem C29_release_written_on_failure :
    (x11_parse_key env_example "!foo".toList
      { mod := 0, key := 0, release := false, str := [] }).1 = false ∧
    (x11_parse_key env_example "!foo".toList
      { mod := 0, key := 0, release := false, str := [] }).2.mod = 0 ∧
    (x11_parse_key env_example "!foo".toList
      { mod := 0, key := 0, release := false, str := [] }).2.key = 0 ∧
    (x11_parse_key env_example "!foo".toList
      { mod := 0, key := 0, release := false, str := [] }).2.release = true := by
  decide

/-! ## The three-digit colour shorthand -/

/-- Claim C21, counterexample: after `listview_set_num_elements ( lv, 3 )` on a list
of ten that shows its third page, `last_offset = 6` exceeds `req_elements = 3`.
A click in the first box then returns `TRUE` and sets `last_click`, while the
selection stays `2`, which is not `last_offset + 0`. -/
theorem C21_click_with_stale_offset :
    (listview_set_num_elements api_example lv_scrolled 3).req_elements = 3 ∧
    (listview_set_num_elements api_example lv_scrolled 3).last_offset = 6 ∧
    (listview_set_num_elements api_example lv_scrolled 3).cur_elements = 3 ∧
    (listview_set_num_elements api_example lv_scrolled 3).selected = 2 ∧
    (listview_set_num_elements api_example lv_scrolled 3).last_click = 500 ∧
    (listview_set_num_elements api_example lv_scrolled 3).scrollbar = none ∧
    ((listview_set_num_elements api_example lv_scrolled 3).boxes.get? 0).map
      (fun b => click_env_example.widget_intersect (some b) 5 5) = some true ∧
    listview_clicked id click_env_example (listview_set_num_elements api_example lv_scrolled 3)
        { event_x := 5, event_y := 5, time := 1000 }
      = { ret := true,
          lv := { listview_set_num_elements api_example lv_scrolled 3 with
                  last_click := 1000 },
          xce := { event_x := 5, event_y := 5, time := 1000 },
          mouse_activated := false } := by
  decide

/-- Claim C21, amended: for a list view with `last_offset <= req_elements`, on a
click that misses the scrollbar and lands inside the `i`-th visible box
(`i < min(cur_elements, req_elements - last_offset)`) and in no visible box before
it: if `last_offset + i` is not the selected element it becomes the selection and
`mouse_activated` is not called;
if it is, the selection stays and `mouse_activated` is called exactly when
`(time - last_click) mod 2^32 < 200`; in both cases `last_click` becomes the event
time and `TRUE` is returned.  A click in no visible box returns `FALSE` and changes
neither `selected` nor `last_click`. -/
theorem C21_listview_clicked (wqr : widget → widget) (env : click_env) (lv : listview)
    (xce : xcb_button_press_event_t)
    (hr : lv.req_elements < 4294967296) (ht : xce.time < 4294967296)
    (hlc : lv.last_click < 4294967296) (hoff : lv.last_offset ≤ lv.req_elements)
    (hmiss : (env.widget_enabled (lv.scrollbar.map (fun s => s.widget))
      && env.widget_intersect (lv.scrollbar.map (fun s => s.widget))
          xce.event_x xce.event_y) = false) :
    (∀ i b, i < min lv.cur_elements (lv.req_elements - lv.last_offset) →
      lv.boxes.get? i = some b →
      env.widget_intersect (some b) xce.event_x xce.event_y = true →
      (∀ j bj, j < i → lv.boxes.get? j = some bj →
        env.widget_intersect (some bj) xce.event_x xce.event_y = false) →
      (listview_clicked wqr env lv xce).ret = true ∧
      (listview_clicked wqr env lv xce).lv.last_click = xce.time ∧
      (lv.last_offset + i ≠ lv.selected →
        (listview_clicked wqr env lv xce).lv.selected = lv.last_offset + i ∧
        (listview_clicked wqr env lv xce).mouse_activated = false) ∧
      (lv.last_offset + i = lv.selected →
        (listview_clicked wqr env lv xce).lv.selected = lv.selected ∧
        ((listview_clicked wqr env lv xce).mouse_activated = true ↔
          ((xce.time : Int) - (lv.last_click : Int)) % 4294967296 < 200))) ∧
    ((∀ j bj, j < min lv.cur_elements (lv.req_elements - lv.last_offset) →
        lv.boxes.get? j = some bj →
        env.widget_intersect (some bj) xce.event_x xce.event_y = false) →
      (listview_clicked wqr env lv xce).ret = false ∧
      (listview_clicked wqr env lv xce).lv.selected = lv.selected ∧
      (listview_clicked wqr env lv xce).lv.last_click = lv.last_click) := by
  have hmax : MIN lv.cur_elements (usub lv.req_elements lv.last_offset)
      = min lv.cur_elements (lv.req_elements - lv.last_offset) := by
    rw [MIN_eq_min, usub_of_le _ _ hoff hr]
  have hrun : listview_clicked wqr env lv xce
      = listview_clicked_loop wqr env { lv with scrollbar_scroll := false } xce
          (min lv.cur_elements (lv.req_elements - lv.last_offset)) 0 lv.boxes := by
    unfold listview_clicked
    dsimp only []
    rw [hmiss, hmax]
    rfl
  constructor
  · intro i b hi hb hhit hfirst
    have hloop := listview_clicked_loop_hit wqr env { lv with scrollbar_scroll := false } xce
      (min lv.cur_elements (lv.req_elements - lv.last_offset)) lv.boxes 0 i b hb hhit hfirst
      (by omega)
    rw [Nat.zero_add] at hloop
    rw [hrun, hloop]
    exact listview_clicked_box_spec wqr { lv with scrollbar_scroll := false } xce i hr ht hlc
      (by show lv.last_offset + i < lv.req_elements; omega)
  · intro hnone
    have hloop := listview_clicked_loop_miss wqr env { lv with scrollbar_scroll := false } xce
      (min lv.cur_elements (lv.req_elements - lv.last_offset)) lv.boxes 0
      (fun j bj hj hbj => hnone j bj (by omega) hbj)
    rw [hrun, hloop]
    exact ⟨rfl, rfl, rfl⟩

theorem C21_listview_clicked_witness :
    (listview_clicked id click_env_example lv_scrolled
      { event_x := 5, event_y := 25, time := 600 }).ret = true ∧
    (listview_clicked id click_env_example lv_scrolled
      { event_x := 5, event_y := 25, time := 600 }).lv.last_click = 600 :=
  ⟨((C21_listview_clicked id click_env_example lv_scrolled
      { event_x := 5, event_y := 25, time := 600 } (by decide) (by decide) (by decide)
      (by decide) (by decide)).1 1 { x := 0, y := 20, w := 100, h := 18, enabled := true }
      (by decide) (by decide) (by decide)
      (fun j bj hj hb => by
        have hj0 : j = 0 := by omega
        subst hj0
        have hbj : bj = { x := 0, y := 0, w := 100, h := 18, enabled := true } :=
          (Option.some.inj hb).symm
        subst hbj
        decide)).1,
   ((C21_listview_clicked id click_env_example lv_scrolled
      { event_x := 5, event_y := 25, time := 600 } (by decide) (by decide) (by decide)
      (by decide) (by decide)).1 1 { x := 0, y := 20, w := 100, h := 18, enabled := true }
      (by decide) (by decide) (by decide)
      (fun j bj hj hb => by
        have hj0 : j = 0 := by omega
        subst hj0
        have hbj : bj = { x := 0, y := 0, w := 100, h := 18, enabled := true } :=
          (Option.some.inj hb).symm
        subst hbj
        decide)).2.1⟩

/-! ## The colour cache -/

/-- Claim C28: `x11_canonalize_mask` is idempotent for every table of modifier
masks that the program can hold, that is, the table `x11_figure_out_masks` stores
for a keymap (of at most 32 modifiers, the limit of xkbcommon): in it no two of
the six modifier masks share a bit, the `ANY` entry of the table built at start-up
is the union of the six, and `x11_canonalize_mask ( x11_canonalize_mask ( m ) )`
equals `x11_canonalize_mask ( m )` for every mask `m`. -/
theorem C28_canonalize_idempotent (keymap : List String) (old : X11Mod → Nat) (m : Nat)
    (hmods : keymap.length ≤ 32) :
    (∀ i ∈ x11_modifiers, ∀ j ∈ x11_modifiers, i ≠ j →
      x11_mod_masks_of_keymap keymap old i &&& x11_mod_masks_of_keymap keymap old j = 0) ∧
    x11_mod_masks_of_keymap keymap (fun _ => 0) X11Mod.X11MOD_ANY
      = x11_mod_masks_of_keymap keymap (fun _ => 0) X11Mod.X11MOD_SHIFT
        ||| x11_mod_masks_of_keymap keymap (fun _ => 0) X11Mod.X11MOD_CONTROL
        ||| x11_mod_masks_of_keymap keymap (fun _ => 0) X11Mod.X11MOD_ALT
        ||| x11_mod_masks_of_keymap keymap (fun _ => 0) X11Mod.X11MOD_META
        ||| x11_mod_masks_of_keymap keymap (fun _ => 0) X11Mod.X11MOD_SUPER
        ||| x11_mod_masks_of_keymap keymap (fun _ => 0) X11Mod.X11MOD_HYPER ∧
    x11_canonalize_mask (x11_mod_masks_of_keymap keymap old)
        (x11_canonalize_mask (x11_mod_masks_of_keymap keymap old) m)
      = x11_canonalize_mask (x11_mod_masks_of_keymap keymap old) m := by
  obtain ⟨heq, hsub⟩ := x11_mod_masks_of_keymap_spec keymap old
  have hdisj : ∀ i ∈ x11_modifiers, ∀ j ∈ x11_modifiers, i ≠ j →
      x11_mod_masks_of_keymap keymap old i &&& x11_mod_masks_of_keymap keymap old j = 0 := by
    intro i hi j hj hij
    rw [heq i hi, heq j hj]
    exact x11_find_mod_mask_disjoint keymap hmods i hi j hj hij
  refine ⟨hdisj, ?_, x11_canonalize_mask_idem _ m hsub hdisj⟩
  simp [x11_mod_masks_of_keymap, x11_figure_out_masks, x11_modifiers]

theorem C28_canonalize_idempotent_witness :
    keymap_example.length ≤ 32 ∧
    x11_mod_masks_of_keymap keymap_example (fun _ => 0) X11Mod.X11MOD_ALT = 138888 ∧
    x11_canonalize_mask (x11_mod_masks_of_keymap keymap_example (fun _ => 0))
        (x11_canonalize_mask (x11_mod_masks_of_keymap keymap_example (fun _ => 0)) 8)
      = x11_canonalize_mask (x11_mod_masks_of_keymap keymap_example (fun _ => 0)) 8 :=
  ⟨by decide, by decide,
    (C28_canonalize_idempotent keymap_example (fun _ => 0) 8 (by decide)).2.2⟩

end Rofi
